import Mathlib

/-!
Fibratus configuration schema, `pkg/config/schema.go`.

The Go file holds one `text/template` string, `schema`, a JSON Schema (draft-07)
document with three template actions, the record `schemaConfig` and the function
`interpolateSchema` that renders the template.

* Part 1 embeds the source: the template text, a model of the fragment of
  `text/template` it uses, `interpolateSchema`, a reader for the fragment of JSON the
  text is written in, and the rendered schema as a JSON tree.  The tree is checked
  against the text: `interpolateSchema_tree` in part 3 shows that, for all bounds, the
  text `interpolateSchema` returns reads as `schemaTree`.
* Part 2 models the validator that consumes the rendered schema.  The validator is
  not part of `schema.go`; it is modelled from the specification.
* Part 3 states and proves the properties.
-/

namespace Fibratus

/-! ## JSON values -/

/-- A JSON value.  Numbers are rationals so that integral and non-integral
document values can both be written; objects keep the order of their members. -/
inductive Json where
  | null
  | bool (b : Bool)
  | num (q : ℚ)
  | str (s : String)
  | arr (xs : List Json)
  | obj (kvs : List (String × Json))

namespace Json

/-- The value stored under key `k` in an association list (first match). -/
def lookup (k : String) : List (String × Json) → Option Json
  | [] => none
  | (k', v) :: rest => if k' = k then some v else lookup k rest

/-- Member `k` of a JSON object; `none` for a missing key or a non-object. -/
def get? : Json → String → Option Json
  | obj kvs, k => lookup k kvs
  | _, _ => none

/-- The keys of an association list, in order. -/
def keys (kvs : List (String × Json)) : List String := kvs.map Prod.fst

/-- The element whose index, written in decimal, is `k`; `i` is the index of the first
element of the list. -/
def elemAt (k : String) : Nat → List Json → Option Json
  | _, [] => none
  | i, x :: rest => if toString i = k then some x else elemAt k (i + 1) rest

/-- One step into a value: a member of an object by key, an element of an array by
index. -/
def step : Json → String → Option Json
  | obj kvs, k => lookup k kvs
  | arr xs, k => elemAt k 0 xs
  | _, _ => none

/-- Follows a chain of object keys and array indices from a value. -/
def getPath : Json → List String → Option Json
  | j, [] => some j
  | j, k :: ks => match j.step k with
    | some v => getPath v ks
    | none => none

mutual
/-- Nesting depth of a JSON value: scalars have depth 0. -/
def depth : Json → Nat
  | arr xs => depthList xs + 1
  | obj kvs => depthMembers kvs + 1
  | _ => 0
/-- Largest depth among the elements of an array. -/
def depthList : List Json → Nat
  | [] => 0
  | x :: rest => max x.depth (depthList rest)
/-- Largest depth among the member values of an object. -/
def depthMembers : List (String × Json) → Nat
  | [] => 0
  | (_, x) :: rest => max x.depth (depthMembers rest)
end

end Json

/-! ## Part 1: the source -/

/-- The Go struct `schemaConfig`: the data the template is executed with.  The three
fields are `uint32` in the source; they are naturals here and every statement below
holds for all naturals, in particular for all `uint32` values. -/
structure schemaConfig where
  MaxBuffers : Nat
  MinBuffers : Nat
  MaxBufferSize : Nat
  deriving DecidableEq, Repr

/-- The package variable `schema` of schema.go (lines 26-424): the raw string literal,
byte for byte. -/
def schema : String := r##"
{
	"$schema": "http://json-schema.org/draft-07/schema#",
	"definitions": {"yara": {"$id": "#yara", "type": "object", "properties": {"enabled": {"type": "boolean"}}}},
	
	"type": "object",
	"properties": {
		"aggregator": {
			"type": "object",
			"properties": {
				"flush-period":		{"type": "string", "minLength": 2, "pattern": "[0-9]+ms|s"},
				"flush-timeout":	{"type": "string", "minLength": 2, "pattern": "[0-9]+s"}
			},
			"additionalProperties": false
		},
		"alertsenders": {
			"type": "object",
			"anyOf": [{
					"properties": {
						"mail": {
							"type": "object",
							"properties": {
								"enabled": 		{"type": "boolean"},
								"host": 		{"type": "string"},
								"port": 		{"type": "number"},
								"user": 		{"type": "string"},
								"password": 	{"type": "string"},
								"from": 		{"type": "string"},
								"to": 			{"type": "array", "items": {"type": "string", "format": "email"}}
							},
							"if": {
								"properties": {"enabled": { "const": true }}
							},
							"then": {
								"properties": {
									"from": {"type": "string", "format": "email"},
									"to": 	{"type": "array", "minItems": 1, "items": {"type": "string", "format": "email"}}
								}
							},
							"additionalProperties": false
						},
						"slack": {
							"type": "object",
							"properties": {
								"enabled": 		{"type": "boolean"},
								"url": 			{"type": "string"},
								"workspace": 	{"type": "string"},
								"channel": 		{"type": "string"},
								"emoji": 		{"type": "string"}
							},
							"if": {
								"properties": {"enabled": { "const": true }}
							},
							"then": {
								"properties": {"url": {"type": "string", "format": "uri", "minLength": 1, "pattern": "^(https?|http?)://"}}
							},
							"additionalProperties": false
						}
					},
					"additionalProperties": false
				}
			]
		},
		"api": {
			"type": "object",
			"properties": {
				"transport": 		{"type": "string", "minLength": 3},
				"timeout":			{"type": "string", "minLength": 2, "pattern": "[0-9]+s"}
			},
			"additionalProperties": false
		},
		"config-file": 		{"type": "string"},
		"debug-privilege":  {"type": "boolean"},
		"handle": {
			"type": "object",
			"properties": {
				"init-snapshot": 		{"type": "boolean"}
			},
			"additionalProperties": false
		},
		"kcap": {
			"type": "object",
			"properties": {
				"file":				{"type": "string"}
			},
			"additionalProperties": false
		},
		"filament": {
			"type": "object",
			"properties": {
				"name":				{"type": "string"},
				"path":				{"type": "string"},
				"flush-period":		{"type": "string",  "minLength": 2, "pattern": "[0-9]+ms|s"}
			},
			"additionalProperties": false
		},
		"kevent": {
			"type": "object",
			"properties": {
				"serialize-threads":	{"type": "boolean"},
				"serialize-images":		{"type": "boolean"},
				"serialize-handles":	{"type": "boolean"},
				"serialize-pe":			{"type": "boolean"},
				"serialize-envs":		{"type": "boolean"}
			},
			"additionalProperties": false
		},
		"kstream": {
			"type": "object",
			"properties": {
				"enable-thread": 	{"type": "boolean"},
				"enable-image": 	{"type": "boolean"},
				"enable-registry": 	{"type": "boolean"},
				"enable-fileio": 	{"type": "boolean"},
				"enable-handle": 	{"type": "boolean"},
				"enable-net": 		{"type": "boolean"},
				"min-buffers": 		{"type": "integer", "minimum": 1, "maximum": {{ .MinBuffers }}},
				"max-buffers": 		{"type": "integer", "minimum": 2, "maximum": {{ .MaxBuffers }}},
				"buffer-size":		{"type": "integer", "maximum": {{ .MaxBufferSize }}},
                "flush-interval":	{"type": "string", "minLength": 2, "pattern": "[0-9]+s"},
				"blacklist":		{
					"type": "object",
					"properties":	{
						"events":	{"type": "array", "items": [{"type": "string", "enum": ["CreateProcess", "CreateThread", "TerminateProcess", "TerminateThread", "LoadImage", "UnloadImage", "CreateFile", "CloseFile", "ReadFile", "WriteFile", "DeleteFile", "RenameFile", "SetFileInformation", "EnumDirectory", "RegCreateKey", "RegOpenKey", "RegSetValue", "RegQueryValue", "RegQueryKey", "RegDeleteKey", "RegDeleteValue", "Accept", "Send", "Recv", "Connect", "Disconnect", "Reconnect", "Retransmit", "CreateHandle", "CloseHandle"]}]},
						"images":	{"type": "array", "items": [{"type": "string", "minLength": 1}]}
					},
					"additionalProperties": false
				}
			},
			"additionalProperties": false
		},
		"logging": {
			"type": "object",
			"properties": {
				"level": 			{"type": "string"},
				"max-age":			{"type": "integer"},
				"max-backups":		{"type": "integer", "minimum": 1},
				"max-size":			{"type": "integer", "minimum": 1},
				"formatter":		{"type": "string", "enum": ["json", "text"]},
				"path":				{"type": "string"},
				"log-stdout":		{"type": "boolean"}
			},
			"additionalProperties": false
		},
		"output": {
			"type": "object",
			"anyOf": [{
					"properties": {
						"console": {
							"type": "object",
							"properties": {
								"enabled":		{"type": "boolean"},
								"format": 		{"type": "string", "enum": ["json", "pretty"]},
								"template": 	{"type": "string"},
								"kv-delimiter": {"type": "string"}
							},
							"additionalProperties": false
						},
						"elasticsearch": {
							"type": "object",
							"properties": {
								"enabled":					{"type": "boolean"},
								"servers": 					{"type": "array", "items": [{"type": "string", "minItems": 1, "format": "uri", "minLength": 1, "maxLength": 255, "pattern": "^(https?|http?)://"}]},
								"timeout": 					{"type": "string"},
								"index-name":				{"type": "string", "minLength": 1},
								"template-config":			{"type": "string"},
								"template-name":			{"type": "string", "minLength": 1},
								"healthcheck": 				{"type": "boolean"},
								"bulk-workers":				{"type": "integer", "minimum": 1},
								"sniff": 					{"type": "boolean"},
								"trace-log": 				{"type": "boolean"},
								"gzip-compression": 		{"type": "boolean"},
								"healthcheck-interval":		{"type": "string", "minLength": 2, "pattern": "[0-9]+s|m}"},
								"healthcheck-timeout":		{"type": "string", "minLength": 2, "pattern": "[0-9]+s|m}"},
								"flush-period":				{"type": "string", "minLength": 2, "pattern": "[0-9]+s|m}"},
								"username": 				{"type": "string"},
								"password": 				{"type": "string"},
								"tls-key": 					{"type": "string"},
								"tls-cert": 				{"type": "string"},
								"tls-ca": 					{"type": "string"},
								"tls-insecure-skip-verify": {"type": "boolean"}
							},
							"additionalProperties": false
						},
						"amqp": {
							"type": "object",
							"properties": {
								"enabled":					{"type": "boolean"},
								"url": 						{"type": "string", "format": "uri", "minLength": 1, "maxLength": 255, "pattern": "^(amqps?|amqp?)://"},
								"timeout": 					{"type": "string"},
								"exchange": 				{"type": "string", "minLength": 1},
								"exchange-type": 			{"type": "string", "enum": ["direct", "topic", "fanout", "header", "x-consistent-hash"]},
								"routing-key": 				{"type": "string", "minLength": 1},
								"delivery-mode": 			{"type": "string", "enum": ["transient", "persistent"]},
								"vhost": 					{"type": "string", "minLength": 1},
								"passive": 					{"type": "boolean"},
								"durable": 					{"type": "boolean"},
								"username": 				{"type": "string"},
								"password": 				{"type": "string"},
								"tls-key": 					{"type": "string"},
								"tls-cert": 				{"type": "string"},
								"tls-ca": 					{"type": "string"},
								"tls-insecure-skip-verify": {"type": "boolean"},
								"headers":					{"type": "object", "additionalProperties": true}
							},
							"additionalProperties": false
						}
					},
					"additionalProperties": false
				}
			]
		},
		"pe": {
			"type": "object",
			"properties": {
				"enabled":			{"type": "boolean"},
				"read-resources":	{"type": "boolean"},
				"read-symbols":		{"type": "boolean"},
				"read-sections":	{"type": "boolean"},
				"excluded-images":  {"type": "array", "items": [{"type": "string"}]}
			},
			"additionalProperties": false
		},
		"transformers": {
			"type": "object",
			"anyOf": [{
					"properties": {
						"remove": {
							"type": "object",
							"properties": {
								"enabled":  {"type": "boolean"},
								"kparams": 	{"type": "array", "items": [{"type": "string"}]}
							},
							"if": {
								"properties": {"enabled": { "const": true }}
							},
							"then": {
								"properties": {"kparams": 	{"type": "array", "minItems": 1, "items": [{"type": "string"}]}}
							},
							"additionalProperties": false
						},
						"rename": {
							"type": "object",
							"properties": {
								"enabled":  {"type": "boolean"},
								"kparams": 	{"type": "array", "items": [
														{
															"type": "object",
															"properties": {
																"old": {"type": "string", "minLength": 1},
																"new": {"type": "string", "minLength": 1}
															},
															"additionalProperties": false
														}
								]}
							},
							"if": {
								"properties": {"enabled": { "const": true }}
							},
							"then": {
								"properties": {"kparams": {"minItems": 1}}
							},
							"additionalProperties": false
						},
						"replace": {
							"type": "object",
							"properties": {
								"enabled":  		{"type": "boolean"},
								"replacements": 	{"type": "array", "items": [
														{
															"type": "object",
															"properties": {
																"kparam": 	{"type": "string", "minLength": 1},
																"old": 		{"type": "string", "minLength": 1},
																"new": 		{"type": "string"}
															},
															"additionalProperties": false
														}
								]}
							},
							"if": {
								"properties": {"enabled": { "const": true }}
							},
							"then": {
								"properties": {"replacements": 	{"minItems": 1}}
							},
							"additionalProperties": false
						},
						"tags": {
							"type": "object",
							"properties": {
								"enabled":  {"type": "boolean"},
								"tags": 	{"type": "array", "items": [
														{
															"type": "object",
															"properties": {
																"key": 	 {"type": "string", "minLength": 1},
																"value": {"type": "string", "minLength": 1}
															},
															"additionalProperties": false
														}
								]}
							},
							"if": {
								"properties": {"enabled": { "const": true }}
							},
							"then": {
								"properties": {"tags": 	{"minItems": 1}}
							},
							"additionalProperties": false
						},
						"trim": {
							"type": "object",
							"properties": {
								"enabled":  		{"type": "boolean"},
								"prefixes": 		{"type": "array", "items": [
														{
															"type": "object",
															"properties": {
																"kparam": 	{"type": "string", "minLength": 1},
																"trim": 	{"type": "string", "minLength": 1}
															},
															"additionalProperties": false
														}
								]},
								"suffixes": 		{"type": "array", "items": [
														{
															"type": "object",
															"properties": {
																"kparam": 	{"type": "string", "minLength": 1},
																"trim": 	{"type": "string", "minLength": 1}
															},
															"additionalProperties": false
														}
								]}
							},
							"if": {
								"properties": {"enabled": { "const": true }}
							},
							"then": {
								"properties": {"suffixes": 	{"minItems": 1}, "prefixes": {"minItems": 1}}
							},
							"additionalProperties": false
						}
					},
					"additionalProperties": false
				}
			]
		},
		"yara": {
			"type": "object",
			"properties": {
				"enabled":			{"type": "boolean"},
				"rule":				{
					"type": "object",
					"anyOf": [{
						"properties": {
							"paths":  {"type": "array", "items": [
											{
												"type": "object",
												"properties": {
													"path": 		{"type": "string"},
													"namespace": 	{"type": "string"}
												},
												"if": {
													"properties": {"enabled": {"$ref": "#yara", "const": true }}
												},
												"then": {
													"properties": {"path": 	{"minLength": 0}}
												},
												"additionalProperties": false
											}]
                	                     },
							"strings": 	{"type": "array"}
						},
						"additionalProperties": false 
					}]
				},
				"alert-via":		{"type": "string", "enum": ["slack", "mail"]},
				"alert-template":   {
						"type": 		"object",
						"properties": {
							"text":	 	{"type": "string"},
							"title": 	{"type": "string"}
						},
						"additionalProperties": false
				},
				"fastscan":			{"type": "boolean"},
				"skip-files":		{"type": "boolean"},
				"scan-timeout":		{"type": "string", "minLength": 2, "pattern": "[0-9]+s"},
				"excluded-files":	{"type": "array", "items": [{"type": "string", "minLength": 1}]},
				"excluded-procs":	{"type": "array", "items": [{"type": "string", "minLength": 1}]}
			},
			"additionalProperties": false
		}
	},
	"additionalProperties": false
}
"##

/-! ### The fragment of `text/template` used by `schema`

The template consists of text and of actions `{{ .Field }}`.  The model covers
exactly that fragment: an action whose content, blanks stripped, is a dot followed by a
field name.  Any other action makes `parse` fail, as an unterminated action does. -/

namespace Template

/-- A parsed template item: literal text, or the action that prints a field of the
data. -/
inductive Node where
  | text (s : List Char)
  | field (name : List Char)
  deriving DecidableEq, Repr

/-- State of the template lexer.  `acc` holds the characters of the current item in
reverse, `out` the finished items in reverse. -/
inductive LexState where
  /-- Inside text. -/
  | text (acc : List Char) (out : List Node)
  /-- Inside text, right after a single opening brace. -/
  | textBrace (acc : List Char) (out : List Node)
  /-- Inside an action, after the left delimiter. -/
  | action (acc : List Char) (out : List Node)
  /-- Inside an action, right after a single closing brace. -/
  | actionBrace (acc : List Char) (out : List Node)
  /-- An action outside the modelled fragment was met. -/
  | failed

/-- Appends the pending text, when there is some, to the finished items. -/
def flushText (acc : List Char) (out : List Node) : List Node :=
  match acc with
  | [] => out
  | _ :: _ => Node.text acc.reverse :: out

/-- Removes leading blanks. -/
def dropBlanks : List Char → List Char
  | ' ' :: cs => dropBlanks cs
  | cs => cs

/-- Characters of a field name: letters, digits and the underscore. -/
def isFieldChar (c : Char) : Bool := c.isAlphanum || c = '_'

/-- The content of an action as a field reference: blanks, a dot, a non-empty field
name, blanks. -/
def fieldOfAction (content : List Char) : Option (List Char) :=
  match dropBlanks content with
  | '.' :: rest =>
    let name := rest.takeWhile isFieldChar
    if name ≠ [] ∧ dropBlanks (rest.dropWhile isFieldChar) = [] then some name else none
  | _ => none

/-- One character of lexing.  The left delimiter is two opening braces, the right
delimiter two closing braces; a closing brace in text is ordinary text. -/
def lexStep : LexState → Char → LexState
  | .text acc out, c =>
    if c = '{' then .textBrace acc out else .text (c :: acc) out
  | .textBrace acc out, c =>
    if c = '{' then .action [] (flushText acc out)
    else .text (c :: '{' :: acc) out
  | .action acc out, c =>
    if c = '}' then .actionBrace acc out else .action (c :: acc) out
  | .actionBrace acc out, c =>
    if c = '}' then
      match fieldOfAction acc.reverse with
      | some name => .text [] (Node.field name :: out)
      | none => .failed
    else .action (c :: '}' :: acc) out
  | .failed, _ => .failed

/-- Runs the lexer over the characters of the template. -/
def lexRun : LexState → List Char → LexState
  | s, [] => s
  | .failed, _ => .failed
  | .text acc out, c :: cs => lexRun (lexStep (.text acc out) c) cs
  | .textBrace acc out, c :: cs => lexRun (lexStep (.textBrace acc out) c) cs
  | .action acc out, c :: cs => lexRun (lexStep (.action acc out) c) cs
  | .actionBrace acc out, c :: cs => lexRun (lexStep (.actionBrace acc out) c) cs

/-- The items at the end of the input; an action left open is a parse error. -/
def lexFinish : LexState → Option (List Node)
  | .text acc out => some (flushText acc out).reverse
  | .textBrace acc out => some (flushText ('{' :: acc) out).reverse
  | _ => none

/-- Model of `template.New(name).Parse(text)`: the list of items, or `none` when the
text does not parse. -/
def parse (text : String) : Option (List Node) :=
  lexFinish (lexRun (.text [] []) text.data)

/-- The decimal rendering of an unsigned integer, as `fmt` prints it. -/
def decimal (n : Nat) : List Char := Nat.toDigits 10 n

/-- Field lookup on `schemaConfig`; a name that is not a field is an execution error. -/
def evalField (cfg : schemaConfig) (name : List Char) : Except String Nat :=
  if name = "MaxBuffers".data then .ok cfg.MaxBuffers
  else if name = "MinBuffers".data then .ok cfg.MinBuffers
  else if name = "MaxBufferSize".data then .ok cfg.MaxBufferSize
  else .error ("can't evaluate field " ++ String.mk name ++ " in type config.schemaConfig")

/-- Executes the items against the data, appending to the buffer `buf`. -/
def executeNodes (cfg : schemaConfig) : List Node → List Char → Except String (List Char)
  | [], buf => .ok buf
  | .text s :: rest, buf => executeNodes cfg rest (buf ++ s)
  | .field name :: rest, buf =>
    match evalField cfg name with
    | .ok v => executeNodes cfg rest (buf ++ decimal v)
    | .error e => .error e

/-- Model of `tmpl.Execute(&b, data)` followed by `b.String()`. -/
def execute (tmpl : List Node) (cfg : schemaConfig) : Except String String :=
  match executeNodes cfg tmpl [] with
  | .ok buf => .ok (String.mk buf)
  | .error e => .error e

end Template

/-- The tail of `interpolateSchema`: `err := tmpl.Execute(&b, data)`, then the empty
string when `err != nil` and `b.String()` otherwise. -/
def executeOrEmpty (cfg : schemaConfig) (tmpl : List Template.Node) : String :=
  match Template.execute tmpl cfg with
  | .error _ => ""
  | .ok b => b

/-- The function `interpolateSchema` of schema.go.  The three package constants it
reads (`defaultMaxBuffers`, `defaultMinBuffers`, `maxBufferSize`) are defined outside
schema.go and are parameters here.  `none` stands for the panic of `template.Must` on a
template that does not parse. -/
def interpolateSchema (defaultMaxBuffers defaultMinBuffers maxBufferSize : Nat) :
    Option String :=
  (Template.parse schema).map
    (executeOrEmpty
      { MaxBuffers := defaultMaxBuffers
        MinBuffers := defaultMinBuffers
        MaxBufferSize := maxBufferSize })

/-- Whether the left template delimiter, two opening braces, occurs in the text. -/
def hasLeftDelim : List Char → Bool
  | [] => false
  | c :: cs => (c = '{' && cs.head? = some '{') || hasLeftDelim cs

/-- The kind of each parsed item: `none` for text, the field name for an action. -/
def Template.shape : List Template.Node → List (Option (List Char))
  | [] => []
  | .text _ :: rest => none :: shape rest
  | .field name :: rest => some name :: shape rest

/-- Character-by-character comparison of two texts. -/
def sameChars : List Char → List Char → Bool
  | [], [] => true
  | a :: as, b :: bs => a = b && sameChars as bs
  | _, _ => false

/-- The text items of a list of parsed items, in order. -/
def Template.texts (tmpl : List Template.Node) : List (List Char) :=
  tmpl.filterMap fun
    | .text s => some s
    | .field _ => none

/-- The template text a list of items was parsed from, with each action written
`{{ .Field }}`. -/
def Template.source : List Template.Node → List Char
  | [] => []
  | .text s :: rest => s ++ source rest
  | .field name :: rest => ['{', '{', ' ', '.'] ++ (name ++ ([' ', '}', '}'] ++ source rest))

/-- The `i`-th text item of a parse result; empty when there is none. -/
def Template.textAt (r : Option (List Template.Node)) (i : Nat) : List Char :=
  ((r.map Template.texts).getD []).getD i []

/-- The `i`-th stretch of literal text of the `schema` template. -/
def schemaText (i : Nat) : List Char := Template.textAt (Template.parse schema) i

/-- The template with the three actions replaced by the decimal renderings of the
fields they print: the text `interpolateSchema` is expected to return. -/
def rendered (cfg : schemaConfig) : List Char :=
  schemaText 0 ++ (Template.decimal cfg.MinBuffers ++ (schemaText 1 ++
    (Template.decimal cfg.MaxBuffers ++ (schemaText 2 ++
      (Template.decimal cfg.MaxBufferSize ++ schemaText 3)))))


/-! ### JSON with template holes -/

/-- A JSON value in which a number may be a template hole, the action that prints a
field of the data.  The numbers of the schema text are naturals. -/
inductive TJson where
  | null
  | bool (b : Bool)
  | num (n : Nat)
  | hole (field : String)
  | str (s : String)
  | arr (xs : List TJson)
  | obj (kvs : List (String × TJson))

namespace TJson

/-- What a hole becomes when the template is executed with `cfg`: the number the
field holds; a hole that names no field stays. -/
def fillHole (cfg : schemaConfig) (field : String) : TJson :=
  match Template.evalField cfg field.data with
  | .ok v => num v
  | .error _ => hole field

mutual
/-- Fills the holes of a tree with the fields of `cfg`. -/
def fill (cfg : schemaConfig) : TJson → TJson
  | hole field => fillHole cfg field
  | arr xs => arr (fillList cfg xs)
  | obj kvs => obj (fillMembers cfg kvs)
  | j => j
/-- Fills the holes of the elements of an array. -/
def fillList (cfg : schemaConfig) : List TJson → List TJson
  | [] => []
  | x :: rest => fill cfg x :: fillList cfg rest
/-- Fills the holes of the members of an object. -/
def fillMembers (cfg : schemaConfig) : List (String × TJson) → List (String × TJson)
  | [] => []
  | (k, v) :: rest => (k, fill cfg v) :: fillMembers cfg rest
end

mutual
/-- The JSON value of a tree without holes; a hole that is left has no value and
becomes `null`. -/
def toJson : TJson → Json
  | null => .null
  | bool b => .bool b
  | num n => .num n
  | hole _ => .null
  | str s => .str s
  | arr xs => .arr (toJsonList xs)
  | obj kvs => .obj (toJsonMembers kvs)
/-- The JSON values of the elements of an array. -/
def toJsonList : List TJson → List Json
  | [] => []
  | x :: rest => toJson x :: toJsonList rest
/-- The JSON values of the members of an object. -/
def toJsonMembers : List (String × TJson) → List (String × Json)
  | [] => []
  | (k, v) :: rest => (k, toJson v) :: toJsonMembers rest
end

mutual
/-- Structural equality test on trees. -/
def same : TJson → TJson → Bool
  | null, null => true
  | bool a, bool b => a = b
  | num a, num b => a = b
  | hole a, hole b => a = b
  | str a, str b => a = b
  | arr xs, arr ys => sameList xs ys
  | obj xs, obj ys => sameMembers xs ys
  | _, _ => false
/-- Structural equality test on lists of trees. -/
def sameList : List TJson → List TJson → Bool
  | [], [] => true
  | x :: xs, y :: ys => same x y && sameList xs ys
  | _, _ => false
/-- Structural equality test on lists of members. -/
def sameMembers : List (String × TJson) → List (String × TJson) → Bool
  | [], [] => true
  | (k, x) :: xs, (k', y) :: ys => k = k' && same x y && sameMembers xs ys
  | _, _ => false
end

end TJson

/-! ### Reading JSON text

The rendered schema is handed to a JSON decoder.  The model covers the fragment of JSON
(RFC 8259) the schema text uses: objects, arrays, strings without escapes, natural
numbers and the three literals; any other text does not parse, a string with a
backslash or a control character and a number with a leading zero, a sign, a fraction
or an exponent included.  The tokens and the trees have a hole as well, which no text
produces: it stands for a template action, so that the template itself can be read as
a tree. -/

/-- A JSON token. -/
inductive Token where
  | lbrace | rbrace | lbrack | rbrack | colon | comma
  | str (s : String)
  | num (n : Nat)
  | hole (field : String)
  | litTrue | litFalse | litNull
  deriving DecidableEq, Repr

/-- State of the tokenizer; `out` holds the finished tokens in reverse. -/
inductive TokState where
  /-- Between tokens. -/
  | idle (out : List Token)
  /-- Inside a string; `acc` holds its characters in reverse. -/
  | inStr (acc : List Char) (out : List Token)
  /-- Inside a number; `v` is the value of the digits read.  No digit may follow a
  leading zero. -/
  | inNum (v : Nat) (out : List Token)
  /-- Inside a literal name; `acc` holds its characters in reverse. -/
  | inWord (acc : List Char) (out : List Token)
  /-- The text is outside the fragment. -/
  | failed

namespace Token

/-- The value of a decimal digit. -/
def digitValue (c : Char) : Nat := c.toNat - 48

/-- The token of a literal name. -/
def ofWord (w : List Char) : Option Token :=
  if w = ['t', 'r', 'u', 'e'] then some .litTrue
  else if w = ['f', 'a', 'l', 's', 'e'] then some .litFalse
  else if w = ['n', 'u', 'l', 'l'] then some .litNull
  else none

/-- What a character between tokens starts. -/
inductive Start where
  /-- A blank: nothing. -/
  | blank
  /-- A token of one character. -/
  | token (t : Token)
  /-- A string. -/
  | string
  /-- A number, with the value of its first digit. -/
  | number (v : Nat)
  /-- A literal name, with its first letter. -/
  | word (c : Char)
  /-- Nothing of the fragment. -/
  | nothing

/-- What the character `c` starts between tokens. -/
def start (c : Char) : Start :=
  if c = ' ' ∨ c = '\t' ∨ c = '\n' ∨ c = '\r' then .blank
  else if c = '{' then .token lbrace
  else if c = '}' then .token rbrace
  else if c = '[' then .token lbrack
  else if c = ']' then .token rbrack
  else if c = ':' then .token colon
  else if c = ',' then .token comma
  else if c = '"' then .string
  else if c.isDigit then .number (digitValue c)
  else if c.isLower then .word c
  else .nothing

/-- A character between tokens. -/
def idleStep (out : List Token) (c : Char) : TokState :=
  match start c with
  | .blank => .idle out
  | .token t => .idle (t :: out)
  | .string => .inStr [] out
  | .number v => .inNum v out
  | .word c => .inWord [c] out
  | .nothing => .failed

/-- One character of tokenizing. -/
def step : TokState → Char → TokState
  | .idle out, c => idleStep out c
  | .inStr acc out, c =>
    if c = '"' then .idle (str (String.mk acc.reverse) :: out)
    else if c = '\\' then .failed
    else if c.toNat < 32 then .failed
    else .inStr (c :: acc) out
  | .inNum v out, c =>
    if c.isDigit then
      if v = 0 then .failed else .inNum (v * 10 + digitValue c) out
    else idleStep (num v :: out) c
  | .inWord acc out, c =>
    if c.isLower then .inWord (c :: acc) out
    else
      match ofWord acc.reverse with
      | some t => idleStep (t :: out) c
      | none => .failed
  | .failed, _ => .failed

/-- Runs the tokenizer over a text. -/
def run : TokState → List Char → TokState
  | s, [] => s
  | .failed, _ => .failed
  | .idle out, c :: cs => run (step (.idle out) c) cs
  | .inStr acc out, c :: cs => run (step (.inStr acc out) c) cs
  | .inNum v out, c :: cs => run (step (.inNum v out) c) cs
  | .inWord acc out, c :: cs => run (step (.inWord acc out) c) cs

/-- The tokens at the end of the text; a string left open does not parse. -/
def finish : TokState → Option (List Token)
  | .idle out => some out.reverse
  | .inNum v out => some (num v :: out).reverse
  | .inWord acc out =>
    match ofWord acc.reverse with
    | some t => some (t :: out).reverse
    | none => none
  | _ => none

/-- The tokens of a JSON text. -/
def tokenize (text : List Char) : Option (List Token) := finish (run (.idle []) text)

/-- The value of a token that is a value by itself. -/
def scalar? : Token → Option TJson
  | str s => some (.str s)
  | num n => some (.num n)
  | hole f => some (.hole f)
  | litTrue => some (.bool true)
  | litFalse => some (.bool false)
  | litNull => some .null
  | _ => none

end Token

/-- An array or object under construction; the finished parts are held in reverse. -/
inductive Frame where
  | arr (items : List TJson)
  | obj (members : List (String × TJson)) (key : Option String)

/-- What the parser expects next. -/
inductive Expect where
  /-- A value. -/
  | value
  /-- A value or the end of the array, after the opening bracket. -/
  | valueOrEnd
  /-- A key or the end of the object, after the opening brace. -/
  | keyOrEnd
  /-- A key, after a comma in an object. -/
  | key
  /-- The colon after a key. -/
  | colon
  /-- A comma or the end of the array or object, after a value. -/
  | commaOrEnd
  deriving DecidableEq, Repr

/-- State of the parser: the enclosing arrays and objects, innermost first. -/
inductive ParseState where
  | run (expect : Expect) (stack : List Frame)
  | done (value : TJson)
  | failed

namespace ParseState

/-- A finished value goes into the innermost array or object, or is the result. -/
def deliver (v : TJson) : List Frame → ParseState
  | [] => .done v
  | .arr items :: rest => .run .commaOrEnd (.arr (v :: items) :: rest)
  | .obj members (some k) :: rest => .run .commaOrEnd (.obj ((k, v) :: members) none :: rest)
  | .obj _ none :: _ => .failed

/-- A token where a value is expected. -/
def valueStep (stack : List Frame) (t : Token) : ParseState :=
  match t.scalar? with
  | some v => deliver v stack
  | none =>
    match t with
    | .lbrace => .run .keyOrEnd (.obj [] none :: stack)
    | .lbrack => .run .valueOrEnd (.arr [] :: stack)
    | _ => .failed

/-- A string token where a key is expected. -/
def keyStep (stack : List Frame) (t : Token) : ParseState :=
  match t, stack with
  | .str k, .obj members none :: rest => .run .colon (.obj members (some k) :: rest)
  | _, _ => .failed

/-- The end of the innermost array or object. -/
def closeStep (stack : List Frame) (t : Token) : ParseState :=
  match t, stack with
  | .rbrack, .arr items :: rest => deliver (.arr items.reverse) rest
  | .rbrace, .obj members none :: rest => deliver (.obj members.reverse) rest
  | _, _ => .failed

/-- One token of parsing. -/
def step (expect : Expect) (stack : List Frame) (t : Token) : ParseState :=
  match expect with
  | .value => valueStep stack t
  | .valueOrEnd => if t = .rbrack then closeStep stack t else valueStep stack t
  | .keyOrEnd => if t = .rbrace then closeStep stack t else keyStep stack t
  | .key => keyStep stack t
  | .colon => if t = .colon then .run .value stack else .failed
  | .commaOrEnd =>
    if t = .comma then
      match stack with
      | .arr items :: rest => .run .value (.arr items :: rest)
      | .obj members none :: rest => .run .key (.obj members none :: rest)
      | _ => .failed
    else closeStep stack t

/-- Runs the parser over the tokens. -/
def runTokens : ParseState → List Token → ParseState
  | s, [] => s
  | .run expect stack, t :: ts => runTokens (step expect stack t) ts
  | .done _, _ :: _ => .failed
  | .failed, _ => .failed

/-- The value at the end of the tokens. -/
def result : ParseState → Option TJson
  | .done v => some v
  | _ => none

end ParseState

/-- The tree of a list of tokens: one JSON value. -/
def parseTokens (ts : List Token) : Option TJson :=
  (ParseState.runTokens (.run .value []) ts).result

/-- Model of the JSON decoder on the fragment: the value of a JSON text. -/
def parseJson (text : String) : Option Json :=
  match Token.tokenize text.data with
  | some ts => (parseTokens ts).map TJson.toJson
  | none => none

/-- The tokens of a template: those of its texts, and a hole for each action. -/
def templateTokens : List Template.Node → Option (List Token) → Option (List Token)
  | [], acc => acc
  | _, none => none
  | .text s :: rest, some acc =>
    match Token.tokenize s with
    | some ts => templateTokens rest (some (acc ++ ts))
    | none => none
  | .field name :: rest, some acc =>
    templateTokens rest (some (acc ++ [Token.hole (String.mk name)]))

/-- The tree of a template: its tokens, parsed. -/
def templateTree (tmpl : Option (List Template.Node)) : Option TJson :=
  match tmpl with
  | some nodes =>
    match templateTokens nodes (some []) with
    | some ts => parseTokens ts
    | none => none
  | none => none

namespace TokState

/-- The finished tokens of a state, in reverse. -/
def out : TokState → List Token
  | .idle o => o
  | .inStr _ o => o
  | .inNum _ o => o
  | .inWord _ o => o
  | .failed => []

/-- Whether the tokenizer is between tokens. -/
def isIdle : TokState → Bool
  | .idle _ => true
  | _ => false

/-- The state with the tokens `older` put before its own. -/
def after (older : List Token) : TokState → TokState
  | .idle o => .idle (o ++ older)
  | .inStr acc o => .inStr acc (o ++ older)
  | .inNum v o => .inNum v (o ++ older)
  | .inWord acc o => .inWord acc (o ++ older)
  | .failed => .failed

end TokState

/-- Whether a text starts with a character that is not a digit. -/
def startsWithNonDigit : List Char → Bool
  | c :: _ => !c.isDigit
  | [] => false

/-- The value of a sequence of decimal digits that follows the value `v`. -/
def digitsValue (v : Nat) (ds : List Char) : Nat :=
  ds.foldl (fun v c => v * 10 + Token.digitValue c) v

/-- What a hole token becomes when the template is executed with `cfg`. -/
def Token.fill (cfg : schemaConfig) : Token → Token
  | .hole field =>
    match Template.evalField cfg field.data with
    | .ok v => .num v
    | .error _ => .hole field
  | t => t

/-- Whether a token is a hole. -/
def Token.isHole : Token → Bool
  | .hole _ => true
  | _ => false

/-- Fills the holes of a frame. -/
def Frame.fill (cfg : schemaConfig) : Frame → Frame
  | .arr items => .arr (TJson.fillList cfg items)
  | .obj members key => .obj (TJson.fillMembers cfg members) key

/-- Fills the holes of a parser state. -/
def ParseState.fill (cfg : schemaConfig) : ParseState → ParseState
  | .run expect stack => .run expect (stack.map (Frame.fill cfg))
  | .done v => .done (v.fill cfg)
  | .failed => .failed

/-! ### The template as a tree

The text of `schema` is a JSON document in which three numbers are template actions.
`schemaTemplate` is that document as a tree, each action a hole that carries the name
of the field it prints; the members of `properties` are separate definitions. -/

/-- The `definitions` member of the schema (line 29 of schema.go). -/
def SchemaTemplate.definitions : TJson :=
  .obj [
    ("yara", .obj [
      ("$id", .str "#yara"),
      ("type", .str "object"),
      ("properties", .obj [("enabled", .obj [("type", .str "boolean")])])])]

/-- The schema of the top-level property `aggregator`. -/
def SchemaTemplate.aggregator : TJson :=
  .obj [
    ("type", .str "object"),
    ("properties", .obj [
      ("flush-period", .obj [("type", .str "string"), ("minLength", .num 2), ("pattern", .str "[0-9]+ms|s")]),
      ("flush-timeout", .obj [("type", .str "string"), ("minLength", .num 2), ("pattern", .str "[0-9]+s")])]),
    ("additionalProperties", .bool false)]

/-- The schema of the top-level property `alertsenders`. -/
def SchemaTemplate.alertsenders : TJson :=
  .obj [
    ("type", .str "object"),
    ("anyOf", .arr [
      .obj [
        ("properties", .obj [
          ("mail", .obj [
            ("type", .str "object"),
            ("properties", .obj [
              ("enabled", .obj [("type", .str "boolean")]),
              ("host", .obj [("type", .str "string")]),
              ("port", .obj [("type", .str "number")]),
              ("user", .obj [("type", .str "string")]),
              ("password", .obj [("type", .str "string")]),
              ("from", .obj [("type", .str "string")]),
              ("to", .obj [("type", .str "array"), ("items", .obj [("type", .str "string"), ("format", .str "email")])])]),
            ("if", .obj [
              ("properties", .obj [("enabled", .obj [("const", .bool true)])])]),
            ("then", .obj [
              ("properties", .obj [
                ("from", .obj [("type", .str "string"), ("format", .str "email")]),
                ("to", .obj [("type", .str "array"), ("minItems", .num 1), ("items", .obj [("type", .str "string"), ("format", .str "email")])])])]),
            ("additionalProperties", .bool false)]),
          ("slack", .obj [
            ("type", .str "object"),
            ("properties", .obj [
              ("enabled", .obj [("type", .str "boolean")]),
              ("url", .obj [("type", .str "string")]),
              ("workspace", .obj [("type", .str "string")]),
              ("channel", .obj [("type", .str "string")]),
              ("emoji", .obj [("type", .str "string")])]),
            ("if", .obj [
              ("properties", .obj [("enabled", .obj [("const", .bool true)])])]),
            ("then", .obj [
              ("properties", .obj [("url", .obj [("type", .str "string"), ("format", .str "uri"), ("minLength", .num 1), ("pattern", .str "^(https?|http?)://")])])]),
            ("additionalProperties", .bool false)])]),
        ("additionalProperties", .bool false)]])]

/-- The schema of the top-level property `api`. -/
def SchemaTemplate.api : TJson :=
  .obj [
    ("type", .str "object"),
    ("properties", .obj [("transport", .obj [("type", .str "string"), ("minLength", .num 3)]), ("timeout", .obj [("type", .str "string"), ("minLength", .num 2), ("pattern", .str "[0-9]+s")])]),
    ("additionalProperties", .bool false)]

/-- The schema of the top-level property `config-file`. -/
def SchemaTemplate.configFile : TJson :=
  .obj [("type", .str "string")]

/-- The schema of the top-level property `debug-privilege`. -/
def SchemaTemplate.debugPrivilege : TJson :=
  .obj [("type", .str "boolean")]

/-- The schema of the top-level property `handle`. -/
def SchemaTemplate.handle : TJson :=
  .obj [
    ("type", .str "object"),
    ("properties", .obj [("init-snapshot", .obj [("type", .str "boolean")])]),
    ("additionalProperties", .bool false)]

/-- The schema of the top-level property `kcap`. -/
def SchemaTemplate.kcap : TJson :=
  .obj [
    ("type", .str "object"),
    ("properties", .obj [("file", .obj [("type", .str "string")])]),
    ("additionalProperties", .bool false)]

/-- The schema of the top-level property `filament`. -/
def SchemaTemplate.filament : TJson :=
  .obj [
    ("type", .str "object"),
    ("properties", .obj [("name", .obj [("type", .str "string")]), ("path", .obj [("type", .str "string")]), ("flush-period", .obj [("type", .str "string"), ("minLength", .num 2), ("pattern", .str "[0-9]+ms|s")])]),
    ("additionalProperties", .bool false)]

/-- The schema of the top-level property `kevent`. -/
def SchemaTemplate.kevent : TJson :=
  .obj [
    ("type", .str "object"),
    ("properties", .obj [
      ("serialize-threads", .obj [("type", .str "boolean")]),
      ("serialize-images", .obj [("type", .str "boolean")]),
      ("serialize-handles", .obj [("type", .str "boolean")]),
      ("serialize-pe", .obj [("type", .str "boolean")]),
      ("serialize-envs", .obj [("type", .str "boolean")])]),
    ("additionalProperties", .bool false)]

/-- The schema of the top-level property `kstream`. -/
def SchemaTemplate.kstream : TJson :=
  .obj [
    ("type", .str "object"),
    ("properties", .obj [
      ("enable-thread", .obj [("type", .str "boolean")]),
      ("enable-image", .obj [("type", .str "boolean")]),
      ("enable-registry", .obj [("type", .str "boolean")]),
      ("enable-fileio", .obj [("type", .str "boolean")]),
      ("enable-handle", .obj [("type", .str "boolean")]),
      ("enable-net", .obj [("type", .str "boolean")]),
      ("min-buffers", .obj [("type", .str "integer"), ("minimum", .num 1), ("maximum", .hole "MinBuffers")]),
      ("max-buffers", .obj [("type", .str "integer"), ("minimum", .num 2), ("maximum", .hole "MaxBuffers")]),
      ("buffer-size", .obj [("type", .str "integer"), ("maximum", .hole "MaxBufferSize")]),
      ("flush-interval", .obj [("type", .str "string"), ("minLength", .num 2), ("pattern", .str "[0-9]+s")]),
      ("blacklist", .obj [
        ("type", .str "object"),
        ("properties", .obj [
          ("events", .obj [
            ("type", .str "array"),
            ("items", .arr [
              .obj [
                ("type", .str "string"),
                ("enum", .arr [.str "CreateProcess", .str "CreateThread", .str "TerminateProcess", .str "TerminateThread", .str "LoadImage", .str "UnloadImage", .str "CreateFile", .str "CloseFile", .str "ReadFile", .str "WriteFile", .str "DeleteFile", .str "RenameFile", .str "SetFileInformation", .str "EnumDirectory", .str "RegCreateKey", .str "RegOpenKey", .str "RegSetValue", .str "RegQueryValue", .str "RegQueryKey", .str "RegDeleteKey", .str "RegDeleteValue", .str "Accept", .str "Send", .str "Recv", .str "Connect", .str "Disconnect", .str "Reconnect", .str "Retransmit", .str "CreateHandle", .str "CloseHandle"])]])]),
          ("images", .obj [
            ("type", .str "array"),
            ("items", .arr [
              .obj [("type", .str "string"), ("minLength", .num 1)]])])]),
        ("additionalProperties", .bool false)])]),
    ("additionalProperties", .bool false)]

/-- The schema of the top-level property `logging`. -/
def SchemaTemplate.logging : TJson :=
  .obj [
    ("type", .str "object"),
    ("properties", .obj [
      ("level", .obj [("type", .str "string")]),
      ("max-age", .obj [("type", .str "integer")]),
      ("max-backups", .obj [("type", .str "integer"), ("minimum", .num 1)]),
      ("max-size", .obj [("type", .str "integer"), ("minimum", .num 1)]),
      ("formatter", .obj [("type", .str "string"), ("enum", .arr [.str "json", .str "text"])]),
      ("path", .obj [("type", .str "string")]),
      ("log-stdout", .obj [("type", .str "boolean")])]),
    ("additionalProperties", .bool false)]

/-- The schema of the top-level property `output`. -/
def SchemaTemplate.output : TJson :=
  .obj [
    ("type", .str "object"),
    ("anyOf", .arr [
      .obj [
        ("properties", .obj [
          ("console", .obj [
            ("type", .str "object"),
            ("properties", .obj [
              ("enabled", .obj [("type", .str "boolean")]),
              ("format", .obj [("type", .str "string"), ("enum", .arr [.str "json", .str "pretty"])]),
              ("template", .obj [("type", .str "string")]),
              ("kv-delimiter", .obj [("type", .str "string")])]),
            ("additionalProperties", .bool false)]),
          ("elasticsearch", .obj [
            ("type", .str "object"),
            ("properties", .obj [
              ("enabled", .obj [("type", .str "boolean")]),
              ("servers", .obj [
                ("type", .str "array"),
                ("items", .arr [
                  .obj [("type", .str "string"), ("minItems", .num 1), ("format", .str "uri"), ("minLength", .num 1), ("maxLength", .num 255), ("pattern", .str "^(https?|http?)://")]])]),
              ("timeout", .obj [("type", .str "string")]),
              ("index-name", .obj [("type", .str "string"), ("minLength", .num 1)]),
              ("template-config", .obj [("type", .str "string")]),
              ("template-name", .obj [("type", .str "string"), ("minLength", .num 1)]),
              ("healthcheck", .obj [("type", .str "boolean")]),
              ("bulk-workers", .obj [("type", .str "integer"), ("minimum", .num 1)]),
              ("sniff", .obj [("type", .str "boolean")]),
              ("trace-log", .obj [("type", .str "boolean")]),
              ("gzip-compression", .obj [("type", .str "boolean")]),
              ("healthcheck-interval", .obj [("type", .str "string"), ("minLength", .num 2), ("pattern", .str "[0-9]+s|m\x7d")]),
              ("healthcheck-timeout", .obj [("type", .str "string"), ("minLength", .num 2), ("pattern", .str "[0-9]+s|m\x7d")]),
              ("flush-period", .obj [("type", .str "string"), ("minLength", .num 2), ("pattern", .str "[0-9]+s|m\x7d")]),
              ("username", .obj [("type", .str "string")]),
              ("password", .obj [("type", .str "string")]),
              ("tls-key", .obj [("type", .str "string")]),
              ("tls-cert", .obj [("type", .str "string")]),
              ("tls-ca", .obj [("type", .str "string")]),
              ("tls-insecure-skip-verify", .obj [("type", .str "boolean")])]),
            ("additionalProperties", .bool false)]),
          ("amqp", .obj [
            ("type", .str "object"),
            ("properties", .obj [
              ("enabled", .obj [("type", .str "boolean")]),
              ("url", .obj [("type", .str "string"), ("format", .str "uri"), ("minLength", .num 1), ("maxLength", .num 255), ("pattern", .str "^(amqps?|amqp?)://")]),
              ("timeout", .obj [("type", .str "string")]),
              ("exchange", .obj [("type", .str "string"), ("minLength", .num 1)]),
              ("exchange-type", .obj [("type", .str "string"), ("enum", .arr [.str "direct", .str "topic", .str "fanout", .str "header", .str "x-consistent-hash"])]),
              ("routing-key", .obj [("type", .str "string"), ("minLength", .num 1)]),
              ("delivery-mode", .obj [("type", .str "string"), ("enum", .arr [.str "transient", .str "persistent"])]),
              ("vhost", .obj [("type", .str "string"), ("minLength", .num 1)]),
              ("passive", .obj [("type", .str "boolean")]),
              ("durable", .obj [("type", .str "boolean")]),
              ("username", .obj [("type", .str "string")]),
              ("password", .obj [("type", .str "string")]),
              ("tls-key", .obj [("type", .str "string")]),
              ("tls-cert", .obj [("type", .str "string")]),
              ("tls-ca", .obj [("type", .str "string")]),
              ("tls-insecure-skip-verify", .obj [("type", .str "boolean")]),
              ("headers", .obj [("type", .str "object"), ("additionalProperties", .bool true)])]),
            ("additionalProperties", .bool false)])]),
        ("additionalProperties", .bool false)]])]

/-- The schema of the top-level property `pe`. -/
def SchemaTemplate.pe : TJson :=
  .obj [
    ("type", .str "object"),
    ("properties", .obj [
      ("enabled", .obj [("type", .str "boolean")]),
      ("read-resources", .obj [("type", .str "boolean")]),
      ("read-symbols", .obj [("type", .str "boolean")]),
      ("read-sections", .obj [("type", .str "boolean")]),
      ("excluded-images", .obj [
        ("type", .str "array"),
        ("items", .arr [
          .obj [("type", .str "string")]])])]),
    ("additionalProperties", .bool false)]

/-- The schema of the top-level property `transformers`. -/
def SchemaTemplate.transformers : TJson :=
  .obj [
    ("type", .str "object"),
    ("anyOf", .arr [
      .obj [
        ("properties", .obj [
          ("remove", .obj [
            ("type", .str "object"),
            ("properties", .obj [
              ("enabled", .obj [("type", .str "boolean")]),
              ("kparams", .obj [
                ("type", .str "array"),
                ("items", .arr [
                  .obj [("type", .str "string")]])])]),
            ("if", .obj [
              ("properties", .obj [("enabled", .obj [("const", .bool true)])])]),
            ("then", .obj [
              ("properties", .obj [
                ("kparams", .obj [
                  ("type", .str "array"),
                  ("minItems", .num 1),
                  ("items", .arr [
                    .obj [("type", .str "string")]])])])]),
            ("additionalProperties", .bool false)]),
          ("rename", .obj [
            ("type", .str "object"),
            ("properties", .obj [
              ("enabled", .obj [("type", .str "boolean")]),
              ("kparams", .obj [
                ("type", .str "array"),
                ("items", .arr [
                  .obj [
                    ("type", .str "object"),
                    ("properties", .obj [("old", .obj [("type", .str "string"), ("minLength", .num 1)]), ("new", .obj [("type", .str "string"), ("minLength", .num 1)])]),
                    ("additionalProperties", .bool false)]])])]),
            ("if", .obj [
              ("properties", .obj [("enabled", .obj [("const", .bool true)])])]),
            ("then", .obj [
              ("properties", .obj [("kparams", .obj [("minItems", .num 1)])])]),
            ("additionalProperties", .bool false)]),
          ("replace", .obj [
            ("type", .str "object"),
            ("properties", .obj [
              ("enabled", .obj [("type", .str "boolean")]),
              ("replacements", .obj [
                ("type", .str "array"),
                ("items", .arr [
                  .obj [
                    ("type", .str "object"),
                    ("properties", .obj [("kparam", .obj [("type", .str "string"), ("minLength", .num 1)]), ("old", .obj [("type", .str "string"), ("minLength", .num 1)]), ("new", .obj [("type", .str "string")])]),
                    ("additionalProperties", .bool false)]])])]),
            ("if", .obj [
              ("properties", .obj [("enabled", .obj [("const", .bool true)])])]),
            ("then", .obj [
              ("properties", .obj [("replacements", .obj [("minItems", .num 1)])])]),
            ("additionalProperties", .bool false)]),
          ("tags", .obj [
            ("type", .str "object"),
            ("properties", .obj [
              ("enabled", .obj [("type", .str "boolean")]),
              ("tags", .obj [
                ("type", .str "array"),
                ("items", .arr [
                  .obj [
                    ("type", .str "object"),
                    ("properties", .obj [("key", .obj [("type", .str "string"), ("minLength", .num 1)]), ("value", .obj [("type", .str "string"), ("minLength", .num 1)])]),
                    ("additionalProperties", .bool false)]])])]),
            ("if", .obj [
              ("properties", .obj [("enabled", .obj [("const", .bool true)])])]),
            ("then", .obj [
              ("properties", .obj [("tags", .obj [("minItems", .num 1)])])]),
            ("additionalProperties", .bool false)]),
          ("trim", .obj [
            ("type", .str "object"),
            ("properties", .obj [
              ("enabled", .obj [("type", .str "boolean")]),
              ("prefixes", .obj [
                ("type", .str "array"),
                ("items", .arr [
                  .obj [
                    ("type", .str "object"),
                    ("properties", .obj [("kparam", .obj [("type", .str "string"), ("minLength", .num 1)]), ("trim", .obj [("type", .str "string"), ("minLength", .num 1)])]),
                    ("additionalProperties", .bool false)]])]),
              ("suffixes", .obj [
                ("type", .str "array"),
                ("items", .arr [
                  .obj [
                    ("type", .str "object"),
                    ("properties", .obj [("kparam", .obj [("type", .str "string"), ("minLength", .num 1)]), ("trim", .obj [("type", .str "string"), ("minLength", .num 1)])]),
                    ("additionalProperties", .bool false)]])])]),
            ("if", .obj [
              ("properties", .obj [("enabled", .obj [("const", .bool true)])])]),
            ("then", .obj [
              ("properties", .obj [("suffixes", .obj [("minItems", .num 1)]), ("prefixes", .obj [("minItems", .num 1)])])]),
            ("additionalProperties", .bool false)])]),
        ("additionalProperties", .bool false)]])]

/-- The schema of the top-level property `yara`. -/
def SchemaTemplate.yara : TJson :=
  .obj [
    ("type", .str "object"),
    ("properties", .obj [
      ("enabled", .obj [("type", .str "boolean")]),
      ("rule", .obj [
        ("type", .str "object"),
        ("anyOf", .arr [
          .obj [
            ("properties", .obj [
              ("paths", .obj [
                ("type", .str "array"),
                ("items", .arr [
                  .obj [
                    ("type", .str "object"),
                    ("properties", .obj [("path", .obj [("type", .str "string")]), ("namespace", .obj [("type", .str "string")])]),
                    ("if", .obj [
                      ("properties", .obj [("enabled", .obj [("$ref", .str "#yara"), ("const", .bool true)])])]),
                    ("then", .obj [
                      ("properties", .obj [("path", .obj [("minLength", .num 0)])])]),
                    ("additionalProperties", .bool false)]])]),
              ("strings", .obj [("type", .str "array")])]),
            ("additionalProperties", .bool false)]])]),
      ("alert-via", .obj [("type", .str "string"), ("enum", .arr [.str "slack", .str "mail"])]),
      ("alert-template", .obj [
        ("type", .str "object"),
        ("properties", .obj [("text", .obj [("type", .str "string")]), ("title", .obj [("type", .str "string")])]),
        ("additionalProperties", .bool false)]),
      ("fastscan", .obj [("type", .str "boolean")]),
      ("skip-files", .obj [("type", .str "boolean")]),
      ("scan-timeout", .obj [("type", .str "string"), ("minLength", .num 2), ("pattern", .str "[0-9]+s")]),
      ("excluded-files", .obj [
        ("type", .str "array"),
        ("items", .arr [
          .obj [("type", .str "string"), ("minLength", .num 1)]])]),
      ("excluded-procs", .obj [
        ("type", .str "array"),
        ("items", .arr [
          .obj [("type", .str "string"), ("minLength", .num 1)]])])]),
    ("additionalProperties", .bool false)]

/-- The schema template as a tree: the whole text of `schema`
(`templateTree_schema` below checks it against the text). -/
def schemaTemplate : TJson :=
  .obj [
  ("$schema", .str "http://json-schema.org/draft-07/schema#"),
  ("definitions", SchemaTemplate.definitions),
  ("type", .str "object"),
  ("properties", .obj [
    ("aggregator", SchemaTemplate.aggregator),
    ("alertsenders", SchemaTemplate.alertsenders),
    ("api", SchemaTemplate.api),
    ("config-file", SchemaTemplate.configFile),
    ("debug-privilege", SchemaTemplate.debugPrivilege),
    ("handle", SchemaTemplate.handle),
    ("kcap", SchemaTemplate.kcap),
    ("filament", SchemaTemplate.filament),
    ("kevent", SchemaTemplate.kevent),
    ("kstream", SchemaTemplate.kstream),
    ("logging", SchemaTemplate.logging),
    ("output", SchemaTemplate.output),
    ("pe", SchemaTemplate.pe),
    ("transformers", SchemaTemplate.transformers),
    ("yara", SchemaTemplate.yara)]),
  ("additionalProperties", .bool false)]

/-! ### The rendered schema as a tree

`schemaTree cfg` is the JSON document that `interpolateSchema` returns for the data
`cfg`, as a tree; the members of `properties` are separate definitions.  It is the
template tree with its holes filled (`schemaTemplate_fill`), and the tree of the
returned text (`interpolateSchema_tree`). -/

/-- The `definitions` member of the schema (line 29 of schema.go). -/
def Schema.definitions : Json :=
  .obj [
    ("yara", .obj [
      ("$id", .str "#yara"),
      ("type", .str "object"),
      ("properties", .obj [("enabled", .obj [("type", .str "boolean")])])])]

/-- The schema of the top-level property `aggregator`. -/
def Schema.aggregator : Json :=
  .obj [
    ("type", .str "object"),
    ("properties", .obj [
      ("flush-period", .obj [("type", .str "string"), ("minLength", .num 2), ("pattern", .str "[0-9]+ms|s")]),
      ("flush-timeout", .obj [("type", .str "string"), ("minLength", .num 2), ("pattern", .str "[0-9]+s")])]),
    ("additionalProperties", .bool false)]

/-- The schema of the top-level property `alertsenders`. -/
def Schema.alertsenders : Json :=
  .obj [
    ("type", .str "object"),
    ("anyOf", .arr [
      .obj [
        ("properties", .obj [
          ("mail", .obj [
            ("type", .str "object"),
            ("properties", .obj [
              ("enabled", .obj [("type", .str "boolean")]),
              ("host", .obj [("type", .str "string")]),
              ("port", .obj [("type", .str "number")]),
              ("user", .obj [("type", .str "string")]),
              ("password", .obj [("type", .str "string")]),
              ("from", .obj [("type", .str "string")]),
              ("to", .obj [("type", .str "array"), ("items", .obj [("type", .str "string"), ("format", .str "email")])])]),
            ("if", .obj [
              ("properties", .obj [("enabled", .obj [("const", .bool true)])])]),
            ("then", .obj [
              ("properties", .obj [
                ("from", .obj [("type", .str "string"), ("format", .str "email")]),
                ("to", .obj [("type", .str "array"), ("minItems", .num 1), ("items", .obj [("type", .str "string"), ("format", .str "email")])])])]),
            ("additionalProperties", .bool false)]),
          ("slack", .obj [
            ("type", .str "object"),
            ("properties", .obj [
              ("enabled", .obj [("type", .str "boolean")]),
              ("url", .obj [("type", .str "string")]),
              ("workspace", .obj [("type", .str "string")]),
              ("channel", .obj [("type", .str "string")]),
              ("emoji", .obj [("type", .str "string")])]),
            ("if", .obj [
              ("properties", .obj [("enabled", .obj [("const", .bool true)])])]),
            ("then", .obj [
              ("properties", .obj [("url", .obj [("type", .str "string"), ("format", .str "uri"), ("minLength", .num 1), ("pattern", .str "^(https?|http?)://")])])]),
            ("additionalProperties", .bool false)])]),
        ("additionalProperties", .bool false)]])]

/-- The schema of the top-level property `api`. -/
def Schema.api : Json :=
  .obj [
    ("type", .str "object"),
    ("properties", .obj [("transport", .obj [("type", .str "string"), ("minLength", .num 3)]), ("timeout", .obj [("type", .str "string"), ("minLength", .num 2), ("pattern", .str "[0-9]+s")])]),
    ("additionalProperties", .bool false)]

/-- The schema of the top-level property `config-file`. -/
def Schema.configFile : Json :=
  .obj [("type", .str "string")]

/-- The schema of the top-level property `debug-privilege`. -/
def Schema.debugPrivilege : Json :=
  .obj [("type", .str "boolean")]

/-- The schema of the top-level property `handle`. -/
def Schema.handle : Json :=
  .obj [
    ("type", .str "object"),
    ("properties", .obj [("init-snapshot", .obj [("type", .str "boolean")])]),
    ("additionalProperties", .bool false)]

/-- The schema of the top-level property `kcap`. -/
def Schema.kcap : Json :=
  .obj [
    ("type", .str "object"),
    ("properties", .obj [("file", .obj [("type", .str "string")])]),
    ("additionalProperties", .bool false)]

/-- The schema of the top-level property `filament`. -/
def Schema.filament : Json :=
  .obj [
    ("type", .str "object"),
    ("properties", .obj [("name", .obj [("type", .str "string")]), ("path", .obj [("type", .str "string")]), ("flush-period", .obj [("type", .str "string"), ("minLength", .num 2), ("pattern", .str "[0-9]+ms|s")])]),
    ("additionalProperties", .bool false)]

/-- The schema of the top-level property `kevent`. -/
def Schema.kevent : Json :=
  .obj [
    ("type", .str "object"),
    ("properties", .obj [
      ("serialize-threads", .obj [("type", .str "boolean")]),
      ("serialize-images", .obj [("type", .str "boolean")]),
      ("serialize-handles", .obj [("type", .str "boolean")]),
      ("serialize-pe", .obj [("type", .str "boolean")]),
      ("serialize-envs", .obj [("type", .str "boolean")])]),
    ("additionalProperties", .bool false)]

/-- The schema of the top-level property `kstream`. -/
def Schema.kstream (cfg : schemaConfig) : Json :=
  .obj [
    ("type", .str "object"),
    ("properties", .obj [
      ("enable-thread", .obj [("type", .str "boolean")]),
      ("enable-image", .obj [("type", .str "boolean")]),
      ("enable-registry", .obj [("type", .str "boolean")]),
      ("enable-fileio", .obj [("type", .str "boolean")]),
      ("enable-handle", .obj [("type", .str "boolean")]),
      ("enable-net", .obj [("type", .str "boolean")]),
      ("min-buffers", .obj [("type", .str "integer"), ("minimum", .num 1), ("maximum", .num cfg.MinBuffers)]),
      ("max-buffers", .obj [("type", .str "integer"), ("minimum", .num 2), ("maximum", .num cfg.MaxBuffers)]),
      ("buffer-size", .obj [("type", .str "integer"), ("maximum", .num cfg.MaxBufferSize)]),
      ("flush-interval", .obj [("type", .str "string"), ("minLength", .num 2), ("pattern", .str "[0-9]+s")]),
      ("blacklist", .obj [
        ("type", .str "object"),
        ("properties", .obj [
          ("events", .obj [
            ("type", .str "array"),
            ("items", .arr [
              .obj [
                ("type", .str "string"),
                ("enum", .arr [.str "CreateProcess", .str "CreateThread", .str "TerminateProcess", .str "TerminateThread", .str "LoadImage", .str "UnloadImage", .str "CreateFile", .str "CloseFile", .str "ReadFile", .str "WriteFile", .str "DeleteFile", .str "RenameFile", .str "SetFileInformation", .str "EnumDirectory", .str "RegCreateKey", .str "RegOpenKey", .str "RegSetValue", .str "RegQueryValue", .str "RegQueryKey", .str "RegDeleteKey", .str "RegDeleteValue", .str "Accept", .str "Send", .str "Recv", .str "Connect", .str "Disconnect", .str "Reconnect", .str "Retransmit", .str "CreateHandle", .str "CloseHandle"])]])]),
          ("images", .obj [
            ("type", .str "array"),
            ("items", .arr [
              .obj [("type", .str "string"), ("minLength", .num 1)]])])]),
        ("additionalProperties", .bool false)])]),
    ("additionalProperties", .bool false)]

/-- The schema of the top-level property `logging`. -/
def Schema.logging : Json :=
  .obj [
    ("type", .str "object"),
    ("properties", .obj [
      ("level", .obj [("type", .str "string")]),
      ("max-age", .obj [("type", .str "integer")]),
      ("max-backups", .obj [("type", .str "integer"), ("minimum", .num 1)]),
      ("max-size", .obj [("type", .str "integer"), ("minimum", .num 1)]),
      ("formatter", .obj [("type", .str "string"), ("enum", .arr [.str "json", .str "text"])]),
      ("path", .obj [("type", .str "string")]),
      ("log-stdout", .obj [("type", .str "boolean")])]),
    ("additionalProperties", .bool false)]

/-- The schema of the top-level property `output`. -/
def Schema.output : Json :=
  .obj [
    ("type", .str "object"),
    ("anyOf", .arr [
      .obj [
        ("properties", .obj [
          ("console", .obj [
            ("type", .str "object"),
            ("properties", .obj [
              ("enabled", .obj [("type", .str "boolean")]),
              ("format", .obj [("type", .str "string"), ("enum", .arr [.str "json", .str "pretty"])]),
              ("template", .obj [("type", .str "string")]),
              ("kv-delimiter", .obj [("type", .str "string")])]),
            ("additionalProperties", .bool false)]),
          ("elasticsearch", .obj [
            ("type", .str "object"),
            ("properties", .obj [
              ("enabled", .obj [("type", .str "boolean")]),
              ("servers", .obj [
                ("type", .str "array"),
                ("items", .arr [
                  .obj [("type", .str "string"), ("minItems", .num 1), ("format", .str "uri"), ("minLength", .num 1), ("maxLength", .num 255), ("pattern", .str "^(https?|http?)://")]])]),
              ("timeout", .obj [("type", .str "string")]),
              ("index-name", .obj [("type", .str "string"), ("minLength", .num 1)]),
              ("template-config", .obj [("type", .str "string")]),
              ("template-name", .obj [("type", .str "string"), ("minLength", .num 1)]),
              ("healthcheck", .obj [("type", .str "boolean")]),
              ("bulk-workers", .obj [("type", .str "integer"), ("minimum", .num 1)]),
              ("sniff", .obj [("type", .str "boolean")]),
              ("trace-log", .obj [("type", .str "boolean")]),
              ("gzip-compression", .obj [("type", .str "boolean")]),
              ("healthcheck-interval", .obj [("type", .str "string"), ("minLength", .num 2), ("pattern", .str "[0-9]+s|m\x7d")]),
              ("healthcheck-timeout", .obj [("type", .str "string"), ("minLength", .num 2), ("pattern", .str "[0-9]+s|m\x7d")]),
              ("flush-period", .obj [("type", .str "string"), ("minLength", .num 2), ("pattern", .str "[0-9]+s|m\x7d")]),
              ("username", .obj [("type", .str "string")]),
              ("password", .obj [("type", .str "string")]),
              ("tls-key", .obj [("type", .str "string")]),
              ("tls-cert", .obj [("type", .str "string")]),
              ("tls-ca", .obj [("type", .str "string")]),
              ("tls-insecure-skip-verify", .obj [("type", .str "boolean")])]),
            ("additionalProperties", .bool false)]),
          ("amqp", .obj [
            ("type", .str "object"),
            ("properties", .obj [
              ("enabled", .obj [("type", .str "boolean")]),
              ("url", .obj [("type", .str "string"), ("format", .str "uri"), ("minLength", .num 1), ("maxLength", .num 255), ("pattern", .str "^(amqps?|amqp?)://")]),
              ("timeout", .obj [("type", .str "string")]),
              ("exchange", .obj [("type", .str "string"), ("minLength", .num 1)]),
              ("exchange-type", .obj [("type", .str "string"), ("enum", .arr [.str "direct", .str "topic", .str "fanout", .str "header", .str "x-consistent-hash"])]),
              ("routing-key", .obj [("type", .str "string"), ("minLength", .num 1)]),
              ("delivery-mode", .obj [("type", .str "string"), ("enum", .arr [.str "transient", .str "persistent"])]),
              ("vhost", .obj [("type", .str "string"), ("minLength", .num 1)]),
              ("passive", .obj [("type", .str "boolean")]),
              ("durable", .obj [("type", .str "boolean")]),
              ("username", .obj [("type", .str "string")]),
              ("password", .obj [("type", .str "string")]),
              ("tls-key", .obj [("type", .str "string")]),
              ("tls-cert", .obj [("type", .str "string")]),
              ("tls-ca", .obj [("type", .str "string")]),
              ("tls-insecure-skip-verify", .obj [("type", .str "boolean")]),
              ("headers", .obj [("type", .str "object"), ("additionalProperties", .bool true)])]),
            ("additionalProperties", .bool false)])]),
        ("additionalProperties", .bool false)]])]

/-- The schema of the top-level property `pe`. -/
def Schema.pe : Json :=
  .obj [
    ("type", .str "object"),
    ("properties", .obj [
      ("enabled", .obj [("type", .str "boolean")]),
      ("read-resources", .obj [("type", .str "boolean")]),
      ("read-symbols", .obj [("type", .str "boolean")]),
      ("read-sections", .obj [("type", .str "boolean")]),
      ("excluded-images", .obj [
        ("type", .str "array"),
        ("items", .arr [
          .obj [("type", .str "string")]])])]),
    ("additionalProperties", .bool false)]

/-- The schema of the top-level property `transformers`. -/
def Schema.transformers : Json :=
  .obj [
    ("type", .str "object"),
    ("anyOf", .arr [
      .obj [
        ("properties", .obj [
          ("remove", .obj [
            ("type", .str "object"),
            ("properties", .obj [
              ("enabled", .obj [("type", .str "boolean")]),
              ("kparams", .obj [
                ("type", .str "array"),
                ("items", .arr [
                  .obj [("type", .str "string")]])])]),
            ("if", .obj [
              ("properties", .obj [("enabled", .obj [("const", .bool true)])])]),
            ("then", .obj [
              ("properties", .obj [
                ("kparams", .obj [
                  ("type", .str "array"),
                  ("minItems", .num 1),
                  ("items", .arr [
                    .obj [("type", .str "string")]])])])]),
            ("additionalProperties", .bool false)]),
          ("rename", .obj [
            ("type", .str "object"),
            ("properties", .obj [
              ("enabled", .obj [("type", .str "boolean")]),
              ("kparams", .obj [
                ("type", .str "array"),
                ("items", .arr [
                  .obj [
                    ("type", .str "object"),
                    ("properties", .obj [("old", .obj [("type", .str "string"), ("minLength", .num 1)]), ("new", .obj [("type", .str "string"), ("minLength", .num 1)])]),
                    ("additionalProperties", .bool false)]])])]),
            ("if", .obj [
              ("properties", .obj [("enabled", .obj [("const", .bool true)])])]),
            ("then", .obj [
              ("properties", .obj [("kparams", .obj [("minItems", .num 1)])])]),
            ("additionalProperties", .bool false)]),
          ("replace", .obj [
            ("type", .str "object"),
            ("properties", .obj [
              ("enabled", .obj [("type", .str "boolean")]),
              ("replacements", .obj [
                ("type", .str "array"),
                ("items", .arr [
                  .obj [
                    ("type", .str "object"),
                    ("properties", .obj [("kparam", .obj [("type", .str "string"), ("minLength", .num 1)]), ("old", .obj [("type", .str "string"), ("minLength", .num 1)]), ("new", .obj [("type", .str "string")])]),
                    ("additionalProperties", .bool false)]])])]),
            ("if", .obj [
              ("properties", .obj [("enabled", .obj [("const", .bool true)])])]),
            ("then", .obj [
              ("properties", .obj [("replacements", .obj [("minItems", .num 1)])])]),
            ("additionalProperties", .bool false)]),
          ("tags", .obj [
            ("type", .str "object"),
            ("properties", .obj [
              ("enabled", .obj [("type", .str "boolean")]),
              ("tags", .obj [
                ("type", .str "array"),
                ("items", .arr [
                  .obj [
                    ("type", .str "object"),
                    ("properties", .obj [("key", .obj [("type", .str "string"), ("minLength", .num 1)]), ("value", .obj [("type", .str "string"), ("minLength", .num 1)])]),
                    ("additionalProperties", .bool false)]])])]),
            ("if", .obj [
              ("properties", .obj [("enabled", .obj [("const", .bool true)])])]),
            ("then", .obj [
              ("properties", .obj [("tags", .obj [("minItems", .num 1)])])]),
            ("additionalProperties", .bool false)]),
          ("trim", .obj [
            ("type", .str "object"),
            ("properties", .obj [
              ("enabled", .obj [("type", .str "boolean")]),
              ("prefixes", .obj [
                ("type", .str "array"),
                ("items", .arr [
                  .obj [
                    ("type", .str "object"),
                    ("properties", .obj [("kparam", .obj [("type", .str "string"), ("minLength", .num 1)]), ("trim", .obj [("type", .str "string"), ("minLength", .num 1)])]),
                    ("additionalProperties", .bool false)]])]),
              ("suffixes", .obj [
                ("type", .str "array"),
                ("items", .arr [
                  .obj [
                    ("type", .str "object"),
                    ("properties", .obj [("kparam", .obj [("type", .str "string"), ("minLength", .num 1)]), ("trim", .obj [("type", .str "string"), ("minLength", .num 1)])]),
                    ("additionalProperties", .bool false)]])])]),
            ("if", .obj [
              ("properties", .obj [("enabled", .obj [("const", .bool true)])])]),
            ("then", .obj [
              ("properties", .obj [("suffixes", .obj [("minItems", .num 1)]), ("prefixes", .obj [("minItems", .num 1)])])]),
            ("additionalProperties", .bool false)])]),
        ("additionalProperties", .bool false)]])]

/-- The schema of the top-level property `yara`. -/
def Schema.yara : Json :=
  .obj [
    ("type", .str "object"),
    ("properties", .obj [
      ("enabled", .obj [("type", .str "boolean")]),
      ("rule", .obj [
        ("type", .str "object"),
        ("anyOf", .arr [
          .obj [
            ("properties", .obj [
              ("paths", .obj [
                ("type", .str "array"),
                ("items", .arr [
                  .obj [
                    ("type", .str "object"),
                    ("properties", .obj [("path", .obj [("type", .str "string")]), ("namespace", .obj [("type", .str "string")])]),
                    ("if", .obj [
                      ("properties", .obj [("enabled", .obj [("$ref", .str "#yara"), ("const", .bool true)])])]),
                    ("then", .obj [
                      ("properties", .obj [("path", .obj [("minLength", .num 0)])])]),
                    ("additionalProperties", .bool false)]])]),
              ("strings", .obj [("type", .str "array")])]),
            ("additionalProperties", .bool false)]])]),
      ("alert-via", .obj [("type", .str "string"), ("enum", .arr [.str "slack", .str "mail"])]),
      ("alert-template", .obj [
        ("type", .str "object"),
        ("properties", .obj [("text", .obj [("type", .str "string")]), ("title", .obj [("type", .str "string")])]),
        ("additionalProperties", .bool false)]),
      ("fastscan", .obj [("type", .str "boolean")]),
      ("skip-files", .obj [("type", .str "boolean")]),
      ("scan-timeout", .obj [("type", .str "string"), ("minLength", .num 2), ("pattern", .str "[0-9]+s")]),
      ("excluded-files", .obj [
        ("type", .str "array"),
        ("items", .arr [
          .obj [("type", .str "string"), ("minLength", .num 1)]])]),
      ("excluded-procs", .obj [
        ("type", .str "array"),
        ("items", .arr [
          .obj [("type", .str "string"), ("minLength", .num 1)]])])]),
    ("additionalProperties", .bool false)]

/-- The rendered schema as a JSON tree: the text of `schema` with the three
template actions replaced by the fields of `cfg`. -/
def schemaTree (cfg : schemaConfig) : Json :=
  .obj [
  ("$schema", .str "http://json-schema.org/draft-07/schema#"),
  ("definitions", Schema.definitions),
  ("type", .str "object"),
  ("properties", .obj [
    ("aggregator", Schema.aggregator),
    ("alertsenders", Schema.alertsenders),
    ("api", Schema.api),
    ("config-file", Schema.configFile),
    ("debug-privilege", Schema.debugPrivilege),
    ("handle", Schema.handle),
    ("kcap", Schema.kcap),
    ("filament", Schema.filament),
    ("kevent", Schema.kevent),
    ("kstream", Schema.kstream cfg),
    ("logging", Schema.logging),
    ("output", Schema.output),
    ("pe", Schema.pe),
    ("transformers", Schema.transformers),
    ("yara", Schema.yara)]),
  ("additionalProperties", .bool false)]

/-! ### The nodes of a schema

A JSON Schema document is a tree of schema nodes.  Sub-schemas stand under the keywords
`properties` and `definitions` (one per member), `items` (one schema, or a list of
schemas), `anyOf`, `allOf`, `oneOf` (lists), and `if`, `then`, `else`, `not`,
`additionalProperties` (one schema). -/

/-- The place of a node in a schema document, as the keys and array indices (written
in decimal) that lead to it from the root. -/
abbrev SchemaPath := List String

namespace Json

mutual
/-- The schema nodes at and below `j`, each with its path from the root, where `p` is
the path of `j`.  A value that is not an object (such as the `false` of
`additionalProperties`) is not a node. -/
def nodes (p : SchemaPath) : Json → List (SchemaPath × Json)
  | obj kvs => (p, obj kvs) :: nodesOfKeywords p kvs
  | _ => []
/-- The nodes below the members of a schema node, keyword by keyword. -/
def nodesOfKeywords (p : SchemaPath) : List (String × Json) → List (SchemaPath × Json)
  | [] => []
  | (k, v) :: rest =>
    (if k = "properties" ∨ k = "definitions" then nodesOfMap (p ++ [k]) v
     else if k = "items" then nodesOfItems (p ++ [k]) v
     else if k = "anyOf" ∨ k = "allOf" ∨ k = "oneOf" then nodesOfArray (p ++ [k]) v
     else if k = "if" ∨ k = "then" ∨ k = "else" ∨ k = "not" ∨ k = "additionalProperties" then
       nodes (p ++ [k]) v
     else []) ++ nodesOfKeywords p rest
/-- The nodes of a map from names to schemas. -/
def nodesOfMap (p : SchemaPath) : Json → List (SchemaPath × Json)
  | obj kvs => nodesOfMembers p kvs
  | _ => []
/-- The nodes of the schemas of a list of named members. -/
def nodesOfMembers (p : SchemaPath) : List (String × Json) → List (SchemaPath × Json)
  | [] => []
  | (k, v) :: rest => nodes (p ++ [k]) v ++ nodesOfMembers p rest
/-- The nodes of an `items` value: a list of schemas or a single schema. -/
def nodesOfItems (p : SchemaPath) : Json → List (SchemaPath × Json)
  | arr xs => nodesOfList p 0 xs
  | obj kvs => (p, obj kvs) :: nodesOfKeywords p kvs
  | _ => []
/-- The nodes of a JSON array of schemas. -/
def nodesOfArray (p : SchemaPath) : Json → List (SchemaPath × Json)
  | arr xs => nodesOfList p 0 xs
  | _ => []
/-- The nodes of a list of schemas, the first of which has index `i`. -/
def nodesOfList (p : SchemaPath) (i : Nat) : List Json → List (SchemaPath × Json)
  | [] => []
  | x :: rest => nodes (p ++ [toString i]) x ++ nodesOfList p (i + 1) rest
end

end Json


/-! ### Shape predicates on schema nodes -/

namespace Json

/-- Whether the node declares `"type": t`. -/
def typeIs (n : Json) (t : String) : Bool :=
  match n.get? "type" with
  | some (str s) => s = t
  | _ => false

/-- Whether the node has a member named `k`. -/
def hasKey (n : Json) (k : String) : Bool := (n.get? k).isSome

/-- Whether the node itself sets `"additionalProperties": false`. -/
def setsAdditionalPropertiesFalse (n : Json) : Bool :=
  match n.get? "additionalProperties" with
  | some (bool false) => true
  | _ => false

/-- Whether the node is closed-world: it sets `additionalProperties` to false itself,
or it is a variant group (it has `anyOf` members) and every member does. -/
def closedWorld (n : Json) : Bool :=
  n.setsAdditionalPropertiesFalse ||
    match n.get? "anyOf" with
    | some (arr (m :: ms)) => (m :: ms).all setsAdditionalPropertiesFalse
    | _ => false

/-- Whether the `items` member of the node is a list of schemas. -/
def itemsIsList (n : Json) : Bool :=
  match n.get? "items" with
  | some (arr _) => true
  | _ => false

/-- Whether the node carries a conditional rule: an `if` and a `then` member. -/
def hasCondition (n : Json) : Bool := n.hasKey "if" && n.hasKey "then"

/-- Whether the `if` member of the node constrains the property `enabled` with
`"const": true`. -/
def ifTestsEnabledTrue (n : Json) : Bool :=
  match n.getPath ["if", "properties", "enabled", "const"] with
  | some (bool true) => true
  | _ => false

/-- Whether the node declares the property `enabled` with `"type": "boolean"` in its
own `properties`. -/
def declaresEnabledBoolean (n : Json) : Bool :=
  match n.getPath ["properties", "enabled"] with
  | some e => e.typeIs "boolean"
  | none => false

/-- The names of the properties the node declares, in order. -/
def propertyNames (n : Json) : List String :=
  match n.get? "properties" with
  | some (obj kvs) => keys kvs
  | _ => []

end Json

/-- The paths of the nodes of the rendered schema that satisfy `f`. -/
def schemaNodesWhere (cfg : schemaConfig) (f : Json → Bool) : List SchemaPath :=
  (((schemaTree cfg).nodes []).filter fun pn => f pn.2).map Prod.fst


/-! ## Part 2: the validator

schema.go only produces the schema text.  The component that parses the text into a
tree and validates a configuration document against it is not in schema.go, so it is
modelled here from the specification (sections 3, 4.1 and 4.2).  A compiled
`SchemaNode` is represented by its JSON tree and the fields of the specification's data
model are read from the JSON Schema keywords. -/

/-! ### Regular expressions -/

/-- Regular expressions over characters, with the derivative-based matcher
`RegularExpression.rmatch` of Mathlib. -/
abbrev Regex := RegularExpression Char

namespace Regex

/-- The alternation of the characters with codes `lo`, `lo + 1`, ..., `lo + n - 1`. -/
def charRange (lo : Nat) : Nat → Regex
  | 0 => 0
  | n + 1 => RegularExpression.char (Char.ofNat lo) + charRange (lo + 1) n

/-- The items of a bracket expression up to the closing bracket: single characters and
ranges `a-b`.  Returns the alternation and the text after the bracket. -/
def parseClass : List Char → Option (Regex × List Char)
  | [] => none
  | ']' :: rest => some (0, rest)
  | lo :: '-' :: hi :: rest =>
    if hi = ']' then
      -- a dash in front of the closing bracket is a literal dash
      some (RegularExpression.char lo + RegularExpression.char '-', rest)
    else
      match parseClass rest with
      | some (r, rest') => some (charRange lo.toNat (hi.toNat + 1 - lo.toNat) + r, rest')
      | none => none
  | c :: rest =>
    match parseClass rest with
    | some (r, rest') => some (RegularExpression.char c + r, rest')
    | none => none

/-- Applies the postfix operators `+`, `*` and `?` that follow an atom. -/
def applyPostfix (r : Regex) : List Char → Regex × List Char
  | '+' :: rest => applyPostfix (r * RegularExpression.star r) rest
  | '*' :: rest => applyPostfix (RegularExpression.star r) rest
  | '?' :: rest => applyPostfix (r + 1) rest
  | cs => (r, cs)

/-- Characters that are not literals at the position of an atom. -/
def isMeta (c : Char) : Bool :=
  c = '|' || c = '(' || c = ')' || c = '[' || c = '+' || c = '*' || c = '?' ||
    c = '^' || c = '$' || c = '.' || c = '\\' || c = '{'

mutual
/-- Alternation, the operator of lowest precedence: `seq ('|' seq)*`. -/
def parseAlt : Nat → List Char → Option (Regex × List Char)
  | 0, _ => none
  | fuel + 1, cs =>
    match parseSeq fuel cs with
    | some (r, '|' :: rest) =>
      match parseAlt fuel rest with
      | some (r', rest') => some (r + r', rest')
      | none => none
    | other => other
/-- Concatenation: repeated atoms up to a bar, a closing parenthesis, a dollar or the
end. -/
def parseSeq : Nat → List Char → Option (Regex × List Char)
  | 0, _ => none
  | _ + 1, [] => some (1, [])
  | _ + 1, '|' :: rest => some (1, '|' :: rest)
  | _ + 1, ')' :: rest => some (1, ')' :: rest)
  | _ + 1, '$' :: rest => some (1, '$' :: rest)
  | fuel + 1, c :: rest =>
    match parseAtom fuel (c :: rest) with
    | some (r, rest') =>
      match applyPostfix r rest' with
      | (r', rest'') =>
        match parseSeq fuel rest'' with
        | some (r'', rest''') => some (r' * r'', rest''')
        | none => none
    | none => none
/-- An atom: a group, a bracket expression or a literal character. -/
def parseAtom : Nat → List Char → Option (Regex × List Char)
  | 0, _ => none
  | _, [] => none
  | fuel + 1, '(' :: rest =>
    match parseAlt fuel rest with
    | some (r, ')' :: rest') => some (r, rest')
    | _ => none
  | _ + 1, '[' :: rest => parseClass rest
  | _ + 1, c :: rest => if isMeta c then none else some (RegularExpression.char c, rest)
end

/-- One alternative of the top level of a pattern: a regular expression that may be
anchored to the start of the value by a leading `^` and to its end by a trailing `$`. -/
structure Branch where
  atStart : Bool
  body : Regex
  atEnd : Bool

/-- The leading `^` of an alternative, when there is one, and the text behind it. -/
def takeStartAnchor : List Char → Bool × List Char
  | '^' :: rest => (true, rest)
  | cs => (false, cs)

/-- The trailing `$` of an alternative, when there is one, and the text behind it. -/
def takeEndAnchor : List Char → Bool × List Char
  | '$' :: rest => (true, rest)
  | cs => (false, cs)

/-- The alternatives of the top level: `'^'? seq '$'? ('|' ...)*`.  `inner` is the fuel
of the parser of an alternative. -/
def parseBranches (inner : Nat) : Nat → List Char → Option (List Branch)
  | 0, _ => none
  | fuel + 1, cs =>
    match parseSeq inner (takeStartAnchor cs).2 with
    | some (r, rest) =>
      match (takeEndAnchor rest).2 with
      | [] => some [⟨(takeStartAnchor cs).1, r, (takeEndAnchor rest).1⟩]
      | '|' :: more =>
        match parseBranches inner fuel more with
        | some bs => some (⟨(takeStartAnchor cs).1, r, (takeEndAnchor rest).1⟩ :: bs)
        | none => none
      | _ => none
    | none => none

/-- Parses a pattern into the alternatives of its top level.  The fragment covered is
the one the schema uses: literals, bracket expressions, groups, `|`, `+`, `*`, `?`, a
`^` in front of an alternative of the top level and a `$` behind one; `none` for any
other pattern. -/
def parse (pattern : String) : Option (List Branch) :=
  parseBranches (3 * pattern.length + 3) (pattern.length + 1) pattern.data

/-- Whether the alternative matches in the value: some stretch of the value matches the
body, a stretch that starts the value when the alternative is anchored to the start and
ends it when the alternative is anchored to the end. -/
def Branch.matchesIn (b : Branch) (value : List Char) : Bool :=
  (if b.atStart then [value] else value.tails).any fun t =>
    (if b.atEnd then [t] else t.inits).any fun s => b.body.rmatch s

/-- Modelled from the spec: the `pattern` check of section 4.2 of the Validator, which
is not in schema.go.  The specification words it as a match "over the full value"; the
schema declares draft-07, where a pattern is not anchored and matches when it matches
somewhere in the value, and the patterns the schema writes for URLs,
`^(https?|http?)://`, are made for that reading: they describe the start of a URL, and
no URL matches one of them as a whole (`url_pattern_needs_search` below).  The check is
therefore a search, in which `^` and `$` anchor an alternative to the ends of the
value.  A pattern outside the covered fragment matches nothing. -/
def search (pattern value : String) : Bool :=
  match parse pattern with
  | some bs => bs.any fun b => b.matchesIn value.data
  | none => false

/-- The words of section 4.2 taken alone: the pattern matched over the full value, each
alternative anchored to both ends.  `validate` does not use it; it is here to be
compared with `search`. -/
def fullMatch (pattern value : String) : Bool :=
  match parse pattern with
  | some bs => bs.any fun b => b.body.rmatch value.data
  | none => false

end Regex

/-! ### The data model (section 3 of the specification) -/

/-- Modelled from the spec: the `kind` of a SchemaNode. -/
inductive Kind where
  | object | array | string | number | integer | boolean
  deriving DecidableEq, Repr

/-- Modelled from the spec: the error kinds of section 7. -/
inductive ErrorKind where
  | UnknownProperty | MissingRequired | EnumViolation | PatternMismatch
  | FormatMismatch | RangeViolation | TooShort | TypeMismatch
  deriving DecidableEq, Repr

/-- Modelled from the spec: a path segment, an object key or an array index. -/
inductive PathSegment where
  | key (k : String)
  | index (i : Nat)
  deriving DecidableEq, Repr

/-- Modelled from the spec: a ValidationError.  The `message` names the keyword
that was violated. -/
structure ValidationError where
  path : List PathSegment
  kind : ErrorKind
  message : String
  deriving DecidableEq, Repr

/-- Modelled from the spec: a ValidationOutcome, the ordered list of violations; the
empty list means the document is accepted. -/
abbrev ValidationOutcome := List ValidationError

/-- The error `e` of a child, seen from its parent: the segment is put in front of
the path. -/
def ValidationError.under (seg : PathSegment) (e : ValidationError) : ValidationError :=
  { e with path := seg :: e.path }

/-- Modelled from the spec: `items` of a SchemaNode.  The specification knows the
ordered list, matched positionally; a single schema, the other form of JSON Schema,
applies to every element. -/
inductive Items where
  | positional (schemas : List Json)
  | each (schema : Json)

/-- A compiled SchemaNode is represented by its JSON tree. -/
abbrev SchemaNode := Json

namespace SchemaNode

/-- Modelled from the spec: `kind`, read from the keyword `type`. -/
def kind (s : SchemaNode) : Option Kind :=
  match s.get? "type" with
  | some (.str t) =>
    if t = "object" then some .object
    else if t = "array" then some .array
    else if t = "string" then some .string
    else if t = "number" then some .number
    else if t = "integer" then some .integer
    else if t = "boolean" then some .boolean
    else none
  | _ => none

/-- Modelled from the spec: `properties`, the ordered mapping from property name to
child node; empty when the keyword is absent. -/
def properties (s : SchemaNode) : List (String × Json) :=
  match s.get? "properties" with
  | some (.obj kvs) => kvs
  | _ => []

/-- Modelled from the spec: `additionalPropertiesAllowed`, false exactly when the
node sets `additionalProperties` to false. -/
def additionalPropertiesAllowed (s : SchemaNode) : Bool :=
  match s.get? "additionalProperties" with
  | some (.bool false) => false
  | _ => true

/-- The strings among a list of JSON values. -/
def strings : List Json → List String
  | [] => []
  | .str s :: rest => s :: strings rest
  | _ :: rest => strings rest

/-- Modelled from the spec: `required`, the names that must be present. -/
def required (s : SchemaNode) : List String :=
  match s.get? "required" with
  | some (.arr xs) => strings xs
  | _ => []

/-- Modelled from the spec: `enum`, the allowed scalar values.  The keyword `const`
is the enumeration of one value. -/
def enum (s : SchemaNode) : Option (List Json) :=
  match s.get? "enum" with
  | some (.arr xs) => some xs
  | _ =>
    match s.get? "const" with
    | some v => some [v]
    | none => none

/-- The string stored under a keyword. -/
def stringAt (s : SchemaNode) (k : String) : Option String :=
  match s.get? k with
  | some (.str v) => some v
  | _ => none

/-- The number stored under a keyword. -/
def numberAt (s : SchemaNode) (k : String) : Option ℚ :=
  match s.get? k with
  | some (.num q) => some q
  | _ => none

/-- The natural number stored under a keyword. -/
def natAt (s : SchemaNode) (k : String) : Option Nat :=
  match s.get? k with
  | some (.num q) => if q.den = 1 ∧ 0 ≤ q.num then some q.num.toNat else none
  | _ => none

/-- Modelled from the spec: `pattern`. -/
def pattern (s : SchemaNode) : Option String := stringAt s "pattern"

/-- Modelled from the spec: `format`. -/
def format (s : SchemaNode) : Option String := stringAt s "format"

/-- Modelled from the spec: `minimum`. -/
def minimum (s : SchemaNode) : Option ℚ := numberAt s "minimum"

/-- Modelled from the spec: `maximum`. -/
def maximum (s : SchemaNode) : Option ℚ := numberAt s "maximum"

/-- Modelled from the spec: `minLength`. -/
def minLength (s : SchemaNode) : Option Nat := natAt s "minLength"

/-- Modelled from the spec: `minItems`. -/
def minItems (s : SchemaNode) : Option Nat := natAt s "minItems"

/-- Modelled from the spec: `items`. -/
def items (s : SchemaNode) : Option Items :=
  match s.get? "items" with
  | some (.arr xs) => some (.positional xs)
  | some (.obj kvs) => some (.each (.obj kvs))
  | _ => none

/-- Modelled from the spec: `condition`, the pair of the `if` node and the `then`
node. -/
def condition (s : SchemaNode) : Option (Json × Json) :=
  match s.get? "if", s.get? "then" with
  | some i, some t => some (i, t)
  | _, _ => none

/-- Modelled from the spec: `variants`, read from the keyword `anyOf`. -/
def variants (s : SchemaNode) : Option (List Json) :=
  match s.get? "anyOf" with
  | some (.arr xs) => some xs
  | _ => none

/-- Modelled from the spec: `ref`, the symbolic reference of a node. -/
def ref (s : SchemaNode) : Option String := stringAt s "$ref"

/-- Whether the node declares the property `k`. -/
def declares (s : SchemaNode) (k : String) : Bool := (Json.lookup k (properties s)).isSome

end SchemaNode

/-! ### Compilation after rendering (section 4.1) -/

/-- Modelled from the spec: the reasons for a CompileError that concern the rendered
text. -/
inductive CompileError where
  | noRendering
  | malformedText
  | danglingReference
  | malformedPattern
  deriving DecidableEq, Repr

/-- The reusable fragments of a schema: the members of `definitions`, each under its
`$id`. -/
def definitionsOf (root : Json) : List (String × Json) :=
  match root.get? "definitions" with
  | some (.obj kvs) =>
    kvs.filterMap fun kv =>
      match kv.2.get? "$id" with
      | some (.str id) => some (id, kv.2)
      | _ => none
  | _ => []

mutual
/-- Modelled from the spec: a reference is resolved once, during compilation; the node
that carries `$ref` is replaced by the fragment it names.  `none` for a reference that
names no fragment. -/
def resolveRefs (defs : List (String × Json)) : Json → Option Json
  | .obj kvs =>
    match Json.lookup "$ref" kvs with
    | some (.str r) => Json.lookup r defs
    | _ => (resolveMembers defs kvs).map Json.obj
  | .arr xs => (resolveList defs xs).map Json.arr
  | j => some j
/-- Resolves the references in the members of an object. -/
def resolveMembers (defs : List (String × Json)) : List (String × Json) →
    Option (List (String × Json))
  | [] => some []
  | (k, v) :: rest =>
    match resolveRefs defs v, resolveMembers defs rest with
    | some v', some rest' => some ((k, v') :: rest')
    | _, _ => none
/-- Resolves the references in the elements of an array. -/
def resolveList (defs : List (String × Json)) : List Json → Option (List Json)
  | [] => some []
  | x :: rest =>
    match resolveRefs defs x, resolveList defs rest with
    | some x', some rest' => some (x' :: rest')
    | _, _ => none
end

/-- Whether the pattern of the node, when it has one, is in the covered fragment. -/
def patternWellFormed (n : Json) : Bool :=
  match SchemaNode.pattern n with
  | some p => (Regex.parse p).isSome
  | none => true

/-- Modelled from the spec: the part of `compile` that follows the rendering, which
is not in schema.go.  It fails on a dangling reference and on a malformed pattern. -/
def compileTree (root : Json) : Except CompileError SchemaNode :=
  match resolveRefs (definitionsOf root) root with
  | none => .error .danglingReference
  | some t =>
    if (t.nodes []).all fun pn => patternWellFormed pn.2 then .ok t
    else .error .malformedPattern

/-! ### Validation (section 4.2) -/

/-- Equality of scalar values; an array or an object equals nothing. -/
def scalarEq : Json → Json → Bool
  | .null, .null => true
  | .bool a, .bool b => a = b
  | .num a, .num b => a = b
  | .str a, .str b => a = b
  | _, _ => false

/-- Whether a document value has the kind; an integer is a number without
fractional part. -/
def kindMatches : Kind → Json → Bool
  | .object, .obj _ => true
  | .array, .arr _ => true
  | .string, .str _ => true
  | .number, .num _ => true
  | .integer, .num q => q.den = 1
  | .boolean, .bool _ => true
  | _, _ => false

/-- Modelled from the spec: a value whose shape differs from the `kind` of the node
is a `TypeMismatch`. -/
def typeErrors (s : SchemaNode) (d : Json) : ValidationOutcome :=
  match s.kind with
  | some k => if kindMatches k d then [] else [⟨[], .TypeMismatch, "type"⟩]
  | none => []

/-- Modelled from the spec: **enum**, the value must equal one of the enumerated
scalars. -/
def enumErrors (s : SchemaNode) (d : Json) : ValidationOutcome :=
  match s.enum with
  | some vs => if vs.any (scalarEq d) then [] else [⟨[], .EnumViolation, "enum"⟩]
  | none => []

/-- Modelled from the spec: **string**, check `minLength`, `pattern` (the search
`Regex.search`) and `format`.  The named format validators are the parameter
`formats`: format name, then value. -/
def stringErrors (formats : String → String → Bool) (s : SchemaNode) (d : Json) :
    ValidationOutcome :=
  match d with
  | .str v =>
    (match s.minLength with
      | some m => if v.length < m then [⟨[], .TooShort, "minLength"⟩] else []
      | none => []) ++
    (match s.pattern with
      | some p => if Regex.search p v then [] else [⟨[], .PatternMismatch, "pattern"⟩]
      | none => []) ++
    (match s.format with
      | some f => if formats f v then [] else [⟨[], .FormatMismatch, "format"⟩]
      | none => [])
  | _ => []

/-- Modelled from the spec: **number/integer**, check `minimum` and `maximum`
inclusively. -/
def numberErrors (s : SchemaNode) (d : Json) : ValidationOutcome :=
  match d with
  | .num q =>
    (match s.minimum with
      | some m => if q < m then [⟨[], .RangeViolation, "minimum"⟩] else []
      | none => []) ++
    (match s.maximum with
      | some m => if m < q then [⟨[], .RangeViolation, "maximum"⟩] else []
      | none => [])
  | _ => []

/-- The violations of the members of a document object against the properties of a
node: an undeclared key is an `UnknownProperty` when additional properties are not
allowed, a declared key is validated against its child node. -/
def memberErrors (rec : SchemaNode → Json → ValidationOutcome) (s : SchemaNode) :
    List (String × Json) → ValidationOutcome
  | [] => []
  | (k, v) :: rest =>
    (match Json.lookup k s.properties with
      | some child => (rec child v).map (ValidationError.under (.key k))
      | none =>
        if s.additionalPropertiesAllowed then []
        else [⟨[.key k], .UnknownProperty, "additionalProperties"⟩]) ++
    memberErrors rec s rest

/-- Modelled from the spec: **object**, every key of the document is checked, then
every name in `required` that the document lacks is a `MissingRequired`. -/
def objectErrors (rec : SchemaNode → Json → ValidationOutcome) (s : SchemaNode) (d : Json) :
    ValidationOutcome :=
  match d with
  | .obj kvs =>
    memberErrors rec s kvs ++
    ((s.required.filter fun r => !(Json.keys kvs).contains r).map fun r =>
      ⟨[.key r], .MissingRequired, "required"⟩)
  | _ => []

/-- Validates the elements of an array, the first of which has index `i`, against
the schemas at the same positions. -/
def positionalErrors (rec : SchemaNode → Json → ValidationOutcome) :
    Nat → List Json → List Json → ValidationOutcome
  | i, schema :: schemas, x :: xs =>
    (rec schema x).map (ValidationError.under (.index i)) ++
      positionalErrors rec (i + 1) schemas xs
  | _, _, _ => []

/-- Validates every element of an array, the first of which has index `i`, against
one schema. -/
def eachErrors (rec : SchemaNode → Json → ValidationOutcome) (schema : Json) :
    Nat → List Json → ValidationOutcome
  | _, [] => []
  | i, x :: xs =>
    (rec schema x).map (ValidationError.under (.index i)) ++ eachErrors rec schema (i + 1) xs

/-- Modelled from the spec: **array**, the elements are validated against `items`
positionally; fewer elements than `minItems` is `TooShort`. -/
def arrayErrors (rec : SchemaNode → Json → ValidationOutcome) (s : SchemaNode) (d : Json) :
    ValidationOutcome :=
  match d with
  | .arr xs =>
    (match s.items with
      | some (.positional schemas) => positionalErrors rec 0 schemas xs
      | some (.each schema) => eachErrors rec schema 0 xs
      | none => []) ++
    (match s.minItems with
      | some m => if xs.length < m then [⟨[], .TooShort, "minItems"⟩] else []
      | none => [])
  | _ => []

/-- Modelled from the spec: **conditional rule**, the `if` node is evaluated against
the same document node; when it is satisfied the constraints of the `then` node apply,
otherwise the `then` node is skipped entirely. -/
def conditionErrors (rec : SchemaNode → Json → ValidationOutcome) (s : SchemaNode)
    (d : Json) : ValidationOutcome :=
  match s.condition with
  | some (ifNode, thenNode) => if (rec ifNode d).isEmpty then rec thenNode d else []
  | none => []

/-- The members of a document object whose key the variant declares. -/
def declaredMembers (variant : SchemaNode) (kvs : List (String × Json)) :
    List (String × Json) :=
  kvs.filter fun kv => variant.declares kv.1

/-- The keys of a document object that no variant declares, each an
`UnknownProperty`. -/
def unrecognizedErrors (variants : List SchemaNode) : List (String × Json) → ValidationOutcome
  | [] => []
  | (k, _) :: rest =>
    (if variants.any fun v => v.declares k then []
     else [⟨[.key k], .UnknownProperty, "anyOf"⟩]) ++ unrecognizedErrors variants rest

/-- Validates the document object against each variant that declares one of its keys:
the members the variant declares are validated against the variant. -/
def overlapErrors (rec : SchemaNode → Json → ValidationOutcome) (kvs : List (String × Json)) :
    List SchemaNode → ValidationOutcome
  | [] => []
  | v :: vs =>
    (match declaredMembers v kvs with
      | [] => []
      | m :: ms => rec v (.obj (m :: ms))) ++ overlapErrors rec kvs vs

/-- Modelled from the spec: **variant group**, every key the document declares must
be recognized by at least one variant, and the document is validated independently
against each variant that declares one of its keys. -/
def variantErrors (rec : SchemaNode → Json → ValidationOutcome) (s : SchemaNode) (d : Json) :
    ValidationOutcome :=
  match s.variants, d with
  | some vs, .obj kvs => unrecognizedErrors vs kvs ++ overlapErrors rec kvs vs
  | _, _ => []

/-- All violations of a document node against a schema node, `rec` validating the
nodes below.  Violations are collected, never short-circuited. -/
def nodeErrors (formats : String → String → Bool)
    (rec : SchemaNode → Json → ValidationOutcome) (s : SchemaNode) (d : Json) :
    ValidationOutcome :=
  typeErrors s d ++ enumErrors s d ++ stringErrors formats s d ++ numberErrors s d ++
    objectErrors rec s d ++ arrayErrors rec s d ++ conditionErrors rec s d ++
    variantErrors rec s d

/-- Modelled from the spec: the recursive walk of the Validator of section 4.2, which
is not in schema.go, with an explicit bound on the nesting of the schema.  With no fuel
left the node is reported as a violation. -/
def validateFuel (formats : String → String → Bool) :
    Nat → SchemaNode → Json → ValidationOutcome
  | 0, _, _ => [⟨[], .TypeMismatch, "schema nested deeper than the fuel"⟩]
  | fuel + 1, s, d => nodeErrors formats (validateFuel formats fuel) s d

/-- Modelled from the spec: the Validator, `validate(schema, document)` of section 4.2,
which is not in schema.go.  Every recursive call descends into the schema, so the depth
of the schema is enough fuel (`validate_eq` below). -/
def validate (formats : String → String → Bool) (s : SchemaNode) (d : Json) :
    ValidationOutcome :=
  validateFuel formats (s.depth + 1) s d

/-- Modelled from the spec: `compile` of section 4.1 on a rendering, which is not in
schema.go.  The rendered text is read as JSON and the tree is compiled; a rendering that
failed, and a text that is not JSON, are errors. -/
def compileText (rendering : Option String) : Except CompileError SchemaNode :=
  match rendering with
  | none => .error .noRendering
  | some text =>
    match parseJson text with
    | none => .error .malformedText
    | some tree => compileTree tree

/-- Modelled from the spec: `compile` of section 4.1, which is not in schema.go apart
from the rendering, `interpolateSchema`.  The bounds are not checked, as
`interpolateSchema` does not check them. -/
def compile (defaultMaxBuffers defaultMinBuffers maxBufferSize : Nat) :
    Except CompileError SchemaNode :=
  compileText (interpolateSchema defaultMaxBuffers defaultMinBuffers maxBufferSize)

/-- The compiled schema for the bounds `cfg`: the result of `compileTree` on the
rendered schema (`compileTree_schemaTree` below shows that compilation succeeds, and
`compile_eq` that it is what `compile` returns). -/
def compiledSchema (cfg : schemaConfig) : SchemaNode :=
  match compileTree (schemaTree cfg) with
  | .ok t => t
  | .error _ => .null

/-- The compiled `yara` section: the one reference of the schema, in the `if` node of
the items of `rule.paths`, is replaced by the fragment `#yara`. -/
def Schema.compiledYara : SchemaNode :=
  match resolveRefs (definitionsOf (.obj [("definitions", Schema.definitions)])) Schema.yara with
  | some t => t
  | none => .null

/-- Whether a node accepts document objects as far as its `kind` goes. -/
def SchemaNode.admitsObjects (s : SchemaNode) : Prop := s.kind = none ∨ s.kind = some .object

/-- The single member of the `anyOf` list of the `output` node. -/
def Schema.outputVariant : SchemaNode :=
  match SchemaNode.variants Schema.output with
  | some (v :: _) => v
  | _ => .null

/-- The `console` node of the `output` variant group. -/
def Schema.console : SchemaNode :=
  match Json.lookup "console" (SchemaNode.properties Schema.outputVariant) with
  | some c => c
  | none => .null


/-- The `rule` node of the compiled `yara` section, a variant group. -/
def Schema.yaraRule : SchemaNode :=
  match Json.lookup "rule" (SchemaNode.properties Schema.compiledYara) with
  | some c => c
  | none => .null

/-- The single member of the `anyOf` list of the `yara.rule` node. -/
def Schema.yaraRuleVariant : SchemaNode :=
  match SchemaNode.variants Schema.yaraRule with
  | some (v :: _) => v
  | _ => .null

/-- The `paths` node of `yara.rule`, an array. -/
def Schema.yaraPaths : SchemaNode :=
  match Json.lookup "paths" (SchemaNode.properties Schema.yaraRuleVariant) with
  | some c => c
  | none => .null

/-- The item node of `yara.rule.paths` in the compiled schema (lines 384 to 397 of
schema.go), the reference `#yara` of its `if` node resolved. -/
def Schema.yaraPathsItem : SchemaNode :=
  match SchemaNode.items Schema.yaraPaths with
  | some (.positional (item :: _)) => item
  | _ => .null

/-- The place of the item node of `yara.rule.paths` in the schema. -/
def Schema.yaraPathsItemPath : SchemaPath :=
  ["properties", "yara", "properties", "rule", "anyOf", "0", "properties", "paths", "items", "0"]

/-- The configuration document that holds nothing but one element of `yara.rule.paths`. -/
def yaraPathsDocument (item : Json) : Json :=
  .obj [("yara", .obj [("rule", .obj [("paths", .arr [item])])])]

/-- The paths of the nodes of the compiled schema that satisfy `f`. -/
def compiledNodesWhere (cfg : schemaConfig) (f : Json → Bool) : List SchemaPath :=
  (((compiledSchema cfg).nodes []).filter fun pn => f pn.2).map Prod.fst

/-! ## Part 3: properties -/

/-! ### Rendering the template -/

theorem sameChars_eq : ∀ {xs ys : List Char}, sameChars xs ys = true → xs = ys
  | [], [], _ => rfl
  | [], _ :: _, h => by simp [sameChars] at h
  | _ :: _, [], h => by simp [sameChars] at h
  | a :: as, b :: bs, h => by
    simp only [sameChars, Bool.and_eq_true, decide_eq_true_eq] at h
    rw [h.1, sameChars_eq h.2]

/-- A parse result whose items have the shape text, action, text, action, text,
action, text is that list of items, the texts being those of `Template.textAt`. -/
theorem Template.parse_of_shape (r : Option (List Template.Node)) (f0 f1 f2 : List Char)
    (h : r.map Template.shape = some [none, some f0, none, some f1, none, some f2, none]) :
    r = some
      [.text (Template.textAt r 0), .field f0, .text (Template.textAt r 1), .field f1,
       .text (Template.textAt r 2), .field f2, .text (Template.textAt r 3)] := by
  match r, h with
  | some [.text t0, .field g0, .text t1, .field g1, .text t2, .field g2, .text t3], h =>
    simp only [Option.map_some', Template.shape, Option.some.injEq, List.cons.injEq,
      and_true, true_and] at h
    obtain ⟨h0, h1, h2⟩ := h
    subst h0 h1 h2
    rfl

set_option maxRecDepth 1000000 in
/-- The parsed `schema` template has seven items: text, the action printing
`MinBuffers`, text, the action printing `MaxBuffers`, text, the action printing
`MaxBufferSize`, text. -/
theorem parse_schema_shape :
    (Template.parse schema).map Template.shape = some
      [none, some "MinBuffers".data, none, some "MaxBuffers".data,
       none, some "MaxBufferSize".data, none] := by
  decide!

/-- The parsed `schema` template, with its four stretches of text named. -/
theorem parse_schema :
    Template.parse schema = some
      [.text (schemaText 0), .field "MinBuffers".data,
       .text (schemaText 1), .field "MaxBuffers".data,
       .text (schemaText 2), .field "MaxBufferSize".data,
       .text (schemaText 3)] :=
  Template.parse_of_shape (Template.parse schema) _ _ _ parse_schema_shape

set_option maxRecDepth 1000000 in
/-- Writing the parsed items of `schema` back as text gives `schema`. -/
theorem schema_source_check :
    sameChars schema.data (((Template.parse schema).map Template.source).getD []) = true := by
  decide!

/-- A text that equals the source form of its seven parsed items is the four texts
with the three actions between them. -/
theorem Template.source_of_parse (s : List Char) (r : Option (List Template.Node))
    (t0 t1 t2 t3 f0 f1 f2 : List Char)
    (hs : sameChars s ((r.map Template.source).getD []) = true)
    (hp : r = some [.text t0, .field f0, .text t1, .field f1, .text t2, .field f2, .text t3]) :
    s = t0 ++ ((['{', '{', ' ', '.'] ++ (f0 ++ [' ', '}', '}'])) ++
        (t1 ++ ((['{', '{', ' ', '.'] ++ (f1 ++ [' ', '}', '}'])) ++
        (t2 ++ ((['{', '{', ' ', '.'] ++ (f2 ++ [' ', '}', '}'])) ++ t3))))) := by
  subst hp
  have h := sameChars_eq hs
  simpa [Template.source] using h

/-- Rendering a template of seven items that prints `MinBuffers`, `MaxBuffers` and
`MaxBufferSize` in this order. -/
theorem Template.render_of_parse (r : Option (List Template.Node))
    (t0 t1 t2 t3 : List Char) (cfg : schemaConfig)
    (hp : r = some [.text t0, .field "MinBuffers".data, .text t1, .field "MaxBuffers".data,
      .text t2, .field "MaxBufferSize".data, .text t3]) :
    r.map (executeOrEmpty cfg) =
    some (String.mk (t0 ++ (Template.decimal cfg.MinBuffers ++ (t1 ++
      (Template.decimal cfg.MaxBuffers ++ (t2 ++ (Template.decimal cfg.MaxBufferSize ++ t3))))))) := by
  subst hp
  simp [executeOrEmpty, Template.execute, Template.executeNodes, Template.evalField]

/-- The rendered schema, for all values of the three constants. -/
theorem interpolateSchema_eq (defaultMaxBuffers defaultMinBuffers maxBufferSize : Nat) :
    interpolateSchema defaultMaxBuffers defaultMinBuffers maxBufferSize =
      some (String.mk (schemaText 0 ++ (Template.decimal defaultMinBuffers ++ (schemaText 1 ++
        (Template.decimal defaultMaxBuffers ++ (schemaText 2 ++
          (Template.decimal maxBufferSize ++ schemaText 3))))))) :=
  Template.render_of_parse (Template.parse schema) _ _ _ _
    { MaxBuffers := defaultMaxBuffers
      MinBuffers := defaultMinBuffers
      MaxBufferSize := maxBufferSize } parse_schema

/-- The template text is its four stretches of text with the three actions between
them. -/
theorem schema_decomposition :
    schema.data =
      schemaText 0 ++ ("{{ .MinBuffers }}".data ++ (schemaText 1 ++
        ("{{ .MaxBuffers }}".data ++ (schemaText 2 ++
          ("{{ .MaxBufferSize }}".data ++ schemaText 3))))) :=
  Template.source_of_parse schema.data (Template.parse schema) _ _ _ _
    "MinBuffers".data "MaxBuffers".data "MaxBufferSize".data
    schema_source_check parse_schema


/-! ### Decimal rendering -/

theorem digitChar_isDigit (n : Nat) (h : n < 10) : (Nat.digitChar n).isDigit = true := by
  interval_cases n <;> decide

theorem toDigitsCore_isDigit (fuel : Nat) :
    ∀ (n : Nat) (ds : List Char), (∀ c ∈ ds, c.isDigit = true) →
      ∀ c ∈ Nat.toDigitsCore 10 fuel n ds, c.isDigit = true := by
  induction fuel with
  | zero => intro n ds h; simpa [Nat.toDigitsCore] using h
  | succ fuel ih =>
    intro n ds h
    have hd : (Nat.digitChar (n % 10)).isDigit = true :=
      digitChar_isDigit _ (Nat.mod_lt _ (by decide))
    have hds : ∀ c ∈ Nat.digitChar (n % 10) :: ds, c.isDigit = true := by
      intro c hc
      rcases List.mem_cons.mp hc with rfl | hc
      · exact hd
      · exact h c hc
    simp only [Nat.toDigitsCore]
    split
    · exact hds
    · exact ih _ _ hds

theorem toDigitsCore_ne_nil (fuel : Nat) :
    ∀ (n : Nat) (ds : List Char), Nat.toDigitsCore 10 (fuel + 1) n ds ≠ [] := by
  induction fuel with
  | zero =>
    intro n ds
    simp only [Nat.toDigitsCore]
    split <;> simp
  | succ fuel ih =>
    intro n ds
    rw [Nat.toDigitsCore]
    split
    · simp
    · exact ih _ _

/-- Every character of a decimal rendering is a decimal digit. -/
theorem decimal_isDigit (n : Nat) : ∀ c ∈ Template.decimal n, c.isDigit = true :=
  toDigitsCore_isDigit _ _ _ (by simp)

/-- A decimal rendering is not empty. -/
theorem decimal_ne_nil (n : Nat) : Template.decimal n ≠ [] :=
  toDigitsCore_ne_nil _ _ _

theorem isDigit_ne_brace {c : Char} (h : c.isDigit = true) : c ≠ '{' := by
  rintro rfl
  exact absurd h (by decide)

/-! ### The left delimiter in rendered text -/

theorem hasLeftDelim_digits_append (d y : List Char) (hd : ∀ c ∈ d, c.isDigit = true) :
    hasLeftDelim (d ++ y) = hasLeftDelim y := by
  induction d with
  | nil => rfl
  | cons c cs ih =>
    have hc : c ≠ '{' := isDigit_ne_brace (hd c (List.mem_cons_self _ _))
    have := ih (fun c hc => hd c (List.mem_cons_of_mem _ hc))
    simp [hasLeftDelim, hc, this]

theorem hasLeftDelim_append_of_head (x y : List Char) (hx : hasLeftDelim x = false)
    (hy : hasLeftDelim y = false) (hh : y.head? ≠ some '{') :
    hasLeftDelim (x ++ y) = false := by
  induction x with
  | nil => simpa using hy
  | cons c cs ih =>
    simp only [hasLeftDelim, Bool.or_eq_false_iff, Bool.and_eq_false_imp,
      decide_eq_true_eq] at hx
    have hcs := ih hx.2
    simp only [List.cons_append, hasLeftDelim, Bool.or_eq_false_iff, Bool.and_eq_false_imp,
      decide_eq_true_eq, decide_eq_false_iff_not]
    refine ⟨fun hc => ?_, hcs⟩
    cases cs with
    | nil => simpa using hh
    | cons c' cs' => simpa using hx.1 hc

theorem head?_decimal_append (n : Nat) (y : List Char) :
    (Template.decimal n ++ y).head? ≠ some '{' := by
  have hne := decimal_ne_nil n
  have hd := decimal_isDigit n
  cases h : Template.decimal n with
  | nil => exact absurd h hne
  | cons c cs =>
    rw [h] at hd
    have := isDigit_ne_brace (hd c (List.mem_cons_self _ _))
    simpa using this

/-- No left delimiter occurs in four delimiter-free texts joined by three decimal
renderings. -/
theorem hasLeftDelim_rendered (t0 t1 t2 t3 : List Char) (a b c : Nat)
    (h0 : hasLeftDelim t0 = false) (h1 : hasLeftDelim t1 = false)
    (h2 : hasLeftDelim t2 = false) (h3 : hasLeftDelim t3 = false) :
    hasLeftDelim (t0 ++ (Template.decimal a ++ (t1 ++ (Template.decimal b ++
      (t2 ++ (Template.decimal c ++ t3)))))) = false := by
  have e3 : hasLeftDelim (Template.decimal c ++ t3) = false := by
    rw [hasLeftDelim_digits_append _ _ (decimal_isDigit c)]; exact h3
  have e2 := hasLeftDelim_append_of_head t2 _ h2 e3 (head?_decimal_append c t3)
  have e2' : hasLeftDelim (Template.decimal b ++ (t2 ++ (Template.decimal c ++ t3))) = false := by
    rw [hasLeftDelim_digits_append _ _ (decimal_isDigit b)]; exact e2
  have e1 := hasLeftDelim_append_of_head t1 _ h1 e2' (head?_decimal_append b _)
  have e1' : hasLeftDelim (Template.decimal a ++ (t1 ++ (Template.decimal b ++
      (t2 ++ (Template.decimal c ++ t3))))) = false := by
    rw [hasLeftDelim_digits_append _ _ (decimal_isDigit a)]; exact e1
  exact hasLeftDelim_append_of_head t0 _ h0 e1' (head?_decimal_append a _)

/-- Lexing a text without left delimiter stays in text mode and collects the text. -/
theorem Template.lex_no_delim (cs : List Char) :
    ∀ (acc : List Char) (out : List Template.Node), hasLeftDelim cs = false →
      Template.lexFinish (Template.lexRun (.text acc out) cs) =
          some (Template.flushText (cs.reverse ++ acc) out).reverse ∧
      (cs.head? ≠ some '{' →
        Template.lexFinish (Template.lexRun (.textBrace acc out) cs) =
          some (Template.flushText (cs.reverse ++ '{' :: acc) out).reverse) := by
  induction cs with
  | nil => intro acc out _; simp [Template.lexRun, Template.lexFinish]
  | cons c cs ih =>
    intro acc out h
    simp only [hasLeftDelim, Bool.or_eq_false_iff, Bool.and_eq_false_imp,
      decide_eq_true_eq] at h
    obtain ⟨hc, hcs⟩ := h
    constructor
    · by_cases hb : c = '{'
      · subst hb
        have := (ih acc out hcs).2 (by simpa using hc rfl)
        simpa [Template.lexRun, Template.lexStep] using this
      · have := (ih (c :: acc) out hcs).1
        simpa [Template.lexRun, Template.lexStep, hb] using this
    · intro hh
      have hb : c ≠ '{' := by simpa using hh
      have := (ih (c :: '{' :: acc) out hcs).1
      simpa [Template.lexRun, Template.lexStep, hb] using this

/-- A non-empty text without left delimiter parses as a single text item: it holds
no action. -/
theorem Template.parse_no_delim (s : List Char) (hne : s ≠ []) (h : hasLeftDelim s = false) :
    Template.parse (String.mk s) = some [.text s] := by
  have := (Template.lex_no_delim s [] [] h).1
  cases hs : s.reverse with
  | nil => simp at hs; exact absurd hs hne
  | cons c cs =>
    have hs' : s = (c :: cs).reverse := by rw [← hs, List.reverse_reverse]
    simp only [Template.parse, this, List.append_nil, hs, Template.flushText]
    rw [hs']
    simp


/-! ### The rendered schema -/

set_option maxRecDepth 1000000 in
/-- None of the four stretches of text of `schema` holds a left delimiter. -/
theorem schemaText_no_delim :
    (hasLeftDelim (schemaText 0) || hasLeftDelim (schemaText 1) ||
      hasLeftDelim (schemaText 2) || hasLeftDelim (schemaText 3)) = false := by
  decide!

set_option maxRecDepth 1000000 in
/-- The text in front of each action: the `maximum` members of `min-buffers`,
`max-buffers` and `buffer-size`. -/
theorem schemaText_sites :
    (List.isSuffixOf (r#""min-buffers": 		{"type": "integer", "minimum": 1, "maximum": "#).data (schemaText 0) &&
      List.isSuffixOf (r#""max-buffers": 		{"type": "integer", "minimum": 2, "maximum": "#).data (schemaText 1) &&
      List.isSuffixOf (r#""buffer-size":		{"type": "integer", "maximum": "#).data (schemaText 2)) = true := by
  decide!

/-- The rendered text is not empty. -/
theorem rendered_ne_nil (cfg : schemaConfig) : rendered cfg ≠ [] := by
  intro h
  have h1 := congrArg List.length h
  have h2 := List.length_pos.mpr (decimal_ne_nil cfg.MinBuffers)
  simp only [rendered, List.length_append, List.length_nil] at h1
  omega

/-- The rendered text holds no left delimiter. -/
theorem rendered_no_delim (cfg : schemaConfig) : hasLeftDelim (rendered cfg) = false := by
  have h := schemaText_no_delim
  simp only [Bool.or_eq_false_iff] at h
  exact hasLeftDelim_rendered _ _ _ _ _ _ _ h.1.1.1 h.1.1.2 h.1.2 h.2


/-! ### Tokens of the rendered text -/

theorem Token.run_cons (st : TokState) (c : Char) (cs : List Char) :
    Token.run st (c :: cs) = Token.run (Token.step st c) cs := by
  cases st <;> simp [Token.run, Token.step]
  cases cs <;> simp [Token.run]

theorem Token.run_append (x y : List Char) :
    ∀ st : TokState, Token.run st (x ++ y) = Token.run (Token.run st x) y := by
  induction x with
  | nil => intro st; cases st <;> simp [Token.run]
  | cons c cs ih =>
    intro st
    rw [List.cons_append, Token.run_cons, Token.run_cons, ih]

theorem Token.idleStep_after (older out : List Token) (c : Char) :
    Token.idleStep (out ++ older) c = (Token.idleStep out c).after older := by
  unfold Token.idleStep
  cases Token.start c <;> simp [TokState.after]

theorem Token.step_after (older : List Token) (st : TokState) (c : Char) :
    Token.step (st.after older) c = (Token.step st c).after older := by
  cases st with
  | idle o => exact Token.idleStep_after older o c
  | inStr acc o =>
    show Token.step (.inStr acc (o ++ older)) c = (Token.step (.inStr acc o) c).after older
    simp only [Token.step]
    split_ifs <;> rfl
  | inNum v o =>
    show Token.step (.inNum v (o ++ older)) c = (Token.step (.inNum v o) c).after older
    simp only [Token.step]
    split_ifs
    · rfl
    · rfl
    · exact Token.idleStep_after older (.num v :: o) c
  | inWord acc o =>
    show Token.step (.inWord acc (o ++ older)) c = (Token.step (.inWord acc o) c).after older
    simp only [Token.step]
    split
    · rfl
    · cases Token.ofWord acc.reverse with
      | none => rfl
      | some t => exact Token.idleStep_after older (t :: o) c
  | failed => rfl

/-- The tokenizer does not look at the tokens it has finished. -/
theorem Token.run_after (older : List Token) (cs : List Char) :
    ∀ st : TokState, Token.run (st.after older) cs = (Token.run st cs).after older := by
  induction cs with
  | nil => intro st; cases st <;> simp [Token.run, TokState.after]
  | cons c cs ih =>
    intro st
    rw [Token.run_cons, Token.run_cons, Token.step_after, ih]

theorem TokState.eq_idle_of_isIdle {st : TokState} (h : st.isIdle = true) :
    st = .idle st.out := by
  cases st <;> simp [TokState.isIdle, TokState.out] at h ⊢

/-- A text that leaves the tokenizer between tokens, read after other tokens. -/
theorem Token.run_idle_text (out : List Token) (t : List Char)
    (ht : (Token.run (.idle []) t).isIdle = true) :
    Token.run (.idle out) t = .idle ((Token.run (.idle []) t).out ++ out) := by
  have h := Token.run_after out t (.idle [])
  simp only [TokState.after, List.nil_append] at h
  rw [h, TokState.eq_idle_of_isIdle ht]
  simp [TokState.after, TokState.out]

theorem Token.idleStep_digit (out : List Token) (c : Char) (hc : c.isDigit = true) :
    Token.idleStep out c = .inNum (Token.digitValue c) out := by
  have h1 : c ≠ ' ' := by rintro rfl; exact absurd hc (by decide)
  have h2 : c ≠ '\t' := by rintro rfl; exact absurd hc (by decide)
  have h3 : c ≠ '\n' := by rintro rfl; exact absurd hc (by decide)
  have h4 : c ≠ '\r' := by rintro rfl; exact absurd hc (by decide)
  have h5 : c ≠ '{' := by rintro rfl; exact absurd hc (by decide)
  have h6 : c ≠ '}' := by rintro rfl; exact absurd hc (by decide)
  have h7 : c ≠ '[' := by rintro rfl; exact absurd hc (by decide)
  have h8 : c ≠ ']' := by rintro rfl; exact absurd hc (by decide)
  have h9 : c ≠ ':' := by rintro rfl; exact absurd hc (by decide)
  have h10 : c ≠ ',' := by rintro rfl; exact absurd hc (by decide)
  have h11 : c ≠ '"' := by rintro rfl; exact absurd hc (by decide)
  simp [Token.idleStep, Token.start, h1, h2, h3, h4, h5, h6, h7, h8, h9, h10, h11, hc]

theorem Token.run_digits (ds : List Char) (hd : ∀ c ∈ ds, c.isDigit = true) :
    ∀ (v : Nat) (out : List Token) (rest : List Char), v ≠ 0 ∨ ds = [] →
      Token.run (.inNum v out) (ds ++ rest) = Token.run (.inNum (digitsValue v ds) out) rest := by
  induction ds with
  | nil => intro v out rest _; rfl
  | cons c cs ih =>
    intro v out rest hv
    have hv0 : v ≠ 0 := hv.resolve_right (List.cons_ne_nil _ _)
    have hc := hd c (List.mem_cons_self _ _)
    rw [List.cons_append, Token.run_cons]
    simp only [Token.step, hc, if_true, if_neg hv0]
    rw [ih (fun c hc => hd c (List.mem_cons_of_mem _ hc)) _ _ _ (Or.inl (by omega))]
    rfl

/-- Digits that do not start with a superfluous zero, read between tokens. -/
theorem Token.run_idle_digits (c : Char) (cs : List Char)
    (hd : ∀ d ∈ c :: cs, d.isDigit = true) (h0 : Token.digitValue c ≠ 0 ∨ cs = [])
    (out : List Token) (rest : List Char) :
    Token.run (.idle out) (c :: cs ++ rest) =
      Token.run (.inNum (digitsValue 0 (c :: cs)) out) rest := by
  have hc := hd c (List.mem_cons_self _ _)
  rw [List.cons_append, Token.run_cons]
  simp only [Token.step, Token.idleStep_digit out c hc]
  rw [Token.run_digits cs (fun c hc => hd c (List.mem_cons_of_mem _ hc)) _ _ _ h0]
  simp [digitsValue]

theorem Token.run_number_end (v : Nat) (out : List Token) (rest : List Char)
    (h : startsWithNonDigit rest = true) :
    Token.run (.inNum v out) rest = Token.run (.idle (.num v :: out)) rest := by
  cases rest with
  | nil => simp [startsWithNonDigit] at h
  | cons c cs =>
    simp only [startsWithNonDigit, Bool.not_eq_true'] at h
    rw [Token.run_cons, Token.run_cons]
    simp [Token.step, h]

theorem digitValue_digitChar (d : Nat) (h : d < 10) :
    Token.digitValue (Nat.digitChar d) = d := by
  interval_cases d <;> decide

theorem digitsValue_toDigitsCore (fuel : Nat) :
    ∀ (n : Nat) (ds : List Char), n < fuel →
      digitsValue 0 (Nat.toDigitsCore 10 fuel n ds) = digitsValue n ds := by
  induction fuel with
  | zero => intro n ds h; omega
  | succ fuel ih =>
    intro n ds h
    have hd := digitValue_digitChar (n % 10) (Nat.mod_lt _ (by decide))
    simp only [Nat.toDigitsCore]
    split
    · next h0 =>
      have hn : n % 10 = n := by omega
      rw [hn] at hd
      simp only [digitsValue, List.foldl_cons, Nat.zero_mul, Nat.zero_add, hn, hd]
    · next h0 =>
      rw [ih (n / 10) _ (by omega)]
      simp only [digitsValue, List.foldl_cons, hd]
      congr 1
      omega

/-- Reading the decimal rendering of a number gives the number back. -/
theorem digitsValue_decimal (n : Nat) : digitsValue 0 (Template.decimal n) = n := by
  unfold Template.decimal Nat.toDigits
  rw [digitsValue_toDigitsCore (n + 1) n [] (Nat.lt_succ_self n)]
  rfl

/-- The decimal rendering of a number starts with a digit other than zero, unless it
is the single digit of zero. -/
theorem toDigitsCore_head (fuel : Nat) :
    ∀ (n : Nat) (ds : List Char), n < fuel →
      ∃ c cs, Nat.toDigitsCore 10 fuel n ds = c :: (cs ++ ds) ∧
        (0 < n → Token.digitValue c ≠ 0) ∧ (n = 0 → cs = []) := by
  induction fuel with
  | zero => intro n ds h; omega
  | succ fuel ih =>
    intro n ds h
    have hd := digitValue_digitChar (n % 10) (Nat.mod_lt _ (by decide))
    simp only [Nat.toDigitsCore]
    split
    · next h0 =>
      have hn : n % 10 = n := by omega
      rw [hn] at hd
      refine ⟨Nat.digitChar n, [], by rw [hn]; rfl, fun hpos => ?_, fun _ => rfl⟩
      rw [hd]
      omega
    · next h0 =>
      obtain ⟨c, cs, hcs, hpos, _⟩ := ih (n / 10) (Nat.digitChar (n % 10) :: ds) (by omega)
      refine ⟨c, cs ++ [Nat.digitChar (n % 10)], ?_, fun _ => hpos (by omega), fun hn => ?_⟩
      · rw [hcs]
        simp
      · rw [hn] at h0
        exact absurd rfl h0

theorem decimal_head (n : Nat) :
    ∃ c cs, Template.decimal n = c :: cs ∧ (Token.digitValue c ≠ 0 ∨ cs = []) := by
  obtain ⟨c, cs, hcs, hpos, hzero⟩ := toDigitsCore_head (n + 1) n [] (Nat.lt_succ_self n)
  refine ⟨c, cs, ?_, ?_⟩
  · unfold Template.decimal Nat.toDigits
    rw [hcs, List.append_nil]
  · rcases Nat.eq_zero_or_pos n with h | h
    · exact Or.inr (hzero h)
    · exact Or.inl (hpos h)

/-- A text that leaves the tokenizer between tokens, followed by the decimal rendering of
a number and a text that does not start with a digit: the tokens of the text, then the
number. -/
theorem Token.run_text_number (out : List Token) (t rest : List Char) (n : Nat)
    (ht : (Token.run (.idle []) t).isIdle = true) (hr : startsWithNonDigit rest = true) :
    Token.run (.idle out) (t ++ (Template.decimal n ++ rest)) =
      Token.run (.idle (.num n :: ((Token.run (.idle []) t).out ++ out))) rest := by
  obtain ⟨c, cs, hcs, h0⟩ := decimal_head n
  have hd := decimal_isDigit n
  have hv := digitsValue_decimal n
  rw [hcs] at hd hv
  rw [Token.run_append, Token.run_idle_text out t ht, hcs,
    Token.run_idle_digits c cs hd h0, hv, Token.run_number_end _ _ _ hr]

theorem startsWithNonDigit_append (x y : List Char) (h : startsWithNonDigit x = true) :
    startsWithNonDigit (x ++ y) = true := by
  cases x with
  | nil => simp [startsWithNonDigit] at h
  | cons c cs => simpa [startsWithNonDigit] using h

/-- The tokens of four texts joined by the decimal renderings of three numbers. -/
theorem Token.tokenize_rendered (t0 t1 t2 t3 : List Char) (a b c : Nat)
    (h0 : (Token.run (.idle []) t0).isIdle = true)
    (h1 : (Token.run (.idle []) t1).isIdle = true)
    (h2 : (Token.run (.idle []) t2).isIdle = true)
    (h3 : (Token.run (.idle []) t3).isIdle = true)
    (s1 : startsWithNonDigit t1 = true) (s2 : startsWithNonDigit t2 = true)
    (s3 : startsWithNonDigit t3 = true) :
    Token.tokenize (t0 ++ (Template.decimal a ++ (t1 ++ (Template.decimal b ++
        (t2 ++ (Template.decimal c ++ t3)))))) =
      some ((Token.run (.idle []) t0).out.reverse ++ .num a ::
        ((Token.run (.idle []) t1).out.reverse ++ .num b ::
          ((Token.run (.idle []) t2).out.reverse ++ .num c ::
            (Token.run (.idle []) t3).out.reverse))) := by
  unfold Token.tokenize
  rw [Token.run_text_number [] t0 _ a h0 (startsWithNonDigit_append _ _ s1),
    Token.run_text_number _ t1 _ b h1 (startsWithNonDigit_append _ _ s2),
    Token.run_text_number _ t2 _ c h2 s3,
    Token.run_idle_text _ t3 h3]
  simp [Token.finish]


/-! ### Parsing commutes with filling the holes -/

mutual
theorem TJson.same_eq : ∀ (a b : TJson), a.same b = true → a = b
  | .null, b, h => by cases b <;> simp_all [TJson.same]
  | .bool x, b, h => by cases b <;> simp_all [TJson.same]
  | .num x, b, h => by cases b <;> simp_all [TJson.same]
  | .hole x, b, h => by cases b <;> simp_all [TJson.same]
  | .str x, b, h => by cases b <;> simp_all [TJson.same]
  | .arr xs, b, h => by
    cases b with
    | arr ys => rw [TJson.sameList_eq xs ys (by simpa [TJson.same] using h)]
    | _ => simp [TJson.same] at h
  | .obj xs, b, h => by
    cases b with
    | obj ys => rw [TJson.sameMembers_eq xs ys (by simpa [TJson.same] using h)]
    | _ => simp [TJson.same] at h
theorem TJson.sameList_eq : ∀ (xs ys : List TJson), TJson.sameList xs ys = true → xs = ys
  | [], ys, h => by cases ys <;> simp_all [TJson.sameList]
  | x :: xs, ys, h => by
    cases ys with
    | nil => simp [TJson.sameList] at h
    | cons y ys =>
      simp only [TJson.sameList, Bool.and_eq_true] at h
      rw [TJson.same_eq x y h.1, TJson.sameList_eq xs ys h.2]
theorem TJson.sameMembers_eq :
    ∀ (xs ys : List (String × TJson)), TJson.sameMembers xs ys = true → xs = ys
  | [], ys, h => by cases ys <;> simp_all [TJson.sameMembers]
  | (k, x) :: xs, ys, h => by
    cases ys with
    | nil => simp [TJson.sameMembers] at h
    | cons y ys =>
      obtain ⟨k', y⟩ := y
      simp only [TJson.sameMembers, Bool.and_eq_true, decide_eq_true_eq] at h
      rw [h.1.1, TJson.same_eq x y h.1.2, TJson.sameMembers_eq xs ys h.2]
end

theorem TJson.fillList_eq_map (cfg : schemaConfig) (xs : List TJson) :
    TJson.fillList cfg xs = xs.map (TJson.fill cfg) := by
  induction xs with
  | nil => rfl
  | cons x xs ih => simp [TJson.fillList, ih]

theorem TJson.fillMembers_eq_map (cfg : schemaConfig) (kvs : List (String × TJson)) :
    TJson.fillMembers cfg kvs = kvs.map fun kv => (kv.1, TJson.fill cfg kv.2) := by
  induction kvs with
  | nil => rfl
  | cons kv kvs ih => obtain ⟨k, v⟩ := kv; simp [TJson.fillMembers, ih]

theorem TJson.fillList_reverse (cfg : schemaConfig) (xs : List TJson) :
    TJson.fillList cfg xs.reverse = (TJson.fillList cfg xs).reverse := by
  simp [TJson.fillList_eq_map]

theorem TJson.fillMembers_reverse (cfg : schemaConfig) (kvs : List (String × TJson)) :
    TJson.fillMembers cfg kvs.reverse = (TJson.fillMembers cfg kvs).reverse := by
  simp [TJson.fillMembers_eq_map]

theorem Token.scalar?_fill (cfg : schemaConfig) (t : Token) :
    (t.fill cfg).scalar? = t.scalar?.map (TJson.fill cfg) := by
  cases t <;> simp [Token.fill, Token.scalar?, TJson.fill]
  case hole f =>
    simp only [TJson.fillHole]
    cases Template.evalField cfg f.data <;> simp [Token.scalar?]

theorem Token.fill_eq_of_scalar?_none (cfg : schemaConfig) (t : Token) (h : t.scalar? = none) :
    t.fill cfg = t := by
  cases t <;> simp [Token.fill, Token.scalar?] at h ⊢

theorem ParseState.deliver_fill (cfg : schemaConfig) (v : TJson) (stack : List Frame) :
    ParseState.deliver (v.fill cfg) (stack.map (Frame.fill cfg)) =
      (ParseState.deliver v stack).fill cfg := by
  cases stack with
  | nil => rfl
  | cons f rest =>
    cases f with
    | arr items => simp [ParseState.deliver, ParseState.fill, Frame.fill, TJson.fillList]
    | obj members key =>
      cases key <;> simp [ParseState.deliver, ParseState.fill, Frame.fill, TJson.fillMembers]

theorem ParseState.valueStep_fill (cfg : schemaConfig) (stack : List Frame) (t : Token) :
    ParseState.valueStep (stack.map (Frame.fill cfg)) (t.fill cfg) =
      (ParseState.valueStep stack t).fill cfg := by
  unfold ParseState.valueStep
  rw [Token.scalar?_fill]
  cases h : t.scalar? with
  | some v => simp [ParseState.deliver_fill]
  | none =>
    rw [Token.fill_eq_of_scalar?_none cfg t h]
    cases t <;> simp [ParseState.fill, Frame.fill, TJson.fillList, TJson.fillMembers]

theorem ParseState.keyStep_fill (cfg : schemaConfig) (stack : List Frame) (t : Token) :
    ParseState.keyStep (stack.map (Frame.fill cfg)) (t.fill cfg) =
      (ParseState.keyStep stack t).fill cfg := by
  cases t with
  | str k =>
    cases stack with
    | nil => rfl
    | cons f rest =>
      cases f with
      | arr items => rfl
      | obj members key => cases key <;> simp [Token.fill, ParseState.keyStep, ParseState.fill, Frame.fill]
  | hole f =>
    simp only [Token.fill]
    cases Template.evalField cfg f.data <;> simp [ParseState.keyStep, ParseState.fill]
  | _ => simp [Token.fill, ParseState.keyStep, ParseState.fill]

theorem ParseState.closeStep_fill (cfg : schemaConfig) (stack : List Frame) (t : Token) :
    ParseState.closeStep (stack.map (Frame.fill cfg)) (t.fill cfg) =
      (ParseState.closeStep stack t).fill cfg := by
  cases t with
  | rbrack =>
    cases stack with
    | nil => rfl
    | cons f rest =>
      cases f with
      | arr items =>
        simp only [Token.fill, ParseState.closeStep, List.map_cons, Frame.fill,
          ← TJson.fillList_reverse, ← ParseState.deliver_fill]
        rfl
      | obj members key => rfl
  | rbrace =>
    cases stack with
    | nil => rfl
    | cons f rest =>
      cases f with
      | arr items => rfl
      | obj members key =>
        cases key with
        | some k => rfl
        | none =>
          simp only [Token.fill, ParseState.closeStep, List.map_cons, Frame.fill,
            ← TJson.fillMembers_reverse, ← ParseState.deliver_fill]
          rfl
  | hole f =>
    simp only [Token.fill]
    cases Template.evalField cfg f.data <;> simp [ParseState.closeStep, ParseState.fill]
  | _ => simp [Token.fill, ParseState.closeStep, ParseState.fill]

theorem Token.fill_eq_iff (cfg : schemaConfig) (t p : Token) (hp : p.scalar? = none) :
    t.fill cfg = p ↔ t = p := by
  cases t <;> simp [Token.fill]
  case hole f =>
    cases Template.evalField cfg f.data <;> cases p <;> simp [Token.scalar?] at hp ⊢

theorem ParseState.step_fill (cfg : schemaConfig) (expect : Expect) (stack : List Frame)
    (t : Token) :
    ParseState.step expect (stack.map (Frame.fill cfg)) (t.fill cfg) =
      (ParseState.step expect stack t).fill cfg := by
  cases expect with
  | value => exact ParseState.valueStep_fill cfg stack t
  | valueOrEnd =>
    simp only [ParseState.step, Token.fill_eq_iff cfg t .rbrack rfl]
    split
    · exact ParseState.closeStep_fill cfg stack t
    · exact ParseState.valueStep_fill cfg stack t
  | keyOrEnd =>
    simp only [ParseState.step, Token.fill_eq_iff cfg t .rbrace rfl]
    split
    · exact ParseState.closeStep_fill cfg stack t
    · exact ParseState.keyStep_fill cfg stack t
  | key => exact ParseState.keyStep_fill cfg stack t
  | colon =>
    simp only [ParseState.step, Token.fill_eq_iff cfg t .colon rfl]
    split <;> rfl
  | commaOrEnd =>
    simp only [ParseState.step, Token.fill_eq_iff cfg t .comma rfl]
    split
    · cases stack with
      | nil => rfl
      | cons f rest =>
        cases f with
        | arr items => rfl
        | obj members key => cases key <;> rfl
    · exact ParseState.closeStep_fill cfg stack t

theorem ParseState.runTokens_fill (cfg : schemaConfig) (ts : List Token) :
    ∀ s : ParseState,
      ParseState.runTokens (s.fill cfg) (ts.map (Token.fill cfg)) =
        (ParseState.runTokens s ts).fill cfg := by
  induction ts with
  | nil => intro s; cases s <;> rfl
  | cons t ts ih =>
    intro s
    cases s with
    | run expect stack =>
      show ParseState.runTokens
          (ParseState.step expect (stack.map (Frame.fill cfg)) (t.fill cfg))
          (ts.map (Token.fill cfg)) =
        (ParseState.runTokens (ParseState.step expect stack t) ts).fill cfg
      rw [ParseState.step_fill, ih]
    | done v => rfl
    | failed => rfl

/-- Parsing commutes with executing the template: the tree of the tokens with their
holes filled is the tree of the tokens, with its holes filled. -/
theorem parseTokens_fill (cfg : schemaConfig) (ts : List Token) :
    parseTokens (ts.map (Token.fill cfg)) = (parseTokens ts).map (TJson.fill cfg) := by
  unfold parseTokens
  have h := ParseState.runTokens_fill cfg ts (.run .value [])
  simp only [ParseState.fill, List.map_nil] at h
  rw [h]
  cases ParseState.runTokens (.run .value []) ts <;> rfl


/-! ### The tree of the rendered text -/

theorem Token.start_noHole (c : Char) (t : Token) (h : Token.start c = .token t) :
    t.isHole = false := by
  unfold Token.start at h
  split_ifs at h <;> cases h <;> rfl

theorem Token.ofWord_noHole (w : List Char) (t : Token) (h : Token.ofWord w = some t) :
    t.isHole = false := by
  unfold Token.ofWord at h
  split_ifs at h <;> cases h <;> rfl

theorem Token.idleStep_noHole (o : List Token) (c : Char)
    (h : ∀ t ∈ o, t.isHole = false) : ∀ t ∈ (Token.idleStep o c).out, t.isHole = false := by
  unfold Token.idleStep
  cases hs : Token.start c with
  | blank => exact h
  | token t =>
    intro u hu
    rcases List.mem_cons.mp hu with rfl | hu
    · exact Token.start_noHole c _ hs
    · exact h u hu
  | string => exact h
  | number v => exact h
  | word d => exact h
  | nothing => intro u hu; cases hu

theorem Token.step_noHole (st : TokState) (c : Char)
    (h : ∀ t ∈ st.out, t.isHole = false) : ∀ t ∈ (Token.step st c).out, t.isHole = false := by
  have hidle := fun o => Token.idleStep_noHole o c
  have hword := Token.ofWord_noHole
  cases st with
  | idle o => exact hidle o h
  | inStr acc o =>
    simp only [Token.step]
    split_ifs <;> simp [TokState.out, Token.isHole] <;> exact h
  | inNum v o =>
    simp only [Token.step]
    split_ifs
    · intro t ht; cases ht
    · exact h
    · apply hidle
      intro t ht
      rcases List.mem_cons.mp ht with rfl | ht
      · rfl
      · exact h t ht
  | inWord acc o =>
    simp only [Token.step]
    split
    · exact h
    · cases hw : Token.ofWord acc.reverse with
      | none => simp [TokState.out]
      | some w =>
        apply hidle
        intro t ht
        rcases List.mem_cons.mp ht with rfl | ht
        · exact hword _ _ hw
        · exact h t ht
  | failed => simp [Token.step, TokState.out]

/-- The tokenizer produces no hole. -/
theorem Token.run_noHole (cs : List Char) :
    ∀ st : TokState, (∀ t ∈ st.out, t.isHole = false) →
      ∀ t ∈ (Token.run st cs).out, t.isHole = false := by
  induction cs with
  | nil => intro st h; cases st <;> simpa [Token.run] using h
  | cons c cs ih =>
    intro st h
    rw [Token.run_cons]
    exact ih _ (Token.step_noHole st c h)

theorem Token.map_fill_of_noHole (cfg : schemaConfig) (ts : List Token)
    (h : ∀ t ∈ ts, t.isHole = false) : ts.map (Token.fill cfg) = ts := by
  induction ts with
  | nil => rfl
  | cons t ts ih =>
    have ht := h t (List.mem_cons_self _ _)
    rw [List.map_cons, ih fun t ht => h t (List.mem_cons_of_mem _ ht)]
    cases t <;> simp [Token.isHole, Token.fill] at ht ⊢

theorem Token.map_fill_text (cfg : schemaConfig) (t : List Char) :
    (Token.run (.idle []) t).out.reverse.map (Token.fill cfg) =
      (Token.run (.idle []) t).out.reverse := by
  apply Token.map_fill_of_noHole
  intro tok htok
  exact Token.run_noHole t (.idle []) (by simp [TokState.out]) tok (List.mem_reverse.mp htok)

theorem Token.tokenize_of_isIdle (t : List Char)
    (h : (Token.run (.idle []) t).isIdle = true) :
    Token.tokenize t = some (Token.run (.idle []) t).out.reverse := by
  unfold Token.tokenize
  rw [TokState.eq_idle_of_isIdle h]
  rfl

/-- The text rendered from a template of four texts and the three actions, parsed as
JSON, is the tree of the template with its holes filled. -/
theorem parseJson_of_template (r : Option (List Template.Node)) (t0 t1 t2 t3 : List Char)
    (cfg : schemaConfig) (tree : TJson)
    (hp : r = some [.text t0, .field "MinBuffers".data, .text t1, .field "MaxBuffers".data,
      .text t2, .field "MaxBufferSize".data, .text t3])
    (h0 : (Token.run (.idle []) t0).isIdle = true)
    (h1 : (Token.run (.idle []) t1).isIdle = true)
    (h2 : (Token.run (.idle []) t2).isIdle = true)
    (h3 : (Token.run (.idle []) t3).isIdle = true)
    (s1 : startsWithNonDigit t1 = true) (s2 : startsWithNonDigit t2 = true)
    (s3 : startsWithNonDigit t3 = true)
    (htree : ((templateTree r).map fun t => t.same tree) = some true) :
    parseJson (String.mk (t0 ++ (Template.decimal cfg.MinBuffers ++ (t1 ++
        (Template.decimal cfg.MaxBuffers ++ (t2 ++
          (Template.decimal cfg.MaxBufferSize ++ t3))))))) =
      some (tree.fill cfg).toJson := by
  subst hp
  have htok := Token.tokenize_rendered t0 t1 t2 t3 cfg.MinBuffers cfg.MaxBuffers
    cfg.MaxBufferSize h0 h1 h2 h3 s1 s2 s3
  have hfill : (Token.run (.idle []) t0).out.reverse ++ Token.num cfg.MinBuffers ::
        ((Token.run (.idle []) t1).out.reverse ++ Token.num cfg.MaxBuffers ::
          ((Token.run (.idle []) t2).out.reverse ++ Token.num cfg.MaxBufferSize ::
            (Token.run (.idle []) t3).out.reverse)) =
      ((Token.run (.idle []) t0).out.reverse ++ Token.hole "MinBuffers" ::
        ((Token.run (.idle []) t1).out.reverse ++ Token.hole "MaxBuffers" ::
          ((Token.run (.idle []) t2).out.reverse ++ Token.hole "MaxBufferSize" ::
            (Token.run (.idle []) t3).out.reverse))).map (Token.fill cfg) := by
    simp only [List.map_append, List.map_cons, Token.map_fill_text]
    simp [Token.fill, Template.evalField]
  have htmpl : templateTree (some [.text t0, .field "MinBuffers".data, .text t1,
        .field "MaxBuffers".data, .text t2, .field "MaxBufferSize".data, .text t3]) =
      parseTokens ((Token.run (.idle []) t0).out.reverse ++ Token.hole "MinBuffers" ::
        ((Token.run (.idle []) t1).out.reverse ++ Token.hole "MaxBuffers" ::
          ((Token.run (.idle []) t2).out.reverse ++ Token.hole "MaxBufferSize" ::
            (Token.run (.idle []) t3).out.reverse))) := by
    simp [templateTree, templateTokens, Token.tokenize_of_isIdle, h0, h1, h2, h3]
  rw [htmpl] at htree
  unfold parseJson
  simp only [htok, hfill, parseTokens_fill]
  cases hpt : parseTokens ((Token.run (.idle []) t0).out.reverse ++ Token.hole "MinBuffers" ::
        ((Token.run (.idle []) t1).out.reverse ++ Token.hole "MaxBuffers" ::
          ((Token.run (.idle []) t2).out.reverse ++ Token.hole "MaxBufferSize" ::
            (Token.run (.idle []) t3).out.reverse))) with
  | none => rw [hpt] at htree; simp at htree
  | some tree' =>
    rw [hpt] at htree
    simp only [Option.map_some', Option.some.injEq] at htree
    rw [TJson.same_eq tree' tree htree]
    rfl


/-! ### The validator does not run out of fuel -/

theorem Json.depth_lookup {k : String} {kvs : List (String × Json)} {v : Json}
    (h : Json.lookup k kvs = some v) : v.depth ≤ Json.depthMembers kvs := by
  induction kvs with
  | nil => simp [Json.lookup] at h
  | cons kv rest ih =>
    obtain ⟨k', v'⟩ := kv
    simp only [Json.lookup] at h
    simp only [Json.depthMembers]
    split at h
    · simp only [Option.some.injEq] at h
      subst h
      exact Nat.le_max_left _ _
    · exact Nat.le_trans (ih h) (Nat.le_max_right _ _)

theorem Json.depth_mem {x : Json} {xs : List Json} (h : x ∈ xs) :
    x.depth ≤ Json.depthList xs := by
  induction xs with
  | nil => simp at h
  | cons y rest ih =>
    simp only [Json.depthList]
    rcases List.mem_cons.mp h with rfl | h
    · exact Nat.le_max_left _ _
    · exact Nat.le_trans (ih h) (Nat.le_max_right _ _)

theorem Json.depth_get? {s : Json} {k : String} {v : Json} (h : s.get? k = some v) :
    v.depth < s.depth := by
  cases s with
  | obj kvs =>
    simp only [Json.get?] at h
    simp only [Json.depth]
    exact Nat.lt_succ_of_le (Json.depth_lookup h)
  | _ => simp [Json.get?] at h

theorem SchemaNode.depth_property {s : SchemaNode} {k : String} {c : Json}
    (h : Json.lookup k s.properties = some c) : c.depth < s.depth := by
  unfold SchemaNode.properties at h
  split at h
  · next kvs hp =>
    have h1 := Json.depth_get? hp
    have h2 := Json.depth_lookup h
    simp only [Json.depth] at h1
    omega
  · simp [Json.lookup] at h

theorem SchemaNode.depth_positional {s : SchemaNode} {schemas : List Json}
    (h : s.items = some (.positional schemas)) : ∀ c ∈ schemas, c.depth < s.depth := by
  intro c hc
  unfold SchemaNode.items at h
  split at h
  · next xs hp =>
    simp only [Option.some.injEq, Items.positional.injEq] at h
    subst h
    have h1 := Json.depth_get? hp
    have h2 := Json.depth_mem hc
    simp only [Json.depth] at h1
    omega
  · simp at h
  · simp at h

theorem SchemaNode.depth_each {s : SchemaNode} {c : Json}
    (h : s.items = some (.each c)) : c.depth < s.depth := by
  unfold SchemaNode.items at h
  split at h
  · simp at h
  · next kvs hp =>
    simp only [Option.some.injEq, Items.each.injEq] at h
    subst h
    exact Json.depth_get? hp
  · simp at h

theorem SchemaNode.depth_condition {s : SchemaNode} {i t : Json}
    (h : s.condition = some (i, t)) : i.depth < s.depth ∧ t.depth < s.depth := by
  unfold SchemaNode.condition at h
  split at h
  · next i' t' hi ht =>
    simp only [Option.some.injEq, Prod.mk.injEq] at h
    obtain ⟨rfl, rfl⟩ := h
    exact ⟨Json.depth_get? hi, Json.depth_get? ht⟩
  · simp at h

theorem SchemaNode.depth_variant {s : SchemaNode} {vs : List Json}
    (h : s.variants = some vs) : ∀ c ∈ vs, c.depth < s.depth := by
  intro c hc
  unfold SchemaNode.variants at h
  split at h
  · next xs hp =>
    simp only [Option.some.injEq] at h
    subst h
    have h1 := Json.depth_get? hp
    have h2 := Json.depth_mem hc
    simp only [Json.depth] at h1
    omega
  · simp at h

section Congruence

variable {rec₁ rec₂ : SchemaNode → Json → ValidationOutcome}

theorem memberErrors_congr {s : SchemaNode}
    (h : ∀ c, c.depth < s.depth → ∀ d, rec₁ c d = rec₂ c d) (kvs : List (String × Json)) :
    memberErrors rec₁ s kvs = memberErrors rec₂ s kvs := by
  induction kvs with
  | nil => rfl
  | cons kv rest ih =>
    obtain ⟨k, v⟩ := kv
    simp only [memberErrors, ih]
    cases hl : Json.lookup k s.properties with
    | none => rfl
    | some c => simp only [h c (SchemaNode.depth_property hl)]

theorem positionalErrors_congr (schemas : List Json) :
    ∀ (i : Nat) (xs : List Json), (∀ c ∈ schemas, ∀ d, rec₁ c d = rec₂ c d) →
      positionalErrors rec₁ i schemas xs = positionalErrors rec₂ i schemas xs := by
  induction schemas with
  | nil => intro i xs _; simp [positionalErrors]
  | cons c cs ih =>
    intro i xs h
    cases xs with
    | nil => simp [positionalErrors]
    | cons x xs =>
      simp only [positionalErrors]
      rw [h c (List.mem_cons_self _ _), ih (i + 1) xs fun c hc => h c (List.mem_cons_of_mem _ hc)]

theorem eachErrors_congr (schema : Json) (h : ∀ d, rec₁ schema d = rec₂ schema d)
    (xs : List Json) : ∀ i, eachErrors rec₁ schema i xs = eachErrors rec₂ schema i xs := by
  induction xs with
  | nil => intro i; rfl
  | cons x xs ih => intro i; simp only [eachErrors, h, ih]

theorem overlapErrors_congr (kvs : List (String × Json)) (vs : List SchemaNode)
    (h : ∀ c ∈ vs, ∀ d, rec₁ c d = rec₂ c d) :
    overlapErrors rec₁ kvs vs = overlapErrors rec₂ kvs vs := by
  induction vs with
  | nil => rfl
  | cons v vs ih =>
    simp only [overlapErrors]
    rw [ih fun c hc => h c (List.mem_cons_of_mem _ hc)]
    cases declaredMembers v kvs with
    | nil => rfl
    | cons m ms => simp only [h v (List.mem_cons_self _ _)]

/-- The violations of a node depend on the validator of the nodes below only at schema
nodes of smaller depth. -/
theorem nodeErrors_congr (formats : String → String → Bool) {s : SchemaNode}
    (h : ∀ c, c.depth < s.depth → ∀ d, rec₁ c d = rec₂ c d) (d : Json) :
    nodeErrors formats rec₁ s d = nodeErrors formats rec₂ s d := by
  have hobj : objectErrors rec₁ s d = objectErrors rec₂ s d := by
    cases d <;> simp only [objectErrors]
    rw [memberErrors_congr h]
  have harr : arrayErrors rec₁ s d = arrayErrors rec₂ s d := by
    cases d <;> simp only [arrayErrors]
    cases hi : s.items with
    | none => rfl
    | some it =>
      cases it with
      | positional schemas =>
        simp only []
        rw [positionalErrors_congr schemas 0 _
          fun c hc => h c (SchemaNode.depth_positional hi c hc)]
      | each schema =>
        simp only []
        rw [eachErrors_congr schema (h schema (SchemaNode.depth_each hi))]
  have hcond : conditionErrors rec₁ s d = conditionErrors rec₂ s d := by
    simp only [conditionErrors]
    cases hc : s.condition with
    | none => rfl
    | some it =>
      obtain ⟨i, t⟩ := it
      have := SchemaNode.depth_condition hc
      simp only [h i this.1, h t this.2]
  have hvar : variantErrors rec₁ s d = variantErrors rec₂ s d := by
    simp only [variantErrors]
    cases hv : s.variants with
    | none => rfl
    | some vs =>
      cases d <;> simp only []
      rw [overlapErrors_congr _ vs fun c hc => h c (SchemaNode.depth_variant hv c hc)]
  simp only [nodeErrors, hobj, harr, hcond, hvar]

end Congruence

/-- Fuel above the depth of the schema changes nothing. -/
theorem validateFuel_stable (formats : String → String → Bool) (n : Nat) :
    ∀ s : SchemaNode, s.depth < n → ∀ d, validateFuel formats n s d = validate formats s d := by
  induction n using Nat.strong_induction_on with
  | _ n ih =>
    intro s hs d
    cases n with
    | zero => omega
    | succ n =>
      simp only [validate, validateFuel]
      apply nodeErrors_congr
      intro c hc d'
      rw [ih n (Nat.lt_succ_self n) c (by omega) d', ih s.depth hs c hc d']

/-- The validator satisfies the recursive equation of section 4.2: the violations of
a node are those of `nodeErrors`, the nodes below being validated by the validator
itself. -/
theorem validate_eq (formats : String → String → Bool) (s : SchemaNode) (d : Json) :
    validate formats s d = nodeErrors formats (validate formats) s d := by
  simp only [validate, validateFuel]
  apply nodeErrors_congr
  intro c hc d'
  exact validateFuel_stable formats s.depth c hc d'


/-! ### The compiled schema -/

set_option maxRecDepth 100000 in
/-- Compilation of the rendered schema succeeds, for all bounds. -/
theorem compileTree_schemaTree (cfg : schemaConfig) :
    compileTree (schemaTree cfg) = .ok (compiledSchema cfg) := by
  rfl

set_option maxRecDepth 100000 in
/-- The compiled schema is the rendered schema with the `yara` section compiled; the
other sections hold no reference. -/
theorem compiledSchema_eq (cfg : schemaConfig) :
    compiledSchema cfg =
    .obj [
    ("$schema", .str "http://json-schema.org/draft-07/schema#"),
    ("definitions", Schema.definitions),
    ("type", .str "object"),
    ("properties", .obj [
      ("aggregator", Schema.aggregator),
      ("alertsenders", Schema.alertsenders),
      ("api", Schema.api),
      ("config-file", Schema.configFile),
      ("debug-privilege", Schema.debugPrivilege),
      ("handle", Schema.handle),
      ("kcap", Schema.kcap),
      ("filament", Schema.filament),
      ("kevent", Schema.kevent),
      ("kstream", Schema.kstream cfg),
      ("logging", Schema.logging),
      ("output", Schema.output),
      ("pe", Schema.pe),
      ("transformers", Schema.transformers),
      ("yara", Schema.compiledYara)]),
    ("additionalProperties", .bool false)] := by
  rfl

/-- A rendering that is the JSON text of a tree compiles as the tree does. -/
theorem compileText_of_tree {r : Option String} {s : String} {t : Json}
    (hr : r = some s) (hs : parseJson s = some t) : compileText r = compileTree t := by
  subst hr
  simp only [compileText, hs]

/-! ### Walking from a node to the node of a member -/

/-- A document object with one member, validated against a node without enumeration,
required names, condition or variants that declares the member: the violations are
those of the member against its child node, under the key of the member. -/
theorem validate_member (formats : String → String → Bool) (s c : SchemaNode) (k : String)
    (d : Json) (hk : s.admitsObjects) (he : s.enum = none)
    (hp : Json.lookup k s.properties = some c) (hr : s.required = [])
    (hc : s.condition = none) (hv : s.variants = none) :
    validate formats s (.obj [(k, d)]) =
      (validate formats c d).map (ValidationError.under (.key k)) := by
  rw [validate_eq]
  have ht : typeErrors s (.obj [(k, d)]) = [] := by
    rcases hk with h | h <;> simp [typeErrors, h, kindMatches]
  simp [nodeErrors, ht, enumErrors, he, stringErrors, numberErrors, objectErrors, memberErrors,
    hp, hr, arrayErrors, conditionErrors, hc, variantErrors, hv]

/-- A document object with one member, validated against a variant group with one
variant that declares the member: the violations are those of the document object
against the variant. -/
theorem validate_variant_member (formats : String → String → Bool) (s v : SchemaNode)
    (k : String) (d : Json) (hk : s.admitsObjects) (he : s.enum = none)
    (hp : s.properties = []) (ha : s.additionalPropertiesAllowed = true)
    (hr : s.required = []) (hc : s.condition = none) (hv : s.variants = some [v])
    (hd : v.declares k = true) :
    validate formats s (.obj [(k, d)]) = validate formats v (.obj [(k, d)]) := by
  rw [validate_eq]
  have ht : typeErrors s (.obj [(k, d)]) = [] := by
    rcases hk with h | h <;> simp [typeErrors, h, kindMatches]
  simp [nodeErrors, ht, enumErrors, he, stringErrors, numberErrors, objectErrors, memberErrors,
    hp, ha, hr, arrayErrors, conditionErrors, hc, variantErrors, hv, unrecognizedErrors,
    overlapErrors, declaredMembers, hd, Json.lookup]

/-- The violations of a document with one top-level section are those of the section
against its node. -/
theorem validate_section (formats : String → String → Bool) (cfg : schemaConfig)
    (k : String) (c : SchemaNode) (d : Json)
    (hp : Json.lookup k (compiledSchema cfg).properties = some c) :
    validate formats (compiledSchema cfg) (.obj [(k, d)]) =
      (validate formats c d).map (ValidationError.under (.key k)) := by
  rw [compiledSchema_eq] at hp ⊢
  exact validate_member formats _ c k d (Or.inr rfl) rfl hp rfl rfl rfl

theorem unrecognizedErrors_mem (vs : List SchemaNode) (kvs : List (String × Json)) (k : String)
    (hk : k ∈ Json.keys kvs) (hd : (vs.any fun v => v.declares k) = false) :
    ⟨[.key k], .UnknownProperty, "anyOf"⟩ ∈ unrecognizedErrors vs kvs := by
  induction kvs with
  | nil => simp [Json.keys] at hk
  | cons kv rest ih =>
    obtain ⟨k', v'⟩ := kv
    simp only [Json.keys, List.map_cons, List.mem_cons] at hk
    simp only [unrecognizedErrors, List.mem_append]
    rcases hk with rfl | hk
    · left
      rw [hd]
      simp
    · right
      exact ih hk

theorem overlapErrors_nil (rec : SchemaNode → Json → ValidationOutcome) (vs : List SchemaNode) :
    overlapErrors rec [] vs = [] := by
  induction vs with
  | nil => rfl
  | cons v vs ih => simp [overlapErrors, declaredMembers, ih]

/-- The empty document object produces no violation against a node that admits
objects and has no enumeration, no required name and no condition. -/
theorem validate_empty_object (formats : String → String → Bool) (s : SchemaNode)
    (hk : s.admitsObjects) (he : s.enum = none) (hr : s.required = [])
    (hc : s.condition = none) :
    validate formats s (.obj []) = [] := by
  rw [validate_eq]
  have ht : typeErrors s (.obj []) = [] := by
    rcases hk with h | h <;> simp [typeErrors, h, kindMatches]
  have hv : variantErrors (validate formats) s (.obj []) = [] := by
    simp only [variantErrors]
    cases s.variants with
    | none => rfl
    | some vs => simp [unrecognizedErrors, overlapErrors_nil]
  simp only [nodeErrors, ht, hv, enumErrors, he, stringErrors, numberErrors, objectErrors,
    memberErrors, hr, arrayErrors, conditionErrors, hc, List.filter_nil, List.map_nil,
    List.append_nil]


/-- An array with one element, validated against an array node with one positional
item schema and no `minItems`: the violations are those of the element against the item
schema, under the index 0. -/
theorem validate_single_element (formats : String → String → Bool) (s c : SchemaNode)
    (d : Json) (hk : s.kind = none ∨ s.kind = some .array) (he : s.enum = none)
    (hi : s.items = some (.positional [c])) (hm : s.minItems = none)
    (hc : s.condition = none) (hv : s.variants = none) :
    validate formats s (.arr [d]) =
      (validate formats c d).map (ValidationError.under (.index 0)) := by
  rw [validate_eq]
  have ht : typeErrors s (.arr [d]) = [] := by
    rcases hk with h | h <;> simp [typeErrors, h, kindMatches]
  simp [nodeErrors, ht, enumErrors, he, stringErrors, numberErrors, objectErrors,
    arrayErrors, hi, hm, positionalErrors, conditionErrors, hc, variantErrors, hv]

/-- The item node of `yara.rule.paths` in the compiled schema: in its `if` node the
property `enabled` is the fragment `#yara`, the `const` beside the reference gone. -/
theorem yaraPathsItem_eq :
    Schema.yaraPathsItem =
      .obj [
        ("type", .str "object"),
        ("properties", .obj [
          ("path", .obj [("type", .str "string")]),
          ("namespace", .obj [("type", .str "string")])]),
        ("if", .obj [
          ("properties", .obj [
            ("enabled", .obj [
              ("$id", .str "#yara"),
              ("type", .str "object"),
              ("properties", .obj [("enabled", .obj [("type", .str "boolean")])])])])]),
        ("then", .obj [
          ("properties", .obj [("path", .obj [("minLength", .num 0)])])]),
        ("additionalProperties", .bool false)] := by
  rfl

/-- The violations of a document that holds one element of `yara.rule.paths` are those
of the element against the item node. -/
theorem validate_yara_paths (formats : String → String → Bool) (cfg : schemaConfig)
    (item : Json) :
    validate formats (compiledSchema cfg) (yaraPathsDocument item) =
      (validate formats Schema.yaraPathsItem item).map
        (ValidationError.under (.key "yara") ∘ ValidationError.under (.key "rule") ∘
          ValidationError.under (.key "paths") ∘ ValidationError.under (.index 0)) := by
  unfold yaraPathsDocument
  rw [validate_section formats cfg "yara" Schema.compiledYara _
      (by rw [compiledSchema_eq]; rfl),
    validate_member formats Schema.compiledYara Schema.yaraRule "rule" _
      (Or.inr rfl) rfl rfl rfl rfl rfl,
    validate_variant_member formats Schema.yaraRule Schema.yaraRuleVariant "paths" _
      (Or.inr rfl) rfl rfl rfl rfl rfl rfl rfl,
    validate_member formats Schema.yaraRuleVariant Schema.yaraPaths "paths" _
      (Or.inl rfl) rfl rfl rfl rfl rfl,
    validate_single_element formats Schema.yaraPaths Schema.yaraPathsItem item
      (Or.inr rfl) rfl rfl rfl rfl rfl]
  simp only [List.map_map]

/-- A key that a node neither declares nor allows is an `UnknownProperty`, whatever
else the document object holds. -/
theorem memberErrors_unknown_mem (rec : SchemaNode → Json → ValidationOutcome)
    (s : SchemaNode) (kvs : List (String × Json)) (k : String) (hk : k ∈ Json.keys kvs)
    (hp : Json.lookup k s.properties = none) (ha : s.additionalPropertiesAllowed = false) :
    ⟨[.key k], .UnknownProperty, "additionalProperties"⟩ ∈ memberErrors rec s kvs := by
  induction kvs with
  | nil => simp [Json.keys] at hk
  | cons kv rest ih =>
    obtain ⟨k', v'⟩ := kv
    simp only [Json.keys, List.map_cons, List.mem_cons] at hk
    simp only [memberErrors, List.mem_append]
    rcases hk with rfl | hk
    · left
      rw [hp, ha]
      simp
    · right
      exact ih hk

/-- An element of `yara.rule.paths` that sets `enabled` gets an `UnknownProperty`. -/
theorem yaraPathsItem_enabled_unknown (formats : String → String → Bool)
    (kvs : List (String × Json)) (hk : "enabled" ∈ Json.keys kvs) :
    ⟨[.key "enabled"], .UnknownProperty, "additionalProperties"⟩ ∈
      validate formats Schema.yaraPathsItem (.obj kvs) := by
  rw [validate_eq]
  simp only [nodeErrors, objectErrors, List.mem_append]
  exact Or.inl (Or.inl (Or.inl (Or.inr (Or.inl
    (memberErrors_unknown_mem _ _ kvs "enabled" hk rfl rfl)))))

/-- The members of a document object produce no violation against a node that allows
additional properties and whose declared properties are violated by nothing. -/
theorem memberErrors_nil (rec : SchemaNode → Json → ValidationOutcome) (s : SchemaNode)
    (kvs : List (String × Json)) (ha : s.additionalPropertiesAllowed = true)
    (hp : ∀ k c v, Json.lookup k s.properties = some c → rec c v = []) :
    memberErrors rec s kvs = [] := by
  induction kvs with
  | nil => rfl
  | cons kv rest ih =>
    obtain ⟨k, v⟩ := kv
    simp only [memberErrors, ih, List.append_nil]
    cases hl : Json.lookup k s.properties with
    | none => simp [ha]
    | some c => simp [hp k c v hl]

/-- A node that only sets `minLength` to 0 is violated by nothing. -/
theorem validate_minLength_zero (formats : String → String → Bool) (d : Json) :
    validate formats (.obj [("minLength", .num 0)]) d = [] := by
  rw [validate_eq]
  have hm := memberErrors_nil (validate formats) (.obj [("minLength", .num 0)])
  cases d <;>
    simp [nodeErrors, typeErrors, enumErrors, stringErrors, numberErrors, objectErrors,
      arrayErrors, conditionErrors, variantErrors, SchemaNode.kind,
      SchemaNode.enum, SchemaNode.minLength, SchemaNode.pattern, SchemaNode.format,
      SchemaNode.minimum, SchemaNode.maximum, SchemaNode.required,
      SchemaNode.items, SchemaNode.minItems,
      SchemaNode.condition, SchemaNode.variants, SchemaNode.stringAt, SchemaNode.numberAt,
      SchemaNode.natAt, SchemaNode.strings, Json.get?, Json.lookup]
  exact hm _ rfl (fun k c v h => by simp [SchemaNode.properties, Json.get?, Json.lookup] at h)

/-- The `then` node of the item node of `yara.rule.paths`, which sets `minLength` to 0
for `path`, is violated by nothing. -/
theorem validate_yara_paths_then (formats : String → String → Bool) (d : Json) :
    validate formats (.obj [("properties", .obj [("path", .obj [("minLength", .num 0)])])]) d =
      [] := by
  rw [validate_eq]
  have hm := memberErrors_nil (validate formats)
    (.obj [("properties", .obj [("path", .obj [("minLength", .num 0)])])])
  cases d <;>
    simp [nodeErrors, typeErrors, enumErrors, stringErrors, numberErrors, objectErrors,
      arrayErrors, conditionErrors, variantErrors, SchemaNode.kind,
      SchemaNode.enum, SchemaNode.minLength, SchemaNode.pattern, SchemaNode.format,
      SchemaNode.minimum, SchemaNode.maximum, SchemaNode.required,
      SchemaNode.items, SchemaNode.minItems,
      SchemaNode.condition, SchemaNode.variants, SchemaNode.stringAt, SchemaNode.numberAt,
      SchemaNode.natAt, SchemaNode.strings, Json.get?, Json.lookup]
  refine hm _ rfl (fun k c v h => ?_)
  simp only [SchemaNode.properties, Json.get?, Json.lookup] at h
  split at h
  · cases h
    exact validate_minLength_zero formats v
  · cases h

/-! ### The schema text as a tree -/

set_option maxRecDepth 1000000 in
/-- Each of the four stretches of text of `schema` ends between two JSON tokens, and
the text behind each action does not start with a digit. -/
theorem schemaText_tokens :
    ((Token.run (.idle []) (schemaText 0)).isIdle &&
      (Token.run (.idle []) (schemaText 1)).isIdle &&
      (Token.run (.idle []) (schemaText 2)).isIdle &&
      (Token.run (.idle []) (schemaText 3)).isIdle &&
      startsWithNonDigit (schemaText 1) &&
      startsWithNonDigit (schemaText 2) &&
      startsWithNonDigit (schemaText 3)) = true := by
  decide!

set_option maxRecDepth 1000000 in
/-- The `schema` template, read as JSON with a hole at each action, is
`schemaTemplate`. -/
theorem templateTree_schema :
    ((templateTree (Template.parse schema)).map fun t => t.same schemaTemplate) =
      some true := by
  decide!

/-- The template tree with its holes filled is the rendered tree. -/
theorem schemaTemplate_fill (cfg : schemaConfig) :
    (schemaTemplate.fill cfg).toJson = schemaTree cfg := rfl

/-- For all values of the three bounds the rendered schema is a JSON text, and its
tree is `schemaTree`. -/
theorem parseJson_rendered (cfg : schemaConfig) :
    parseJson (String.mk (rendered cfg)) = some (schemaTree cfg) := by
  have h := schemaText_tokens
  simp only [Bool.and_eq_true] at h
  exact (parseJson_of_template (Template.parse schema) (schemaText 0) (schemaText 1)
    (schemaText 2) (schemaText 3) cfg schemaTemplate parse_schema
    h.1.1.1.1.1.1 h.1.1.1.1.1.2 h.1.1.1.1.2 h.1.1.1.2 h.1.1.2 h.1.2 h.2
    templateTree_schema).trans (congrArg some (schemaTemplate_fill cfg))

theorem parseJson_bind {r : Option String} {s : String} {t : Json}
    (hr : r = some s) (hs : parseJson s = some t) : r.bind parseJson = some t := by
  subst hr
  exact hs

/-- For all values of the three bounds the text `interpolateSchema` returns is a JSON
text, and its tree is `schemaTree`. -/
theorem interpolateSchema_tree (defaultMaxBuffers defaultMinBuffers maxBufferSize : Nat) :
    (interpolateSchema defaultMaxBuffers defaultMinBuffers maxBufferSize).bind parseJson =
      some (schemaTree ⟨defaultMaxBuffers, defaultMinBuffers, maxBufferSize⟩) :=
  parseJson_bind (interpolateSchema_eq defaultMaxBuffers defaultMinBuffers maxBufferSize)
    (parseJson_rendered ⟨defaultMaxBuffers, defaultMinBuffers, maxBufferSize⟩)

/-! ### What `interpolateSchema` returns -/

/-- The text `interpolateSchema` returns compiles, for all bounds, to `compiledSchema`. -/
theorem compile_eq (defaultMaxBuffers defaultMinBuffers maxBufferSize : Nat) :
    compile defaultMaxBuffers defaultMinBuffers maxBufferSize =
      .ok (compiledSchema ⟨defaultMaxBuffers, defaultMinBuffers, maxBufferSize⟩) :=
  (compileText_of_tree (interpolateSchema_eq defaultMaxBuffers defaultMinBuffers maxBufferSize)
    (parseJson_rendered ⟨defaultMaxBuffers, defaultMinBuffers, maxBufferSize⟩)).trans
    (compileTree_schemaTree ⟨defaultMaxBuffers, defaultMinBuffers, maxBufferSize⟩)

/-- C1. For all values of the three bounds `interpolateSchema` returns the template
with exactly three sites changed: the template is four stretches of text separated by
the actions printing `MinBuffers`, `MaxBuffers` and `MaxBufferSize`, which stand at the
`maximum` of `min-buffers`, `max-buffers` and `buffer-size`; the result is the same four
stretches of text with the decimal renderings of the three bounds in place of the
actions.  No left delimiter remains: the result, read as a template again, is a single
text item (two closing braces do follow one another in it, as the ends of nested JSON
objects).  Read as JSON the result is `schemaTree`, in which the `maximum` of
`kstream.min-buffers`, `kstream.max-buffers` and `kstream.buffer-size` is the
respective bound.  The result is a function of the bounds alone. -/
theorem interpolateSchema_substitutes_bounds
    (defaultMaxBuffers defaultMinBuffers maxBufferSize : Nat) :
    schema.data =
        schemaText 0 ++ ("{{ .MinBuffers }}".data ++ (schemaText 1 ++
          ("{{ .MaxBuffers }}".data ++ (schemaText 2 ++
            ("{{ .MaxBufferSize }}".data ++ schemaText 3))))) ∧
      (r#""min-buffers": 		{"type": "integer", "minimum": 1, "maximum": "#).data <:+ schemaText 0 ∧
      (r#""max-buffers": 		{"type": "integer", "minimum": 2, "maximum": "#).data <:+ schemaText 1 ∧
      (r#""buffer-size":		{"type": "integer", "maximum": "#).data <:+ schemaText 2 ∧
      interpolateSchema defaultMaxBuffers defaultMinBuffers maxBufferSize =
        some (String.mk
          (schemaText 0 ++ (Template.decimal defaultMinBuffers ++ (schemaText 1 ++
            (Template.decimal defaultMaxBuffers ++ (schemaText 2 ++
              (Template.decimal maxBufferSize ++ schemaText 3))))))) ∧
      hasLeftDelim (rendered ⟨defaultMaxBuffers, defaultMinBuffers, maxBufferSize⟩) = false ∧
      Template.parse
          (String.mk (rendered ⟨defaultMaxBuffers, defaultMinBuffers, maxBufferSize⟩)) =
        some [.text (rendered ⟨defaultMaxBuffers, defaultMinBuffers, maxBufferSize⟩)] ∧
      (interpolateSchema defaultMaxBuffers defaultMinBuffers maxBufferSize).bind parseJson =
        some (schemaTree ⟨defaultMaxBuffers, defaultMinBuffers, maxBufferSize⟩) ∧
      (schemaTree ⟨defaultMaxBuffers, defaultMinBuffers, maxBufferSize⟩).getPath
          ["properties", "kstream", "properties", "min-buffers", "maximum"] =
        some (.num defaultMinBuffers) ∧
      (schemaTree ⟨defaultMaxBuffers, defaultMinBuffers, maxBufferSize⟩).getPath
          ["properties", "kstream", "properties", "max-buffers", "maximum"] =
        some (.num defaultMaxBuffers) ∧
      (schemaTree ⟨defaultMaxBuffers, defaultMinBuffers, maxBufferSize⟩).getPath
          ["properties", "kstream", "properties", "buffer-size", "maximum"] =
        some (.num maxBufferSize) := by
  have hs := schemaText_sites
  simp only [Bool.and_eq_true, List.isSuffixOf_iff_suffix] at hs
  exact ⟨schema_decomposition, hs.1.1, hs.1.2, hs.2, interpolateSchema_eq _ _ _,
    rendered_no_delim _, Template.parse_no_delim _ (rendered_ne_nil _) (rendered_no_delim _),
    interpolateSchema_tree _ _ _, rfl, rfl, rfl⟩

/-- C6, counterexample. With all three bounds zero `interpolateSchema` does not fail:
it returns the rendered schema, a non-empty text in which each of the three maxima is
the rendering of zero, the digit `0`. -/
theorem interpolateSchema_zero_bounds :
    interpolateSchema 0 0 0 = some (String.mk (rendered ⟨0, 0, 0⟩)) ∧
      String.mk (rendered ⟨0, 0, 0⟩) ≠ "" ∧
      rendered ⟨0, 0, 0⟩ =
        schemaText 0 ++ ('0' :: (schemaText 1 ++ ('0' :: (schemaText 2 ++
          ('0' :: schemaText 3))))) :=
  ⟨interpolateSchema_eq 0 0 0,
    fun h => rendered_ne_nil ⟨0, 0, 0⟩ (congrArg String.data h),
    by
      have d : Template.decimal 0 = ['0'] := by decide
      simp only [rendered, d, List.singleton_append]⟩

/-- C6, amended. For all values of the three bounds, zero included,
`interpolateSchema` returns the rendered schema: it neither panics nor returns the
empty string, since the template parses and its three actions name fields of
`schemaConfig`; the bounds are printed as they are and no check of their sign exists. -/
theorem interpolateSchema_total
    (defaultMaxBuffers defaultMinBuffers maxBufferSize : Nat) :
    ∃ out : String,
      interpolateSchema defaultMaxBuffers defaultMinBuffers maxBufferSize = some out ∧
      out ≠ "" ∧
      out.data = rendered ⟨defaultMaxBuffers, defaultMinBuffers, maxBufferSize⟩ :=
  ⟨_, interpolateSchema_eq _ _ _, by
    intro h
    have h1 := congrArg String.data h
    exact rendered_ne_nil ⟨defaultMaxBuffers, defaultMinBuffers, maxBufferSize⟩ h1, rfl⟩


/-! ### The pattern of `flush-period` -/

/-- What `charRange` matches: the one-character texts whose character has a code from
`lo` to `lo + n - 1`. -/
theorem Regex.charRange_rmatch (x : List Char) :
    ∀ (n lo : Nat), (Regex.charRange lo n).rmatch x = true ↔
      ∃ i, i < n ∧ x = [Char.ofNat (lo + i)]
  | 0, lo => by
    simp only [Regex.charRange, RegularExpression.zero_rmatch]
    constructor
    · intro h; cases h
    · rintro ⟨i, hi, _⟩; omega
  | n + 1, lo => by
    simp only [Regex.charRange]
    rw [RegularExpression.add_rmatch_iff, RegularExpression.char_rmatch_iff,
      Regex.charRange_rmatch x n (lo + 1)]
    constructor
    · rintro (h | ⟨i, hi, h⟩)
      · exact ⟨0, by omega, h⟩
      · exact ⟨i + 1, by omega, by rw [h]; congr 2; omega⟩
    · rintro ⟨i, hi, h⟩
      cases i with
      | zero => exact Or.inl h
      | succ i => exact Or.inr ⟨i, by omega, by rw [h]; congr 2; omega⟩

/-- The characters with the codes 48 to 57 are the decimal digits. -/
theorem isDigit_iff_code (c : Char) : c.isDigit = true ↔ ∃ i, i < 10 ∧ c = Char.ofNat (48 + i) := by
  constructor
  · intro h
    simp only [Char.isDigit, Bool.and_eq_true, decide_eq_true_eq] at h
    have h1 : 48 ≤ c.toNat := h.1
    have h2 : c.toNat ≤ 57 := h.2
    refine ⟨c.toNat - 48, by omega, ?_⟩
    rw [show 48 + (c.toNat - 48) = c.toNat by omega, Char.ofNat_toNat]
  · rintro ⟨i, hi, rfl⟩
    interval_cases i <;> decide

/-- The bracket expression `[0-9]` matches the one-digit texts. -/
theorem Regex.digit_rmatch (x : List Char) :
    (Regex.charRange 48 10 + 0 : Regex).rmatch x = true ↔ ∃ c, c.isDigit = true ∧ x = [c] := by
  rw [RegularExpression.add_rmatch_iff, Regex.charRange_rmatch]
  simp only [RegularExpression.zero_rmatch, Bool.false_eq_true, or_false]
  constructor
  · rintro ⟨i, hi, h⟩
    exact ⟨_, (isDigit_iff_code _).mpr ⟨i, hi, rfl⟩, h⟩
  · rintro ⟨c, hc, h⟩
    obtain ⟨i, hi, rfl⟩ := (isDigit_iff_code c).mp hc
    exact ⟨i, hi, h⟩

/-- A repetition of `[0-9]` matches the texts of digits. -/
theorem Regex.digits_star_rmatch (x : List Char) :
    (RegularExpression.star (Regex.charRange 48 10 + 0) : Regex).rmatch x = true ↔
      ∀ c ∈ x, c.isDigit = true := by
  rw [RegularExpression.star_rmatch_iff]
  constructor
  · rintro ⟨S, rfl, hS⟩ c hc
    obtain ⟨t, ht, hct⟩ := List.mem_flatten.mp hc
    obtain ⟨d, hd, rfl⟩ := (Regex.digit_rmatch t).mp (hS t ht).2
    rw [List.mem_singleton.mp hct]
    exact hd
  · intro h
    refine ⟨x.map fun c => [c], ?_, ?_⟩
    · induction x with
      | nil => rfl
      | cons c cs ih =>
        simp only [List.map_cons, List.flatten_cons, List.singleton_append, List.cons.injEq,
          true_and]
        exact ih fun d hd => h d (List.mem_cons_of_mem _ hd)
    · intro t ht
      obtain ⟨c, hc, rfl⟩ := List.mem_map.mp ht
      exact ⟨by simp, (Regex.digit_rmatch [c]).mpr ⟨c, h c hc, rfl⟩⟩

/-- The parsed pattern of `flush-period`: the bar separates `[0-9]+ms` from `s`, and
neither alternative is anchored. -/
theorem Regex.parse_flush_period :
    Regex.parse "[0-9]+ms|s" = some
      [⟨false, ((Regex.charRange 48 10 + 0) * RegularExpression.star (Regex.charRange 48 10 + 0)) *
          (RegularExpression.char 'm' * (RegularExpression.char 's' * 1)), false⟩,
       ⟨false, RegularExpression.char 's' * 1, false⟩] := by
  rfl

/-- What the first alternative of the pattern of `flush-period` matches: one or more
digits followed by `ms`. -/
theorem Regex.digits_ms_rmatch (x : List Char) :
    (((Regex.charRange 48 10 + 0) * RegularExpression.star (Regex.charRange 48 10 + 0)) *
        (RegularExpression.char 'm' * (RegularExpression.char 's' * 1)) : Regex).rmatch x = true ↔
      ∃ ds : List Char, ds ≠ [] ∧ (∀ c ∈ ds, c.isDigit = true) ∧ x = ds ++ ['m', 's'] := by
  have hd := Regex.digit_rmatch
  have hs := Regex.digits_star_rmatch
  generalize (Regex.charRange 48 10 + 0 : Regex) = D at hd hs
  simp only [RegularExpression.mul_rmatch_iff, RegularExpression.char_rmatch_iff,
    RegularExpression.one_rmatch_iff, hd, hs]
  constructor
  · rintro ⟨t, u, hv, ⟨t1, t2, rfl, ⟨c, hc, rfl⟩, ht2⟩, ⟨u1, u2, rfl, rfl, ⟨w1, w2, rfl, rfl, rfl⟩⟩⟩
    refine ⟨[c] ++ t2, by simp, ?_, by simpa using hv⟩
    intro d hd
    rcases List.mem_append.mp hd with hd | hd
    · rw [List.mem_singleton.mp hd]; exact hc
    · exact ht2 d hd
  · rintro ⟨ds, hne, hds, hv⟩
    cases ds with
    | nil => exact absurd rfl hne
    | cons c cs =>
      exact ⟨c :: cs, ['m', 's'], hv, ⟨[c], cs, rfl, ⟨c, hds c (List.mem_cons_self _ _), rfl⟩,
        fun d hd => hds d (List.mem_cons_of_mem _ hd)⟩,
        ⟨['m'], ['s'], rfl, rfl, ⟨['s'], [], rfl, rfl, rfl⟩⟩⟩

/-- What the second alternative of the pattern of `flush-period` matches: the single
letter `s`. -/
theorem Regex.letter_s_rmatch (x : List Char) :
    (RegularExpression.char 's' * 1 : Regex).rmatch x = true ↔ x = ['s'] := by
  simp only [RegularExpression.mul_rmatch_iff, RegularExpression.char_rmatch_iff,
    RegularExpression.one_rmatch_iff]
  constructor
  · rintro ⟨t, u, hv, rfl, rfl⟩
    simpa using hv
  · intro hv
    exact ⟨['s'], [], by simpa using hv, rfl, rfl⟩

/-- An alternative without anchors matches in a value exactly when its body matches a
stretch of the value. -/
theorem Regex.Branch.matchesIn_free (r : Regex) (v : List Char) :
    (Regex.Branch.mk false r false).matchesIn v = true ↔ ∃ s, s <:+: v ∧ r.rmatch s = true := by
  simp only [Regex.Branch.matchesIn, Bool.false_eq_true, if_false, List.any_eq_true,
    List.mem_tails, List.mem_inits]
  constructor
  · rintro ⟨t, ht, s, hs, hm⟩
    exact ⟨s, List.IsInfix.trans hs.isInfix ht.isInfix, hm⟩
  · rintro ⟨s, ⟨a, b, hab⟩, hm⟩
    exact ⟨s ++ b, ⟨a, by rw [← hab, List.append_assoc]⟩, s, ⟨b, rfl⟩, hm⟩

/-- What the pattern of `flush-period` finds: a value holds a match exactly when it
holds the letter `s`. -/
theorem Regex.search_flush_period (v : String) :
    Regex.search "[0-9]+ms|s" v = true ↔ 's' ∈ v.data := by
  unfold Regex.search
  rw [Regex.parse_flush_period]
  simp only [List.any_cons, List.any_nil, Bool.or_false, Bool.or_eq_true,
    Regex.Branch.matchesIn_free, Regex.digits_ms_rmatch, Regex.letter_s_rmatch]
  constructor
  · rintro (⟨s, hs, ds, _, _, rfl⟩ | ⟨s, hs, rfl⟩)
    · exact hs.subset (by simp)
    · exact hs.subset (by simp)
  · intro h
    right
    obtain ⟨a, b, hab⟩ := List.append_of_mem h
    exact ⟨['s'], ⟨a, b, by rw [hab]; simp⟩, rfl⟩

/-- What the pattern of `flush-period` matches over the full value: one or more digits
followed by `ms`, or the single letter `s`. -/
theorem Regex.fullMatch_flush_period (v : String) :
    Regex.fullMatch "[0-9]+ms|s" v = true ↔
      (∃ ds : List Char, ds ≠ [] ∧ (∀ c ∈ ds, c.isDigit = true) ∧ v.data = ds ++ ['m', 's']) ∨
        v.data = ['s'] := by
  unfold Regex.fullMatch
  rw [Regex.parse_flush_period]
  simp only [List.any_cons, List.any_nil, Bool.or_false, Bool.or_eq_true,
    Regex.digits_ms_rmatch, Regex.letter_s_rmatch]

/-- The pattern the schema writes for the URLs of `elasticsearch.servers` and
`slack.url` is made for a search: it finds the scheme at the start of a URL, and the URL
as a whole does not match it. -/
theorem url_pattern_needs_search :
    Regex.search "^(https?|http?)://" "http://localhost:9200" = true ∧
      Regex.search "^(https?|http?)://" "https://hooks.slack.com/services" = true ∧
      Regex.search "^(https?|http?)://" "see http://localhost:9200" = false ∧
      Regex.fullMatch "^(https?|http?)://" "http://localhost:9200" = false ∧
      Regex.fullMatch "^(https?|http?)://" "https://hooks.slack.com/services" = false := by
  decide

/-- The two checks of `flush-period` pass exactly for the values of two or more
characters that hold the letter `s`. -/
theorem flush_period_errors_nil_iff (v : String) :
    ((if v.length < 2 then [ValidationError.mk [] .TooShort "minLength"] else []) ++
        (if Regex.search "[0-9]+ms|s" v then []
          else [ValidationError.mk [] .PatternMismatch "pattern"])).map
        (ValidationError.under (.key "aggregator") ∘
          ValidationError.under (.key "flush-period")) = [] ↔
      2 ≤ v.length ∧ 's' ∈ v.data := by
  rw [List.map_eq_nil_iff, List.append_eq_nil, ← Regex.search_flush_period]
  constructor
  · rintro ⟨hshort, hpat⟩
    refine ⟨?_, ?_⟩
    · by_contra hl
      rw [if_pos (by omega)] at hshort
      cases hshort
    · by_contra hm
      rw [if_neg hm] at hpat
      cases hpat
  · rintro ⟨hl, hm⟩
    rw [if_neg (by omega), if_pos hm]
    exact ⟨rfl, rfl⟩

/-! ### The shape of the schema -/

set_option maxRecDepth 100000 in
/-- The object-typed nodes of the rendered schema that are not closed-world. -/
theorem open_object_nodes (cfg : schemaConfig) :
    schemaNodesWhere cfg (fun n => n.typeIs "object" && !n.closedWorld) =
      [["definitions", "yara"],
       ["properties", "output", "anyOf", "0", "properties", "amqp", "properties", "headers"]] := by
  rfl

set_option maxRecDepth 100000 in
/-- The rendered schema has 35 object-typed nodes. -/
theorem object_nodes_count (cfg : schemaConfig) :
    (schemaNodesWhere cfg (fun n => n.typeIs "object")).length = 35 := by
  rfl

theorem mem_schemaNodesWhere {cfg : schemaConfig} {f : Json → Bool} {p : SchemaPath} {n : Json}
    (h : (p, n) ∈ (schemaTree cfg).nodes []) (hf : f n = true) :
    p ∈ schemaNodesWhere cfg f := by
  unfold schemaNodesWhere
  exact List.mem_map.mpr ⟨(p, n), List.mem_filter.mpr ⟨h, hf⟩, rfl⟩

/-- C3, counterexample. In the schema rendered with the bounds 64, 512 and 1048576
the node `output.amqp.headers` has type object and sets `additionalProperties` to
true, so it is not closed-world. -/
theorem amqp_headers_not_closed :
    (schemaTree ⟨512, 64, 1048576⟩).getPath
        ["properties", "output", "anyOf", "0", "properties", "amqp", "properties", "headers"] =
      some (.obj [("type", .str "object"), ("additionalProperties", .bool true)]) ∧
    Json.closedWorld (.obj [("type", .str "object"), ("additionalProperties", .bool true)]) =
      false := by
  constructor <;> rfl

/-- C3, amended. For all bounds, every object-typed node of the rendered schema, of
which there are 35, is closed-world, except `definitions.yara`, which leaves
`additionalProperties` unset, and `output.amqp.headers`, which sets it to true. -/
theorem object_nodes_closed_world (cfg : schemaConfig) :
    (∀ p n, (p, n) ∈ (schemaTree cfg).nodes [] → n.typeIs "object" = true →
      n.closedWorld = true ∨ p = ["definitions", "yara"] ∨
      p = ["properties", "output", "anyOf", "0", "properties", "amqp", "properties", "headers"]) ∧
    (schemaNodesWhere cfg (fun n => n.typeIs "object")).length = 35 ∧
    ((schemaTree cfg).getPath ["definitions", "yara"]).map
        (fun n => (n.typeIs "object", n.hasKey "additionalProperties")) = some (true, false) ∧
    (schemaTree cfg).getPath
        ["properties", "output", "anyOf", "0", "properties", "amqp", "properties", "headers"] =
      some (.obj [("type", .str "object"), ("additionalProperties", .bool true)]) := by
  refine ⟨fun p n hmem hobj => ?_, object_nodes_count cfg, rfl, rfl⟩
  by_cases hc : n.closedWorld = true
  · exact Or.inl hc
  · right
    have hp : p ∈ schemaNodesWhere cfg (fun n => n.typeIs "object" && !n.closedWorld) :=
      mem_schemaNodesWhere hmem (by simp [hobj, hc])
    rw [open_object_nodes] at hp
    simpa using hp

set_option maxRecDepth 100000 in
/-- The rendered schema has 16 nodes with an `items` constraint. -/
theorem items_nodes_count (cfg : schemaConfig) :
    (schemaNodesWhere cfg (fun n => n.hasKey "items")).length = 16 := by
  rfl

set_option maxRecDepth 100000 in
/-- The nodes of the rendered schema whose `items` is not a list of schemas. -/
theorem single_schema_items_nodes (cfg : schemaConfig) :
    schemaNodesWhere cfg (fun n => n.hasKey "items" && !n.itemsIsList) =
      [["properties", "alertsenders", "anyOf", "0", "properties", "mail", "properties", "to"],
       ["properties", "alertsenders", "anyOf", "0", "properties", "mail", "then",
         "properties", "to"]] := by
  rfl

/-- C7, counterexample. In the schema rendered with the bounds 64, 512 and 1048576
the array node `alertsenders.mail.to` declares `items` as a single item schema, a JSON
object, not as a list of schemas. -/
theorem mail_to_items_single_schema :
    (schemaTree ⟨512, 64, 1048576⟩).getPath
        ["properties", "alertsenders", "anyOf", "0", "properties", "mail", "properties", "to"] =
      some (.obj [("type", .str "array"),
        ("items", .obj [("type", .str "string"), ("format", .str "email")])]) ∧
    Json.itemsIsList (.obj [("type", .str "array"),
        ("items", .obj [("type", .str "string"), ("format", .str "email")])]) = false := by
  constructor <;> rfl

/-- C7, amended. For all bounds, every `items` constraint of the rendered schema, of
which there are 16, is a list of schema nodes, except the two `items` of
`alertsenders.mail.to`, under `properties` and under `then`, each of which is the single
item schema `{"type": "string", "format": "email"}`. -/
theorem items_are_lists (cfg : schemaConfig) :
    (∀ p n, (p, n) ∈ (schemaTree cfg).nodes [] → n.hasKey "items" = true →
      n.itemsIsList = true ∨
      p = ["properties", "alertsenders", "anyOf", "0", "properties", "mail", "properties",
        "to"] ∨
      p = ["properties", "alertsenders", "anyOf", "0", "properties", "mail", "then",
        "properties", "to"]) ∧
    (schemaNodesWhere cfg (fun n => n.hasKey "items")).length = 16 ∧
    (schemaTree cfg).getPath
        ["properties", "alertsenders", "anyOf", "0", "properties", "mail", "properties", "to",
          "items"] =
      some (.obj [("type", .str "string"), ("format", .str "email")]) ∧
    (schemaTree cfg).getPath
        ["properties", "alertsenders", "anyOf", "0", "properties", "mail", "then",
          "properties", "to", "items"] =
      some (.obj [("type", .str "string"), ("format", .str "email")]) := by
  refine ⟨fun p n hmem hitems => ?_, items_nodes_count cfg, rfl, rfl⟩
  by_cases hl : n.itemsIsList = true
  · exact Or.inl hl
  · right
    have hp : p ∈ schemaNodesWhere cfg (fun n => n.hasKey "items" && !n.itemsIsList) :=
      mem_schemaNodesWhere hmem (by simp [hitems, hl])
    rw [single_schema_items_nodes] at hp
    simpa using hp

set_option maxRecDepth 100000 in
/-- The nodes of the compiled schema that carry a conditional rule. -/
theorem compiled_conditional_nodes (cfg : schemaConfig) :
    compiledNodesWhere cfg Json.hasCondition =
      [["properties", "alertsenders", "anyOf", "0", "properties", "mail"],
       ["properties", "alertsenders", "anyOf", "0", "properties", "slack"],
       ["properties", "transformers", "anyOf", "0", "properties", "remove"],
       ["properties", "transformers", "anyOf", "0", "properties", "rename"],
       ["properties", "transformers", "anyOf", "0", "properties", "replace"],
       ["properties", "transformers", "anyOf", "0", "properties", "tags"],
       ["properties", "transformers", "anyOf", "0", "properties", "trim"],
       Schema.yaraPathsItemPath] := by
  rfl

set_option maxRecDepth 100000 in
/-- The conditional nodes of the compiled schema whose `if` node does not test `enabled`
with `"const": true`. -/
theorem compiled_conditional_nodes_without_test (cfg : schemaConfig) :
    compiledNodesWhere cfg (fun n => n.hasCondition && !n.ifTestsEnabledTrue) =
      [Schema.yaraPathsItemPath] := by
  rfl

set_option maxRecDepth 100000 in
/-- The conditional nodes of the compiled schema that do not declare `enabled` as a
boolean property of their own. -/
theorem compiled_conditional_nodes_without_enabled (cfg : schemaConfig) :
    compiledNodesWhere cfg (fun n => n.hasCondition && !n.declaresEnabledBoolean) =
      [Schema.yaraPathsItemPath] := by
  rfl

theorem mem_compiledNodesWhere {cfg : schemaConfig} {f : Json → Bool} {p : SchemaPath}
    {n : Json} (h : (p, n) ∈ (compiledSchema cfg).nodes []) (hf : f n = true) :
    p ∈ compiledNodesWhere cfg f := by
  unfold compiledNodesWhere
  exact List.mem_map.mpr ⟨(p, n), List.mem_filter.mpr ⟨h, hf⟩, rfl⟩

set_option maxRecDepth 100000 in
/-- The item node of `yara.rule.paths` stands at its path in the compiled schema. -/
theorem compiledSchema_yaraPathsItem (cfg : schemaConfig) :
    (compiledSchema cfg).getPath Schema.yaraPathsItemPath = some Schema.yaraPathsItem := by
  rfl

set_option maxRecDepth 100000 in
/-- No node of the rendered schema has a `required` member. -/
theorem required_nodes (cfg : schemaConfig) :
    schemaNodesWhere cfg (fun n => n.hasKey "required") = [] := by
  rfl

set_option maxRecDepth 100000 in
/-- The top-level properties of the compiled schema that have type object. -/
theorem object_sections (cfg : schemaConfig) :
    ((SchemaNode.properties (compiledSchema cfg)).filter fun kv => kv.2.typeIs "object").map
        Prod.fst =
      ["aggregator", "alertsenders", "api", "handle", "kcap", "filament", "kevent", "kstream",
        "logging", "output", "pe", "transformers", "yara"] := by
  rw [compiledSchema_eq]
  rfl


set_option maxRecDepth 100000 in
/-- The top-level properties of the compiled schema that do not have type object. -/
theorem scalar_sections (cfg : schemaConfig) :
    ((SchemaNode.properties (compiledSchema cfg)).filter
        fun kv => !kv.2.typeIs "object").map Prod.fst = ["config-file", "debug-privilege"] := by
  rw [compiledSchema_eq]
  rfl

set_option maxRecDepth 100000 in
/-- The constraint on `enabled` in the compiled `if` node of the item node of
`yara.rule.paths`: the fragment `#yara`. -/
theorem yaraPathsItem_if_enabled (cfg : schemaConfig) :
    (compiledSchema cfg).getPath
        ["properties", "yara", "properties", "rule", "anyOf", "0", "properties", "paths",
          "items", "0", "if", "properties", "enabled"] =
      some (.obj [("$id", .str "#yara"), ("type", .str "object"),
        ("properties", .obj [("enabled", .obj [("type", .str "boolean")])])]) := by
  rfl
/-! ### Validation against the compiled schema -/

section Evaluation

attribute [local simp] validate_eq nodeErrors typeErrors enumErrors stringErrors numberErrors
  objectErrors memberErrors arrayErrors conditionErrors variantErrors unrecognizedErrors
  overlapErrors declaredMembers positionalErrors eachErrors scalarEq kindMatches
  SchemaNode.kind SchemaNode.properties SchemaNode.additionalPropertiesAllowed
  SchemaNode.required SchemaNode.enum SchemaNode.pattern SchemaNode.format
  SchemaNode.minimum SchemaNode.maximum SchemaNode.minLength SchemaNode.minItems
  SchemaNode.items SchemaNode.condition SchemaNode.variants SchemaNode.declares
  SchemaNode.stringAt SchemaNode.numberAt SchemaNode.natAt SchemaNode.strings
  Json.get? Json.lookup Json.keys ValidationError.under

/-- The violations of an integer value against an integer node with a minimum and a
maximum. -/
theorem validate_bounded_integer (formats : String → String → Bool) (lo hi : Nat) (v : ℤ) :
    validate formats
        (.obj [("type", .str "integer"), ("minimum", .num lo), ("maximum", .num hi)])
        (.num v) =
      (if v < lo then [⟨[], .RangeViolation, "minimum"⟩] else []) ++
      (if (hi : ℤ) < v then [⟨[], .RangeViolation, "maximum"⟩] else []) := by
  have h1 : ((v : ℚ) < (lo : ℚ)) = (v < (lo : ℤ)) := by
    rw [← Int.cast_natCast, Int.cast_lt]
  have h2 : ((hi : ℚ) < (v : ℚ)) = ((hi : ℤ) < v) := by
    rw [← Int.cast_natCast, Int.cast_lt]
  simp [h1, h2]

/-- C2. For all bounds and every integer `v`, the compiled schema accepts `v` for
`kstream.min-buffers` exactly when `1 ≤ v ≤ MinBuffers` and for `kstream.max-buffers`
exactly when `2 ≤ v ≤ MaxBuffers`; each cap is the field's own bound.  With the bounds
64, 512 and 1048576, `min-buffers = 100` is a `RangeViolation` and `max-buffers = 100`
is accepted. -/
theorem kstream_buffers_range (formats : String → String → Bool) (cfg : schemaConfig) (v : ℤ) :
    (validate formats (compiledSchema cfg)
        (.obj [("kstream", .obj [("min-buffers", .num v)])]) = [] ↔
      1 ≤ v ∧ v ≤ cfg.MinBuffers) ∧
    (validate formats (compiledSchema cfg)
        (.obj [("kstream", .obj [("max-buffers", .num v)])]) = [] ↔
      2 ≤ v ∧ v ≤ cfg.MaxBuffers) ∧
    validate formats (compiledSchema ⟨512, 64, 1048576⟩)
        (.obj [("kstream", .obj [("min-buffers", .num 100)])]) =
      [⟨[.key "kstream", .key "min-buffers"], .RangeViolation, "maximum"⟩] ∧
    validate formats (compiledSchema ⟨512, 64, 1048576⟩)
        (.obj [("kstream", .obj [("max-buffers", .num 100)])]) = [] := by
  have hsec : ∀ (cfg : schemaConfig) (d : Json),
      validate formats (compiledSchema cfg) (.obj [("kstream", d)]) =
        (validate formats (Schema.kstream cfg) d).map (ValidationError.under (.key "kstream")) :=
    fun cfg d => validate_section formats cfg "kstream" _ d (by rw [compiledSchema_eq]; rfl)
  have hmin : ∀ (cfg : schemaConfig) (v : ℤ),
      validate formats (Schema.kstream cfg) (.obj [("min-buffers", .num v)]) =
        (validate formats
          (.obj [("type", .str "integer"), ("minimum", .num (1 : ℕ)),
            ("maximum", .num cfg.MinBuffers)])
          (.num v)).map (ValidationError.under (.key "min-buffers")) :=
    fun cfg v => validate_member formats _ _ _ _ (Or.inr rfl) rfl (by simp [Schema.kstream]) rfl rfl rfl
  have hmax : ∀ (cfg : schemaConfig) (v : ℤ),
      validate formats (Schema.kstream cfg) (.obj [("max-buffers", .num v)]) =
        (validate formats
          (.obj [("type", .str "integer"), ("minimum", .num (2 : ℕ)),
            ("maximum", .num cfg.MaxBuffers)])
          (.num v)).map (ValidationError.under (.key "max-buffers")) :=
    fun cfg v => validate_member formats _ _ _ _ (Or.inr rfl) rfl (by simp [Schema.kstream]) rfl rfl rfl
  refine ⟨?_, ?_, ?_, ?_⟩
  · rw [hsec, hmin, validate_bounded_integer]
    simp only [List.map_eq_nil_iff, List.append_eq_nil, ite_eq_right_iff, List.cons_ne_nil,
      imp_false, not_lt, Nat.cast_one]
  · rw [hsec, hmax, validate_bounded_integer]
    simp only [List.map_eq_nil_iff, List.append_eq_nil, ite_eq_right_iff, List.cons_ne_nil,
      imp_false, not_lt, Nat.cast_ofNat]
  · have := hmin ⟨512, 64, 1048576⟩ 100
    rw [hsec, show (Json.num 100) = Json.num ((100 : ℤ) : ℚ) by norm_num, this,
      validate_bounded_integer]
    simp [-validate_eq]
  · have := hmax ⟨512, 64, 1048576⟩ 100
    rw [hsec, show (Json.num 100) = Json.num ((100 : ℤ) : ℚ) by norm_num, this,
      validate_bounded_integer]
    simp [-validate_eq]


/-- C4. For all bounds, against the compiled schema: the document that sets
`alertsenders.mail` to `{enabled: false, to: []}` produces no violation, the `then`
node being skipped; the document that sets it to `{enabled: true, to: []}` produces
exactly one violation, `TooShort` at the path of `to`, from the `minItems` of 1 of the
`then` node. -/
theorem mail_conditional_requirement (formats : String → String → Bool) (cfg : schemaConfig) :
    validate formats (compiledSchema cfg)
        (.obj [("alertsenders",
          .obj [("mail", .obj [("enabled", .bool false), ("to", .arr [])])])]) = [] ∧
    validate formats (compiledSchema cfg)
        (.obj [("alertsenders",
          .obj [("mail", .obj [("enabled", .bool true), ("to", .arr [])])])]) =
      [⟨[.key "alertsenders", .key "mail", .key "to"], .TooShort, "minItems"⟩] := by
  have hsec : ∀ d : Json,
      validate formats (compiledSchema cfg) (.obj [("alertsenders", d)]) =
        (validate formats Schema.alertsenders d).map
          (ValidationError.under (.key "alertsenders")) :=
    fun d => validate_section formats cfg "alertsenders" _ d (by rw [compiledSchema_eq]; rfl)
  constructor
  · rw [hsec]
    simp [Schema.alertsenders]
  · rw [hsec]
    simp [Schema.alertsenders]


/-- C5. For all bounds, against the compiled schema: (1) a document that declares one
key with an empty object under `output` is accepted exactly when the key is `console`,
`elasticsearch` or `amqp`; (2) a document that declares any other key under `output`,
whatever else it declares there, gets an `UnknownProperty` at that key; (3) the
violations of a document that declares only `console` under `output` are exactly the
violations of the value against the `console` node, so no constraint of `elasticsearch`
or `amqp` contributes. -/
theorem output_variant_group (formats : String → String → Bool) (cfg : schemaConfig) :
    (∀ k : String,
      validate formats (compiledSchema cfg) (.obj [("output", .obj [(k, .obj [])])]) = [] ↔
        k = "console" ∨ k = "elasticsearch" ∨ k = "amqp") ∧
    (∀ (kvs : List (String × Json)) (k : String), k ∈ Json.keys kvs →
      k ≠ "console" → k ≠ "elasticsearch" → k ≠ "amqp" →
      ⟨[.key "output", .key k], .UnknownProperty, "anyOf"⟩ ∈
        validate formats (compiledSchema cfg) (.obj [("output", .obj kvs)])) ∧
    ((compiledSchema cfg).getPath
          ["properties", "output", "anyOf", "0", "properties", "console"] =
        some Schema.console ∧
      ∀ d : Json,
        validate formats (compiledSchema cfg) (.obj [("output", .obj [("console", d)])]) =
          (validate formats Schema.console d).map
            (ValidationError.under (.key "output") ∘ ValidationError.under (.key "console"))) := by
  have hsec : ∀ d : Json,
      validate formats (compiledSchema cfg) (.obj [("output", d)]) =
        (validate formats Schema.output d).map (ValidationError.under (.key "output")) :=
    fun d => validate_section formats cfg "output" _ d (by rw [compiledSchema_eq]; rfl)
  have hother : ∀ (kvs : List (String × Json)) (k : String), k ∈ Json.keys kvs →
      k ≠ "console" → k ≠ "elasticsearch" → k ≠ "amqp" →
      ⟨[.key "output", .key k], .UnknownProperty, "anyOf"⟩ ∈
        validate formats (compiledSchema cfg) (.obj [("output", .obj kvs)]) := by
    intro kvs k hk h1 h2 h3
    rw [hsec, List.mem_map]
    refine ⟨⟨[.key k], .UnknownProperty, "anyOf"⟩, ?_, rfl⟩
    rw [validate_eq]
    have hmem := unrecognizedErrors_mem
      (SchemaNode.variants Schema.output |>.getD []) kvs k hk
      (by simp [Schema.output, Ne.symm h1, Ne.symm h2, Ne.symm h3])
    simp only [nodeErrors, variantErrors, List.mem_append]
    right
    have hv : SchemaNode.variants Schema.output =
        some ((SchemaNode.variants Schema.output).getD []) := by
      simp [Schema.output]
    rw [hv]
    simp only [List.mem_append]
    exact Or.inl hmem
  refine ⟨fun k => ⟨fun h => ?_, fun h => ?_⟩, hother, ?_⟩
  · by_contra hk
    simp only [not_or] at hk
    have := hother [(k, .obj [])] k (by simp [Json.keys]) hk.1 hk.2.1 hk.2.2
    rw [h] at this
    simp at this
  · rw [hsec]
    rcases h with rfl | rfl | rfl <;> simp [Schema.output]
  · refine ⟨by rw [compiledSchema_eq]; rfl, fun d => ?_⟩
    rw [hsec, validate_variant_member formats Schema.output Schema.outputVariant "console" d
        (Or.inr rfl) rfl rfl rfl rfl rfl rfl rfl,
      validate_member formats Schema.outputVariant Schema.console "console" d
        (Or.inl rfl) rfl rfl rfl rfl rfl, List.map_map]


/-- For all bounds: no node of the rendered schema, `if` and `then` nodes included, has
a `required` member; against the compiled schema, the empty document produces no
violation, a document that sets one of the object-typed top-level sections to the empty
object produces no violation, and so does a document that sets `enabled` to true and
omits the fields the `then` node constrains in `alertsenders.mail`,
`alertsenders.slack` and each transformer. -/
theorem no_required_consequences (formats : String → String → Bool) (cfg : schemaConfig) :
    (∀ p n, (p, n) ∈ (schemaTree cfg).nodes [] → n.hasKey "required" = false) ∧
    validate formats (compiledSchema cfg) (.obj []) = [] ∧
    (∀ k ∈ ((SchemaNode.properties (compiledSchema cfg)).filter
          fun kv => kv.2.typeIs "object").map Prod.fst,
      validate formats (compiledSchema cfg) (.obj [(k, .obj [])]) = []) ∧
    (∀ k ∈ ["mail", "slack"],
      validate formats (compiledSchema cfg)
        (.obj [("alertsenders", .obj [(k, .obj [("enabled", .bool true)])])]) = []) ∧
    (∀ k ∈ ["remove", "rename", "replace", "tags", "trim"],
      validate formats (compiledSchema cfg)
        (.obj [("transformers", .obj [(k, .obj [("enabled", .bool true)])])]) = []) := by
  have hsec : ∀ (k : String) (c : SchemaNode) (d : Json),
      Json.lookup k (compiledSchema cfg).properties = some c →
      validate formats c d = [] →
      validate formats (compiledSchema cfg) (.obj [(k, d)]) = [] := by
    intro k c d hp hv
    rw [validate_section formats cfg k c d hp, hv]
    rfl
  refine ⟨fun p n hmem => ?_, ?_, ?_, ?_, ?_⟩
  · by_contra hr
    have hp : p ∈ schemaNodesWhere cfg (fun n => n.hasKey "required") :=
      mem_schemaNodesWhere hmem (by simpa using hr)
    rw [required_nodes] at hp
    simp at hp
  · rw [compiledSchema_eq]
    exact validate_empty_object formats _ (Or.inr rfl) rfl rfl rfl
  · intro k hk
    rw [object_sections] at hk
    simp only [List.mem_cons, List.mem_singleton, List.not_mem_nil, or_false] at hk
    rcases hk with rfl | rfl | rfl | rfl | rfl | rfl | rfl | rfl | rfl | rfl | rfl | rfl | rfl
    · exact hsec _ Schema.aggregator _ (by rw [compiledSchema_eq]; rfl)
        (validate_empty_object formats _ (Or.inr rfl) rfl rfl rfl)
    · exact hsec _ Schema.alertsenders _ (by rw [compiledSchema_eq]; rfl)
        (validate_empty_object formats _ (Or.inr rfl) rfl rfl rfl)
    · exact hsec _ Schema.api _ (by rw [compiledSchema_eq]; rfl)
        (validate_empty_object formats _ (Or.inr rfl) rfl rfl rfl)
    · exact hsec _ Schema.handle _ (by rw [compiledSchema_eq]; rfl)
        (validate_empty_object formats _ (Or.inr rfl) rfl rfl rfl)
    · exact hsec _ Schema.kcap _ (by rw [compiledSchema_eq]; rfl)
        (validate_empty_object formats _ (Or.inr rfl) rfl rfl rfl)
    · exact hsec _ Schema.filament _ (by rw [compiledSchema_eq]; rfl)
        (validate_empty_object formats _ (Or.inr rfl) rfl rfl rfl)
    · exact hsec _ Schema.kevent _ (by rw [compiledSchema_eq]; rfl)
        (validate_empty_object formats _ (Or.inr rfl) rfl rfl rfl)
    · exact hsec _ (Schema.kstream cfg) _ (by rw [compiledSchema_eq]; rfl)
        (validate_empty_object formats _ (Or.inr rfl) rfl rfl rfl)
    · exact hsec _ Schema.logging _ (by rw [compiledSchema_eq]; rfl)
        (validate_empty_object formats _ (Or.inr rfl) rfl rfl rfl)
    · exact hsec _ Schema.output _ (by rw [compiledSchema_eq]; rfl)
        (validate_empty_object formats _ (Or.inr rfl) rfl rfl rfl)
    · exact hsec _ Schema.pe _ (by rw [compiledSchema_eq]; rfl)
        (validate_empty_object formats _ (Or.inr rfl) rfl rfl rfl)
    · exact hsec _ Schema.transformers _ (by rw [compiledSchema_eq]; rfl)
        (validate_empty_object formats _ (Or.inr rfl) rfl rfl rfl)
    · exact hsec _ Schema.compiledYara _ (by rw [compiledSchema_eq]; rfl)
        (validate_empty_object formats _ (Or.inr rfl) rfl rfl rfl)
  · intro k hk
    simp only [List.mem_cons, List.mem_singleton, List.not_mem_nil, or_false] at hk
    refine hsec _ Schema.alertsenders _ (by rw [compiledSchema_eq]; rfl) ?_
    rcases hk with rfl | rfl <;> simp [Schema.alertsenders]
  · intro k hk
    simp only [List.mem_cons, List.mem_singleton, List.not_mem_nil, or_false] at hk
    refine hsec _ Schema.transformers _ (by rw [compiledSchema_eq]; rfl) ?_
    rcases hk with rfl | rfl | rfl | rfl | rfl <;> simp [Schema.transformers]


/-- The element `{enabled: true}` of `yara.rule.paths` is rejected: the item node does
not declare `enabled` and forbids additional properties. -/
theorem validate_yara_paths_enabled (formats : String → String → Bool) (cfg : schemaConfig) :
    validate formats (compiledSchema cfg) (yaraPathsDocument (.obj [("enabled", .bool true)])) =
      [⟨[.key "yara", .key "rule", .key "paths", .index 0, .key "enabled"],
        .UnknownProperty, "additionalProperties"⟩] := by
  rw [validate_yara_paths, yaraPathsItem_eq]
  simp

/-- The empty element of `yara.rule.paths` is accepted. -/
theorem validate_yara_paths_empty (formats : String → String → Bool) (cfg : schemaConfig) :
    validate formats (compiledSchema cfg) (yaraPathsDocument (.obj [])) = [] := by
  rw [validate_yara_paths, yaraPathsItem_eq]
  simp

/-- The two top-level properties that are not objects, set to the empty object, are a
`TypeMismatch`. -/
theorem validate_scalar_sections (formats : String → String → Bool) (cfg : schemaConfig) :
    ∀ k ∈ ["config-file", "debug-privilege"],
      validate formats (compiledSchema cfg) (.obj [(k, .obj [])]) =
        [⟨[.key k], .TypeMismatch, "type"⟩] := by
  intro k hk
  simp only [List.mem_cons, List.mem_singleton, List.not_mem_nil, or_false] at hk
  rcases hk with rfl | rfl
  · rw [validate_section formats cfg "config-file" Schema.configFile _
      (by rw [compiledSchema_eq]; rfl)]
    simp [Schema.configFile]
  · rw [validate_section formats cfg "debug-privilege" Schema.debugPrivilege _
      (by rw [compiledSchema_eq]; rfl)]
    simp [Schema.debugPrivilege]

/-- The compiled `if` node of the item node of `yara.rule.paths` is not satisfied by an
element that sets `enabled` to true: it asks for an object there. -/
theorem validate_yara_paths_if (formats : String → String → Bool) :
    validate formats
        (.obj [("properties", .obj [("enabled", .obj [("$id", .str "#yara"),
          ("type", .str "object"),
          ("properties", .obj [("enabled", .obj [("type", .str "boolean")])])])])])
        (.obj [("enabled", .bool true)]) =
      [⟨[.key "enabled"], .TypeMismatch, "type"⟩] := by
  rw [validate_member formats
    (.obj [("properties", .obj [("enabled", .obj [("$id", .str "#yara"),
      ("type", .str "object"),
      ("properties", .obj [("enabled", .obj [("type", .str "boolean")])])])])])
    (.obj [("$id", .str "#yara"), ("type", .str "object"),
      ("properties", .obj [("enabled", .obj [("type", .str "boolean")])])])
    "enabled" (.bool true) (Or.inl rfl) rfl rfl rfl rfl rfl]
  simp

/-- C10, counterexample. Against the schema compiled for the bounds 64, 512 and
1048576, with format validators that accept every value: the document whose
`yara.rule.paths` holds the element `{enabled: true}`, which sets `enabled` to true in
a node with a conditional rule and omits `path`, the field the `then` node constrains,
produces a violation, an `UnknownProperty` at `enabled`; and the document that sets the
declared section `config-file` to the empty object produces a `TypeMismatch`. -/
theorem yara_paths_enabled_true_rejected :
    validate (fun _ _ => true) (compiledSchema ⟨512, 64, 1048576⟩)
        (.obj [("yara", .obj [("rule", .obj [("paths",
          .arr [.obj [("enabled", .bool true)]])])])]) =
      [⟨[.key "yara", .key "rule", .key "paths", .index 0, .key "enabled"],
        .UnknownProperty, "additionalProperties"⟩] ∧
    validate (fun _ _ => true) (compiledSchema ⟨512, 64, 1048576⟩)
        (.obj [("config-file", .obj [])]) =
      [⟨[.key "config-file"], .TypeMismatch, "type"⟩] :=
  ⟨validate_yara_paths_enabled _ _,
    validate_scalar_sections _ _ "config-file" (List.mem_cons_self _ _)⟩

/-- C10, amended. For all bounds: no node of the rendered schema, `if` and `then` nodes
included, has a `required` member.  Against the compiled schema, the empty document
produces no violation.  A document that sets a declared section to the empty object
produces no violation when the section has type object, as thirteen of the fifteen
have; `config-file`, a string, and `debug-privilege`, a boolean, set to the empty
object are a `TypeMismatch`.  A document that sets `enabled` to true and omits the
fields the `then` node constrains produces no violation in seven of the eight nodes with
a conditional rule: `alertsenders.mail` without `to` and `from`, `alertsenders.slack`
without `url`, and each transformer without its list.  In the eighth, the item node of
`yara.rule.paths`, an element that omits `path` produces no violation either, but the
element `{enabled: true}` produces an `UnknownProperty` at `enabled`, which the node
does not declare. -/
theorem nothing_is_required (formats : String → String → Bool) (cfg : schemaConfig) :
    (∀ p n, (p, n) ∈ (schemaTree cfg).nodes [] → n.hasKey "required" = false) ∧
    validate formats (compiledSchema cfg) (.obj []) = [] ∧
    (∀ k ∈ ((SchemaNode.properties (compiledSchema cfg)).filter
          fun kv => kv.2.typeIs "object").map Prod.fst,
      validate formats (compiledSchema cfg) (.obj [(k, .obj [])]) = []) ∧
    ((SchemaNode.properties (compiledSchema cfg)).filter
          fun kv => !kv.2.typeIs "object").map Prod.fst = ["config-file", "debug-privilege"] ∧
    (∀ k ∈ ["config-file", "debug-privilege"],
      validate formats (compiledSchema cfg) (.obj [(k, .obj [])]) =
        [⟨[.key k], .TypeMismatch, "type"⟩]) ∧
    (∀ k ∈ ["mail", "slack"],
      validate formats (compiledSchema cfg)
        (.obj [("alertsenders", .obj [(k, .obj [("enabled", .bool true)])])]) = []) ∧
    (∀ k ∈ ["remove", "rename", "replace", "tags", "trim"],
      validate formats (compiledSchema cfg)
        (.obj [("transformers", .obj [(k, .obj [("enabled", .bool true)])])]) = []) ∧
    validate formats (compiledSchema cfg)
        (.obj [("yara", .obj [("rule", .obj [("paths", .arr [.obj []])])])]) = [] ∧
    validate formats (compiledSchema cfg)
        (.obj [("yara", .obj [("rule", .obj [("paths",
          .arr [.obj [("enabled", .bool true)]])])])]) =
      [⟨[.key "yara", .key "rule", .key "paths", .index 0, .key "enabled"],
        .UnknownProperty, "additionalProperties"⟩] := by
  obtain ⟨h1, h2, h3, h4, h5⟩ := no_required_consequences formats cfg
  exact ⟨h1, h2, h3, scalar_sections cfg, validate_scalar_sections formats cfg, h4, h5,
    validate_yara_paths_empty formats cfg, validate_yara_paths_enabled formats cfg⟩

/-- C8, at the failing node. For all bounds, eight nodes of the compiled schema carry a
conditional rule.  In seven of them the `if` node tests `enabled` with `"const": true`
and the node declares `enabled` with type boolean.  The eighth, the item node of
`yara.rule.paths` (lines 384 to 397 of schema.go), does neither.  Its properties are
`path` and `namespace` and it forbids additional properties, so that no document may set
`enabled` there: every element that has the key gets an `UnknownProperty`.  In the text
its `if` node constrains `enabled` by the reference `#yara` with a `const` beside it; a
reference replaces the node that holds it, so the compiled `if` node holds the fragment
`#yara` for `enabled` and no `const`, and `enabled: true` does not satisfy it.  Its
`then` node sets `minLength` to 0 for `path`, which nothing violates: the rule has no
effect. -/
theorem yara_paths_condition_tests_no_sibling (formats : String → String → Bool)
    (cfg : schemaConfig) :
    compiledNodesWhere cfg Json.hasCondition =
      [["properties", "alertsenders", "anyOf", "0", "properties", "mail"],
       ["properties", "alertsenders", "anyOf", "0", "properties", "slack"],
       ["properties", "transformers", "anyOf", "0", "properties", "remove"],
       ["properties", "transformers", "anyOf", "0", "properties", "rename"],
       ["properties", "transformers", "anyOf", "0", "properties", "replace"],
       ["properties", "transformers", "anyOf", "0", "properties", "tags"],
       ["properties", "transformers", "anyOf", "0", "properties", "trim"],
       ["properties", "yara", "properties", "rule", "anyOf", "0", "properties", "paths",
         "items", "0"]] ∧
    (∀ p n, (p, n) ∈ (compiledSchema cfg).nodes [] → n.hasCondition = true →
      p ≠ ["properties", "yara", "properties", "rule", "anyOf", "0", "properties", "paths",
        "items", "0"] →
      n.ifTestsEnabledTrue = true ∧ n.declaresEnabledBoolean = true) ∧
    (compiledSchema cfg).getPath
        ["properties", "yara", "properties", "rule", "anyOf", "0", "properties", "paths",
          "items", "0"] = some Schema.yaraPathsItem ∧
    (Schema.yaraPathsItem.hasCondition, Schema.yaraPathsItem.ifTestsEnabledTrue,
        Schema.yaraPathsItem.declaresEnabledBoolean, Schema.yaraPathsItem.propertyNames,
        Schema.yaraPathsItem.setsAdditionalPropertiesFalse) =
      (true, false, false, ["path", "namespace"], true) ∧
    (schemaTree cfg).getPath
        ["properties", "yara", "properties", "rule", "anyOf", "0", "properties", "paths",
          "items", "0", "if", "properties", "enabled"] =
      some (.obj [("$ref", .str "#yara"), ("const", .bool true)]) ∧
    (compiledSchema cfg).getPath
        ["properties", "yara", "properties", "rule", "anyOf", "0", "properties", "paths",
          "items", "0", "if", "properties", "enabled"] =
      some (.obj [("$id", .str "#yara"), ("type", .str "object"),
        ("properties", .obj [("enabled", .obj [("type", .str "boolean")])])]) ∧
    (∀ kvs : List (String × Json), "enabled" ∈ Json.keys kvs →
      ⟨[.key "yara", .key "rule", .key "paths", .index 0, .key "enabled"],
          .UnknownProperty, "additionalProperties"⟩ ∈
        validate formats (compiledSchema cfg)
          (.obj [("yara", .obj [("rule", .obj [("paths", .arr [.obj kvs])])])])) ∧
    (SchemaNode.condition Schema.yaraPathsItem).map
        (fun c => validate formats c.1 (.obj [("enabled", .bool true)])) =
      some [⟨[.key "enabled"], .TypeMismatch, "type"⟩] ∧
    ∀ d : Json,
      (SchemaNode.condition Schema.yaraPathsItem).map (fun c => validate formats c.2 d) =
        some [] := by
  refine ⟨compiled_conditional_nodes cfg, fun p n hmem hcond hp => ⟨?_, ?_⟩,
    compiledSchema_yaraPathsItem cfg, rfl, rfl, yaraPathsItem_if_enabled cfg,
    fun kvs hk => ?_, ?_, fun d => ?_⟩
  · by_contra ht
    have hq : p ∈ compiledNodesWhere cfg (fun n => n.hasCondition && !n.ifTestsEnabledTrue) :=
      mem_compiledNodesWhere hmem (by simp [hcond, ht])
    rw [compiled_conditional_nodes_without_test] at hq
    exact hp (List.mem_singleton.mp hq)
  · by_contra hd
    have hq : p ∈ compiledNodesWhere cfg
        (fun n => n.hasCondition && !n.declaresEnabledBoolean) :=
      mem_compiledNodesWhere hmem (by simp [hcond, hd])
    rw [compiled_conditional_nodes_without_enabled] at hq
    exact hp (List.mem_singleton.mp hq)
  · show _ ∈ validate formats (compiledSchema cfg) (yaraPathsDocument (.obj kvs))
    rw [validate_yara_paths]
    exact List.mem_map.mpr ⟨_, yaraPathsItem_enabled_unknown formats kvs hk, rfl⟩
  · rw [yaraPathsItem_eq]
    simp only [SchemaNode.condition, Json.get?, Json.lookup, Option.map_some']
    simp only [reduceCtorEq, if_false, if_true, Option.map_some', String.reduceEq]
    exact congrArg some (validate_yara_paths_if formats)
  · rw [yaraPathsItem_eq]
    simp only [SchemaNode.condition, Json.get?, Json.lookup, Option.map_some']
    simp only [reduceCtorEq, if_false, if_true, Option.map_some', String.reduceEq]
    exact congrArg some (validate_yara_paths_then formats d)

/-- The violations of a string against the node of `aggregator.flush-period`. -/
theorem validate_flush_period (formats : String → String → Bool) (cfg : schemaConfig)
    (v : String) :
    validate formats (compiledSchema cfg)
        (.obj [("aggregator", .obj [("flush-period", .str v)])]) =
      ((if v.length < 2 then [ValidationError.mk [] .TooShort "minLength"] else []) ++
        (if Regex.search "[0-9]+ms|s" v then []
          else [ValidationError.mk [] .PatternMismatch "pattern"])).map
        (ValidationError.under (.key "aggregator") ∘
          ValidationError.under (.key "flush-period")) := by
  rw [validate_section formats cfg "aggregator" Schema.aggregator _
      (by rw [compiledSchema_eq]; rfl),
    validate_member formats Schema.aggregator
      (.obj [("type", .str "string"), ("minLength", .num 2), ("pattern", .str "[0-9]+ms|s")])
      "flush-period" _ (Or.inr rfl) rfl rfl rfl rfl rfl, List.map_map]
  congr 1
  simp

/-- C9, at the failing input. For all bounds, against the compiled schema, the value
`xs` of `aggregator.flush-period`, which holds no digit, is accepted: the pattern
`[0-9]+ms|s` is neither anchored nor grouped, the bar binds loosest, and the search
finds its second alternative, the letter `s`.  For every string, the value is accepted
exactly when it has two or more characters and holds the letter `s`: `10s` and `500ms`
are accepted, and so are `ms` and `s10`; `10` is a `PatternMismatch`.  Under the words
of section 4.2 taken alone, a match over the full value, the pattern matches the digits
followed by `ms` and the lone `s`, and not `10s`.  Under neither reading does the node
accept exactly the digits followed by `ms` or by `s`. -/
theorem flush_period_accepts_without_digits (formats : String → String → Bool)
    (cfg : schemaConfig) :
    (validate formats (compiledSchema cfg)
          (.obj [("aggregator", .obj [("flush-period", .str "xs")])]) = [] ∧
      ∀ c ∈ "xs".data, c.isDigit = false) ∧
    (∀ v : String,
      validate formats (compiledSchema cfg)
          (.obj [("aggregator", .obj [("flush-period", .str v)])]) = [] ↔
        2 ≤ v.length ∧ 's' ∈ v.data) ∧
    validate formats (compiledSchema cfg)
        (.obj [("aggregator", .obj [("flush-period", .str "10s")])]) = [] ∧
    validate formats (compiledSchema cfg)
        (.obj [("aggregator", .obj [("flush-period", .str "500ms")])]) = [] ∧
    validate formats (compiledSchema cfg)
        (.obj [("aggregator", .obj [("flush-period", .str "ms")])]) = [] ∧
    validate formats (compiledSchema cfg)
        (.obj [("aggregator", .obj [("flush-period", .str "s10")])]) = [] ∧
    validate formats (compiledSchema cfg)
        (.obj [("aggregator", .obj [("flush-period", .str "10")])]) =
      [⟨[.key "aggregator", .key "flush-period"], .PatternMismatch, "pattern"⟩] ∧
    (∀ v : String, Regex.fullMatch "[0-9]+ms|s" v = true ↔
      (∃ ds : List Char, ds ≠ [] ∧ (∀ c ∈ ds, c.isDigit = true) ∧
        v.data = ds ++ ['m', 's']) ∨ v.data = ['s']) ∧
    Regex.fullMatch "[0-9]+ms|s" "10s" = false := by
  have hall : ∀ v : String,
      validate formats (compiledSchema cfg)
          (.obj [("aggregator", .obj [("flush-period", .str v)])]) = [] ↔
        2 ≤ v.length ∧ 's' ∈ v.data := by
    intro v
    rw [validate_flush_period]
    exact flush_period_errors_nil_iff v
  have h10 : Regex.search "[0-9]+ms|s" "10" = false := by decide
  refine ⟨⟨(hall "xs").mpr (by decide), by decide⟩, hall, (hall "10s").mpr (by decide),
    (hall "500ms").mpr (by decide), (hall "ms").mpr (by decide), (hall "s10").mpr (by decide),
    ?_, Regex.fullMatch_flush_period, by decide⟩
  rw [validate_flush_period, h10]
  decide

end Evaluation


end Fibratus
